import Mathlib

/-!
# libWetCloth: `TwoDSceneRenderer`

A shallow embedding of `libWetCloth/App/TwoDSceneRenderer.cpp`.

* `scalar` (a C++ `double`) is read as an exact rational number: the development is about
  the real-number meaning of the arithmetic, not about rounding.
* C++ `int` values are integers; the one place where the source converts an `int` to
  `size_t` (the group colour lookup) is modelled with an explicit reduction modulo `2^64`.
* A read outside an array, a remainder by zero and a failed `assert` have no defined
  result; the embedding returns `none` there.
* The OpenGL calls of `renderParticleSimulation` are recorded as a list of `GLCmd`.
-/

namespace WetCloth

/-! ## Scalars and small vectors -/

/-- The `scalar` type of the library. -/
abbrev scalar := ℚ

/-- Eigen `Vector3s`: three scalars, read in the source as `c(0)`, `c(1)`, `c(2)`. -/
structure Vector3s where
  x : scalar
  y : scalar
  z : scalar
  deriving DecidableEq, Repr

/-- Eigen `Vector3s::Constant(c)`. -/
def Vector3s.Constant (c : scalar) : Vector3s := ⟨c, c, c⟩

/-- Eigen `v * s`. -/
def Vector3s.scale (v : Vector3s) (s : scalar) : Vector3s := ⟨v.x * s, v.y * s, v.z * s⟩

/-- Eigen `v + w`. -/
def Vector3s.add (v w : Vector3s) : Vector3s := ⟨v.x + w.x, v.y + w.y, v.z + w.z⟩

instance : HMul Vector3s scalar Vector3s := ⟨Vector3s.scale⟩

instance : Add Vector3s := ⟨Vector3s.add⟩

/-- Eigen `Vector3i`, read as `idx(0)`, `idx(1)`, `idx(2)`; also one row of the face matrix. -/
structure Vector3i where
  i0 : Int
  i1 : Int
  i2 : Int
  deriving DecidableEq, Repr

/-- Component `idx(r)` for `r = 0, 1, 2`. -/
def Vector3i.coeff (v : Vector3i) (r : Nat) : Int :=
  match r with
  | 0 => v.i0
  | 1 => v.i1
  | _ => v.i2

/-- Eigen `VectorXs`: a dynamically sized array of scalars. -/
abbrev VectorXs := List scalar

/-- Coefficient read `v(i)` / `v[i]` with an `int` index; undefined outside the array. -/
def VectorXs.coeff (v : VectorXs) (i : Int) : Option scalar :=
  if 0 ≤ i then v[i.toNat]? else none

/-- Fixed-size block `v.segment<3>(i)`; undefined unless `i, i+1, i+2` are all inside. -/
def VectorXs.segment3 (v : VectorXs) (i : Int) : Option Vector3s :=
  if 0 ≤ i then
    match v[i.toNat]?, v[i.toNat + 1]?, v[i.toNat + 2]? with
    | some a, some b, some c => some ⟨a, b, c⟩
    | _, _, _ => none
  else none

/-! ## Module-level colour constants (lines 50-67) -/

def vertex_color : Vector3s := ⟨0.650980392156863, 0.294117647058824, 0.0⟩
def edge_color : Vector3s := ⟨0.0, 0.388235294117647, 0.388235294117647⟩
def def_grad_color : Vector3s := ⟨0.85, 0.45, 0.0⟩
def sat_color : Vector3s := ⟨0.0, 0.0, 1.0⟩
def node_color_x : Vector3s := ⟨0.650980392156863, 0.1470588235, 0.1470588235⟩
def node_color_y : Vector3s := ⟨0.1470588235, 0.650980392156863, 0.1470588235⟩
def node_color_z : Vector3s := ⟨0.1470588235, 0.650980392156863, 0.650980392156863⟩
def node_color_ex : Vector3s := ⟨0.451, 0.054, 0.298⟩
def node_color_ey : Vector3s := ⟨0.298, 0.451, 0.054⟩
def node_color_ez : Vector3s := ⟨0.054, 0.298, 0.451⟩
def node_color_p : Vector3s := ⟨0.0, 0.0, 0.0⟩
def node_color_solid_phi : Vector3s := ⟨0.85, 0.85, 0.0⟩
def gauss_color : Vector3s := ⟨0.388235294117647, 0.388235294117647, 0.0⟩
def fluid_color : Vector3s := ⟨0, 0, 1⟩
def bucket_color : Vector3s := ⟨0.85, 0.85, 0.85⟩
def face_color : Vector3s := ⟨0.75, 0.75, 0.75⟩
def face_color2 : Vector3s := ⟨0.45, 0.45, 0.45⟩
def attach_color : Vector3s := ⟨1.0, 0, 0.0⟩

/-! ## `RenderInfo` (declared in `TwoDSceneRenderer.h`) -/

/-- Node view selector `RenderInfo::RI_NV_*`. -/
inductive NodeView
  | RI_NV_NONE
  | RI_NV_CONSTANT
  | RI_NV_SOLID_PHI
  deriving DecidableEq, Repr

/-- Face-center view selector `RenderInfo::RI_FCV_*`. -/
inductive FaceCenterView
  | RI_FCV_NONE
  | RI_FCV_CONSTANT
  | RI_FCV_SOLID_VOL
  | RI_FCV_LIQUID_VOL
  deriving DecidableEq, Repr

/-- Edge-center view selector `RenderInfo::RI_ECV_*`. -/
inductive EdgeCenterView
  | RI_ECV_NONE
  | RI_ECV_CONSTANT
  deriving DecidableEq, Repr

/-- Cell-center view selector `RenderInfo::RI_CCV_*`. -/
inductive CellCenterView
  | RI_CCV_NONE
  | RI_CCV_CONSTANT
  | RI_CCV_LIQUID_PHI
  deriving DecidableEq, Repr

/-- The render configuration `m_info`; the fields are the ones the source file reads and
writes. -/
structure RenderInfo where
  render_particles : Bool
  render_vertices : Bool
  render_gauss : Bool
  render_particle_velocity : Bool
  render_vertice_velocity : Bool
  render_gauss_velocity : Bool
  render_cloth : Bool
  render_yarn : Bool
  render_levelset : Bool
  render_spring : Bool
  render_cohesion : Bool
  render_deformation_gradient_length : scalar
  render_buckets : Bool
  render_velocity_length : scalar
  render_nodes : NodeView
  render_face_centers : FaceCenterView
  render_edge_centers : EdgeCenterView
  render_cell_centers : CellCenterView
  deriving DecidableEq, Repr

/-! ## Integer conversions -/

/-- Largest value of a C++ `int` (32 bits). -/
def INT_MAX : Int := 2147483647

/-- Implicit conversion of an `int` to the unsigned 64-bit `size_t`: reduction modulo `2^64`. -/
def size_t_of_int (g : Int) : Nat := (g % 2 ^ 64).toNat

/-- `std::max_element` followed by a dereference: the largest element of a non-empty range,
found by the scan `if (*largest < *first) largest = first`. -/
def max_element : List Int → Option Int
  | [] => none
  | g :: gs => some (gs.foldl (fun largest h => if largest < h then h else largest) g)

/-- Element read `v[i]` of a `std::vector` or Eigen array with an `int` index; there is no
defined result outside the array. -/
def readAt {α : Type} (v : List α) (i : Int) : Option α :=
  if 0 ≤ i then v[i.toNat]? else none

/-- `std::max(a, b)`, which is `(a < b) ? b : a`. -/
def std_max (a b : scalar) : scalar := if a < b then b else a

/-- Modelled from the spec: `mathutils::clamp` of `MathUtilities.h`, which is not part of
the source file: the value limited to the interval from `lower` to `upper`. -/
def mathutils_clamp (a lower upper : scalar) : scalar :=
  if a < lower then lower else if a > upper then upper else a

/-- The saturation expression of lines 156, 171, 194 and 195:
`mathutils::clamp(fvol(p) / std::max(1e-12, vol(p)), 0.0, 1.0)`. -/
def saturation (fvol vol : scalar) : scalar :=
  mathutils_clamp (fvol / std_max 1e-12 vol) 0.0 1.0

/-! ## The scene (`TwoDScene`, consumed through its accessors) -/

/-- One cohesion record `RayTriInfo`: the fields the renderer reads (`end` is spelled
`endp`, the word being reserved). -/
structure RayTriInfo where
  volume_frac : scalar
  endp : Vector3s
  deriving DecidableEq, Repr

/-- An attachment constraint, through `getKs()` and `getParticleIndex()`. -/
structure AttachForce where
  getKs : scalar
  getParticleIndex : Int
  deriving DecidableEq, Repr

/-- The bucket lattice `Sorter`, through its extents `ni`, `nj`, `nk`. -/
structure Sorter where
  ni : Int
  nj : Int
  nk : Int
  deriving DecidableEq, Repr

/-- Eigen `Quaternion<scalar>`. -/
structure Quaternion where
  w : scalar
  x : scalar
  y : scalar
  z : scalar
  deriving DecidableEq, Repr

/-- Usage tag of a boundary object. The source file names `DFU_SOLID` and
`DFU_TERMINATOR`; every other tag of the enumeration is `DFU_OTHER`. -/
inductive DistanceFieldUsage
  | DFU_SOLID
  | DFU_TERMINATOR
  | DFU_OTHER (tag : Nat)
  deriving DecidableEq, Repr

/-- The arguments a boundary object hands to the drawing callback for one mesh:
vertices, index triples, rotation, translation and a further scalar the callback ignores. -/
structure FieldMesh where
  vertices : List Vector3s
  indices : List Vector3i
  rot : Quaternion
  center : Vector3s
  sign : scalar
  deriving DecidableEq, Repr

/-- Modelled from the spec: a boundary object `DistanceField` (declared in
`DistanceFields.h`, not part of the source file). It exposes a usage tag and a render
operation that invokes the drawing callback once per mesh, in order; `meshes` lists the
calls it makes. -/
structure DistanceField where
  usage : DistanceFieldUsage
  meshes : List FieldMesh
  deriving DecidableEq, Repr

/-- Eigen `MatrixXs`, as its list of rows. -/
abbrev MatrixXs := List (List scalar)

/-- Column block `m.block<3, 1>(r, c)`: rows `r, r+1, r+2` of column `c`. -/
def MatrixXs.block31 (m : MatrixXs) (r c : Int) : Option Vector3s :=
  match readAt m r, readAt m (r + 1), readAt m (r + 2) with
  | some r0, some r1, some r2 =>
    match readAt r0 c, readAt r1 c, readAt r2 c with
    | some a, some b, some d => some ⟨a, b, d⟩
    | _, _, _ => none
  | _, _, _ => none

/-- What the renderer can observe of a `TwoDScene`: one field per accessor it calls.
Per-bucket accessors are lists indexed by the bucket number. -/
structure TwoDScene where
  getX : VectorXs
  getRestPos : VectorXs
  getGaussX : VectorXs
  getV : VectorXs
  getGaussV : VectorXs
  getVol : VectorXs
  getFluidVol : VectorXs
  getFluidV : VectorXs
  getVolumeFraction : VectorXs
  getFaces : List Vector3i
  getGaussFe : MatrixXs
  getNumEdges : Int
  getEdges : List (Int × Int)
  getIntersections : List (List RayTriInfo)
  getNumGausses : Int
  getCellSize : scalar
  getNumParticles : Int
  getParticleGroup : List Int
  getAttachForces : List AttachForce
  getParticleBuckets : Sorter
  getBucketMinCorner : Vector3s
  getBucketLength : scalar
  getNumBuckets : Int
  getNodePosSolidPhi : List VectorXs
  getNodeSolidPhi : List VectorXs
  getNodePosX : List VectorXs
  getNodePosY : List VectorXs
  getNodePosZ : List VectorXs
  getNodePsiX : List VectorXs
  getNodePsiY : List VectorXs
  getNodePsiZ : List VectorXs
  getNodeSaturationX : List VectorXs
  getNodeSaturationY : List VectorXs
  getNodeSaturationZ : List VectorXs
  getNodePosEX : List VectorXs
  getNodePosEY : List VectorXs
  getNodePosEZ : List VectorXs
  getNodePosP : List VectorXs
  getNodeLiquidPhi : List VectorXs
  getNumFluidParticles : Int
  getFluidIndices : List Int
  getNumSoftElastoParticles : Int
  getGroupDistanceField : List DistanceField
  deriving Repr

/-- A scene with no particles, no mesh, no grid and no boundary. -/
def TwoDScene.empty : TwoDScene :=
  { getX := [], getRestPos := [], getGaussX := [], getV := [], getGaussV := [], getVol := [],
    getFluidVol := [], getFluidV := [], getVolumeFraction := [], getFaces := [],
    getGaussFe := [], getNumEdges := 0, getEdges := [], getIntersections := [],
    getNumGausses := 0, getCellSize := 1, getNumParticles := 0, getParticleGroup := [],
    getAttachForces := [], getParticleBuckets := ⟨0, 0, 0⟩, getBucketMinCorner := ⟨0, 0, 0⟩,
    getBucketLength := 1, getNumBuckets := 0, getNodePosSolidPhi := [], getNodeSolidPhi := [],
    getNodePosX := [], getNodePosY := [], getNodePosZ := [], getNodePsiX := [],
    getNodePsiY := [], getNodePsiZ := [], getNodeSaturationX := [], getNodeSaturationY := [],
    getNodeSaturationZ := [], getNodePosEX := [], getNodePosEY := [], getNodePosEZ := [],
    getNodePosP := [], getNodeLiquidPhi := [], getNumFluidParticles := 0,
    getFluidIndices := [], getNumSoftElastoParticles := 0, getGroupDistanceField := [] }

/-! ## The renderer and its constructor (lines 70-102) -/

/-- The renderer object: the configuration `m_info` and the group colour table
`m_group_colors`. -/
structure TwoDSceneRenderer where
  m_info : RenderInfo
  m_group_colors : List Vector3s
  deriving DecidableEq, Repr

/-- Lines 72-90: the values the constructor stores in `m_info`. -/
def TwoDSceneRenderer.init_info : RenderInfo :=
  { render_particles := true
    render_vertices := false
    render_gauss := false
    render_particle_velocity := false
    render_vertice_velocity := false
    render_gauss_velocity := false
    render_cloth := true
    render_yarn := true
    render_levelset := true
    render_spring := true
    render_cohesion := false
    render_deformation_gradient_length := 0.0
    render_buckets := false
    render_velocity_length := 10.0
    render_nodes := NodeView.RI_NV_NONE
    render_face_centers := FaceCenterView.RI_FCV_NONE
    render_edge_centers := EdgeCenterView.RI_ECV_NONE
    render_cell_centers := CellCenterView.RI_CCV_NONE }

/-- Lines 95-100 for a given `num_group >= 0`: `resize(num_group)` and then
`m_group_colors[i] = Vector3s::Constant((scalar) i / (scalar) num_group)` for every
`i < num_group`. -/
def fill_group_colors (num_group : Int) : List Vector3s :=
  (List.range num_group.toNat).map
    (fun (i : Nat) => Vector3s.Constant ((i : scalar) / (num_group : scalar)))

/-- Lines 92-101: the group colour table. With no group ids the table stays empty.
Otherwise `num_group` is the largest id plus one, computed in `int` (no defined result if
that exceeds `INT_MAX`); `resize(num_group)` converts `num_group` to `size_t`, so a negative
`num_group` asks for more than `max_size()` elements and `resize` throws: no table. -/
def build_group_colors (groups : List Int) : Option (List Vector3s) :=
  match max_element groups with
  | none => some []
  | some m =>
    let num_group := m + 1
    if INT_MAX < num_group then none
    else if num_group < 0 then none
    else some (fill_group_colors num_group)

/-- The constructor `TwoDSceneRenderer::TwoDSceneRenderer(const TwoDScene& scene)`;
`none` when it does not return. -/
def TwoDSceneRenderer.new (scene : TwoDScene) : Option TwoDSceneRenderer :=
  match build_group_colors scene.getParticleGroup with
  | none => none
  | some colors => some { m_info := TwoDSceneRenderer.init_info, m_group_colors := colors }

/-- The group colour lookup of lines 197-198,
`m_group_colors[g % m_group_colors.size()]` for an `int` group id `g`: `g` is converted to
`size_t` and reduced modulo the table size. With an empty table the remainder is a
remainder by zero and there is no colour. -/
def colorOf (m_group_colors : List Vector3s) (g : Int) : Option Vector3s :=
  if m_group_colors.length = 0 then none
  else m_group_colors[size_t_of_int g % m_group_colors.length]?

/-- The two-colour blend written out at lines 157, 197 and 198:
`a * (1.0 - sat) + b * sat`. -/
def blend (a b : Vector3s) (sat : scalar) : Vector3s := a * (1.0 - sat) + b * sat

/-! ## The OpenGL calls the renderer issues -/

/-- Second argument of `glPolygonMode(GL_FRONT_AND_BACK, mode)`. -/
inductive GLPolygonMode
  | GL_FILL
  | GL_LINE
  deriving DecidableEq, Repr

/-- Argument of `glBegin`. -/
inductive GLPrimitive
  | GL_POINTS
  | GL_LINES
  | GL_TRIANGLES
  deriving DecidableEq, Repr

/-- Argument of `glEnable` / `glDisable`. -/
inductive GLCapability
  | GL_BLEND
  | GL_DEPTH_TEST
  | GL_POLYGON_STIPPLE
  deriving DecidableEq, Repr

/-- One OpenGL call with its arguments. `glBlendFunc` is always called with
`(GL_SRC_ALPHA, GL_ONE_MINUS_SRC_ALPHA)` and `glPolygonMode` with `GL_FRONT_AND_BACK`.
`glRotated rot` stands for `glRotated(rotaa.angle() * 180.0 / M_PI, rotaa.axis()(0),
rotaa.axis()(1), rotaa.axis()(2))` with `rotaa` the angle-axis form of the quaternion
`rot`: the rotation is kept as the quaternion it is computed from. -/
inductive GLCmd
  | glPolygonMode (mode : GLPolygonMode)
  | glBegin (mode : GLPrimitive)
  | glEnd
  | glColor3d (r g b : scalar)
  | glColor3dv (v : Vector3s)
  | glColor4d (r g b a : scalar)
  | glVertex3dv (v : Vector3s)
  | glLineWidth (width : scalar)
  | glPointSize (size : scalar)
  | glEnable (cap : GLCapability)
  | glDisable (cap : GLCapability)
  | glBlendFunc
  | glPushMatrix
  | glPopMatrix
  | glTranslated (x y z : scalar)
  | glRotated (rot : Quaternion)
  deriving DecidableEq, Repr

open GLCmd GLPolygonMode GLPrimitive GLCapability

/-- A range-based `for` loop whose body issues calls: the calls of the iterations in
order; no result as soon as one iteration has none. -/
def forEach {α : Type} (xs : List α) (body : α → Option (List GLCmd)) :
    Option (List GLCmd) :=
  match xs with
  | [] => some []
  | x :: rest =>
    match body x with
    | none => none
    | some t =>
      match forEach rest body with
      | none => none
      | some ts => some (t ++ ts)

/-- The counting loop `for (int i = 0; i < n; ++i)`. -/
def forRange (n : Int) (body : Int → Option (List GLCmd)) : Option (List GLCmd) :=
  forEach ((List.range n.toNat).map (fun (i : Nat) => (i : Int))) body

/-- The counting loop `for (int i = 0; i <= n; ++i)`. -/
def forRangeIncl (n : Int) (body : Int → Option (List GLCmd)) : Option (List GLCmd) :=
  forRange (n + 1) body

/-- Statements in sequence. -/
def sequence (parts : List (Option (List GLCmd))) : Option (List GLCmd) :=
  forEach parts (fun part => part)

/-! ## `renderParticleSimulation`, category by category -/

/-- Lines 155-160: one vertex of the filled cloth pass, for the particle index `p = f(r)`. -/
def clothFillVertex (scene : TwoDScene) (p : Int) : Option (List GLCmd) :=
  match scene.getFluidVol.coeff p, scene.getVol.coeff p, scene.getX.segment3 (p * 4) with
  | some fv, some vl, some px =>
    let sat := saturation fv vl
    let c := face_color * (1.0 - sat) + fluid_color * sat
    some [glColor3d c.x c.y c.z, glVertex3dv px]
  | _, _, _ => none

/-- Lines 170-175: one vertex of the wireframe cloth pass. -/
def clothLineVertex (scene : TwoDScene) (p : Int) : Option (List GLCmd) :=
  match scene.getFluidVol.coeff p, scene.getVol.coeff p, scene.getX.segment3 (p * 4) with
  | some fv, some vl, some px =>
    let sat := saturation fv vl
    let c := (face_color2 * (1.0 - sat) + fluid_color * sat) * (0.85 : scalar)
              + face_color2 * (0.15 : scalar)
    some [glColor3d c.x c.y c.z, glVertex3dv px]
  | _, _, _ => none

/-- Lines 146-179: the cloth faces, a filled pass and then a wireframe pass. -/
def renderCloth (render_cloth : Bool) (scene : TwoDScene) : Option (List GLCmd) :=
  if render_cloth then
    sequence [
      some [glPolygonMode GL_FILL, glBegin GL_TRIANGLES],
      forEach scene.getFaces (fun f =>
        forEach [0, 1, 2] (fun r => clothFillVertex scene (f.coeff r))),
      some [glEnd, glPolygonMode GL_LINE, glBegin GL_TRIANGLES],
      forEach scene.getFaces (fun f =>
        forEach [0, 1, 2] (fun r => clothLineVertex scene (f.coeff r))),
      some [glEnd, glPolygonMode GL_FILL]]
  else some []

/-- Lines 192-204: one fiber edge `(edges(i, 0), edges(i, 1))`. -/
def yarnEdge (m_group_colors : List Vector3s) (scene : TwoDScene) (e : Int × Int) :
    Option (List GLCmd) :=
  match scene.getFluidVol.coeff e.1, scene.getVol.coeff e.1,
        scene.getFluidVol.coeff e.2, scene.getVol.coeff e.2 with
  | some fv0, some vl0, some fv1, some vl1 =>
    let sat0 := saturation fv0 vl0
    let sat1 := saturation fv1 vl1
    match readAt scene.getParticleGroup e.1, readAt scene.getParticleGroup e.2 with
    | some g0, some g1 =>
      match colorOf m_group_colors g0, colorOf m_group_colors g1 with
      | some gc0, some gc1 =>
        let c0 := gc0 * (1.0 - sat0) + fluid_color * sat0
        let c1 := gc1 * (1.0 - sat1) + fluid_color * sat1
        match scene.getX.segment3 (4 * e.1), scene.getX.segment3 (4 * e.2) with
        | some x0, some x1 => some [glColor3dv c0, glVertex3dv x0, glColor3dv c1, glVertex3dv x1]
        | _, _ => none
      | _, _ => none
    | _, _ => none
  | _, _, _, _ => none

/-- Lines 181-210: the fiber edges. -/
def renderYarn (render_yarn : Bool) (m_group_colors : List Vector3s) (scene : TwoDScene) :
    Option (List GLCmd) :=
  if render_yarn then
    sequence [
      some [glLineWidth 3.0, glEnable GL_DEPTH_TEST, glBegin GL_LINES],
      forEach scene.getEdges (fun e => yarnEdge m_group_colors scene e),
      some [glDisable GL_DEPTH_TEST, glEnd]]
  else some []

/-- Lines 220-223: one attachment. -/
def springForce (scene : TwoDScene) (force : AttachForce) : Option (List GLCmd) :=
  if force.getKs = 0.0 then some []
  else
    match scene.getX.segment3 (force.getParticleIndex * 4),
          scene.getRestPos.segment3 (force.getParticleIndex * 4) with
    | some a, some b => some [glVertex3dv a, glVertex3dv b]
    | _, _ => none

/-- Lines 212-226: the attachment springs. -/
def renderSpring (render_spring : Bool) (scene : TwoDScene) : Option (List GLCmd) :=
  if render_spring then
    sequence [
      some [glColor3dv attach_color, glBegin GL_LINES],
      forEach scene.getAttachForces (fun force => springForce scene force),
      some [glEnd]]
  else some []

/-- One `glVertex3dv(v.segment<3>(i).data())`. -/
def vertexAt (v : VectorXs) (i : Int) : Option (List GLCmd) :=
  match v.segment3 i with
  | some p => some [glVertex3dv p]
  | none => none

/-- Lines 228-238: the quadrature points. -/
def renderGauss (render_gauss : Bool) (scene : TwoDScene) : Option (List GLCmd) :=
  if render_gauss then
    sequence [
      some [glColor3dv gauss_color, glPointSize 5, glBegin GL_POINTS],
      forRange scene.getNumGausses (fun i => vertexAt scene.getGaussX (4 * i)),
      some [glEnd]]
  else some []

/-- One grid line of the bucket wireframe: `s = a * bl + min_corner`,
`e = b * bl + min_corner`, both handed to `glVertex3dv`. -/
def bucketLine (scene : TwoDScene) (a b : Vector3s) : Option (List GLCmd) :=
  some [glVertex3dv (a * scene.getBucketLength + scene.getBucketMinCorner),
        glVertex3dv (b * scene.getBucketLength + scene.getBucketMinCorner)]

/-- Lines 240-277: the bucket wireframe. -/
def renderBuckets (render_buckets : Bool) (scene : TwoDScene) : Option (List GLCmd) :=
  if render_buckets then
    let bucket := scene.getParticleBuckets
    sequence [
      some [glColor4d 0.5 0.5 0.5 0.25, glEnable GL_BLEND, glBlendFunc, glBegin GL_LINES],
      forRangeIncl bucket.nk (fun k => forRangeIncl bucket.nj (fun j =>
        bucketLine scene ⟨0.0, j, k⟩ ⟨bucket.ni, j, k⟩)),
      forRangeIncl bucket.nk (fun k => forRangeIncl bucket.ni (fun i =>
        bucketLine scene ⟨i, 0.0, k⟩ ⟨i, bucket.nj, k⟩)),
      forRangeIncl bucket.nj (fun j => forRangeIncl bucket.ni (fun i =>
        bucketLine scene ⟨i, j, 0.0⟩ ⟨i, j, bucket.nk⟩)),
      some [glEnd, glDisable GL_BLEND]]
  else some []


/-- Modelled from the spec: `renderingutils::interpolateColor`, which is not part of the
source file, is a parameter `interp value lo hi` of the categories that call it; the call
with one argument uses the default domain `[0, 1]` the spec gives it. -/
abbrev ColorMap := scalar → scalar → scalar → Vector3s

/-- Lines 284-291: the rays recorded for quadrature point `i`. -/
def cohesionRays (interp : ColorMap) (scene : TwoDScene) (i : Int) : Option (List GLCmd) :=
  match readAt scene.getIntersections i with
  | none => none
  | some inters =>
    forEach inters (fun info =>
      let c := interp info.volume_frac 0.0 1.0
      match scene.getGaussX.segment3 (i * 4) with
      | some g => some [glColor3dv c, glVertex3dv g, glVertex3dv info.endp]
      | none => none)

/-- Lines 279-294: the cohesion rays. -/
def renderCohesion (render_cohesion : Bool) (interp : ColorMap) (scene : TwoDScene) :
    Option (List GLCmd) :=
  if render_cohesion then
    sequence [
      some [glBegin GL_LINES],
      forRange scene.getNumGausses (fun i => cohesionRays interp scene i),
      some [glEnd]]
  else some []

/-- The inner loop of the constant-colour overlays (lines 306-309 and alike): with
`num_node = node_pos.size() / 3`, one `glVertex3dv(node_pos.segment<3>(3 * j))` per
`j < num_node`. -/
def nodePoints (node_pos : VectorXs) : Option (List GLCmd) :=
  forRange ((node_pos.length : Int) / 3) (fun j => vertexAt node_pos (3 * j))

/-- The inner loop of the field-driven overlays (lines 319-324 and alike): per
`j < node_pos.size() / 3` the colour `color(field[j])` with alpha `0.8` and the vertex. -/
def nodeFieldPoints (color : scalar → Vector3s) (node_pos field : VectorXs) :
    Option (List GLCmd) :=
  forRange ((node_pos.length : Int) / 3) (fun j =>
    match field.coeff j, node_pos.segment3 (3 * j) with
    | some v, some p =>
      let c := color v
      some [glColor4d c.x c.y c.z 0.8, glVertex3dv p]
    | _, _ => none)

/-- A bucket loop that sets the constant colour `c` in every bucket and draws the nodes of
the per-bucket position arrays `pos` (lines 335-343 and alike). -/
def constantBuckets (scene : TwoDScene) (c : Vector3s) (pos : List VectorXs) :
    Option (List GLCmd) :=
  forRange scene.getNumBuckets (fun i =>
    match readAt pos i with
    | some node_pos => sequence [some [glColor4d c.x c.y c.z 0.8], nodePoints node_pos]
    | none => none)

/-- A bucket loop that colours every node by its scalar (lines 368-378 and alike). -/
def fieldBuckets (scene : TwoDScene) (color : scalar → Vector3s)
    (pos field : List VectorXs) : Option (List GLCmd) :=
  forRange scene.getNumBuckets (fun i =>
    match readAt pos i, readAt field i with
    | some node_pos, some node_field => nodeFieldPoints color node_pos node_field
    | _, _ => none)

/-- Lines 299-330: `switch (m_info.render_nodes)`. -/
def renderNodes (render_nodes : NodeView) (interp : ColorMap) (scene : TwoDScene) :
    Option (List GLCmd) :=
  match render_nodes with
  | NodeView.RI_NV_CONSTANT =>
    sequence [
      some [glColor4d node_color_solid_phi.x node_color_solid_phi.y node_color_solid_phi.z 0.8],
      forRange scene.getNumBuckets (fun i =>
        match readAt scene.getNodePosSolidPhi i with
        | some node_pos => nodePoints node_pos
        | none => none)]
  | NodeView.RI_NV_SOLID_PHI =>
    fieldBuckets scene
      (fun v => interp v (-3.0 * scene.getCellSize) (3.0 * scene.getCellSize))
      scene.getNodePosSolidPhi scene.getNodeSolidPhi
  | NodeView.RI_NV_NONE => some []

/-- Lines 332-446: `switch (m_info.render_face_centers)`. -/
def renderFaceCenters (render_face_centers : FaceCenterView) (interp : ColorMap)
    (scene : TwoDScene) : Option (List GLCmd) :=
  match render_face_centers with
  | FaceCenterView.RI_FCV_CONSTANT =>
    sequence [
      constantBuckets scene node_color_x scene.getNodePosX,
      constantBuckets scene node_color_y scene.getNodePosY,
      constantBuckets scene node_color_z scene.getNodePosZ]
  | FaceCenterView.RI_FCV_SOLID_VOL =>
    sequence [
      fieldBuckets scene (fun v => interp v 0.0 1.0) scene.getNodePosX scene.getNodePsiX,
      fieldBuckets scene (fun v => interp v 0.0 1.0) scene.getNodePosY scene.getNodePsiY,
      fieldBuckets scene (fun v => interp v 0.0 1.0) scene.getNodePosZ scene.getNodePsiZ]
  | FaceCenterView.RI_FCV_LIQUID_VOL =>
    sequence [
      fieldBuckets scene (fun v => interp v 0.0 1.0) scene.getNodePosX scene.getNodeSaturationX,
      fieldBuckets scene (fun v => interp v 0.0 1.0) scene.getNodePosY scene.getNodeSaturationY,
      fieldBuckets scene (fun v => interp v 0.0 1.0) scene.getNodePosZ scene.getNodeSaturationZ]
  | FaceCenterView.RI_FCV_NONE => some []

/-- Lines 448-484: `switch (m_info.render_edge_centers)`. -/
def renderEdgeCenters (render_edge_centers : EdgeCenterView) (scene : TwoDScene) :
    Option (List GLCmd) :=
  match render_edge_centers with
  | EdgeCenterView.RI_ECV_CONSTANT =>
    sequence [
      constantBuckets scene node_color_ex scene.getNodePosEX,
      constantBuckets scene node_color_ey scene.getNodePosEY,
      constantBuckets scene node_color_ez scene.getNodePosEZ]
  | EdgeCenterView.RI_ECV_NONE => some []

/-- Lines 486-520: `switch (m_info.render_cell_centers)`. -/
def renderCellCenters (render_cell_centers : CellCenterView) (interp : ColorMap)
    (scene : TwoDScene) : Option (List GLCmd) :=
  match render_cell_centers with
  | CellCenterView.RI_CCV_CONSTANT => constantBuckets scene node_color_p scene.getNodePosP
  | CellCenterView.RI_CCV_LIQUID_PHI =>
    forRange scene.getNumBuckets (fun i =>
      match readAt scene.getNodePosP i, readAt scene.getNodeLiquidPhi i with
      | some node_pos, some node_phi =>
        sequence [
          some [glColor4d node_color_p.x node_color_p.y node_color_p.z 0.8],
          nodeFieldPoints
            (fun v => interp v (-3.0 * scene.getCellSize) (3.0 * scene.getCellSize))
            node_pos node_phi]
      | _, _ => none)
  | CellCenterView.RI_CCV_NONE => some []

/-- Lines 296-522: the grid-node overlays, one `GL_POINTS` block around the four switches. -/
def renderGridNodes (info : RenderInfo) (interp : ColorMap) (scene : TwoDScene) :
    Option (List GLCmd) :=
  sequence [
    some [glEnable GL_BLEND, glBlendFunc, glBegin GL_POINTS],
    renderNodes info.render_nodes interp scene,
    renderFaceCenters info.render_face_centers interp scene,
    renderEdgeCenters info.render_edge_centers scene,
    renderCellCenters info.render_cell_centers interp scene,
    some [glEnd, glDisable GL_BLEND]]

/-- Lines 524-540: the fluid particles. -/
def renderParticles (render_particles : Bool) (scene : TwoDScene) : Option (List GLCmd) :=
  if render_particles then
    sequence [
      some [glEnable GL_BLEND, glBlendFunc, glPointSize 4.0, glColor4d 0.0 0.0 1.0 0.1,
            glBegin GL_POINTS],
      forEach scene.getFluidIndices (fun i => vertexAt scene.getX (i * 4)),
      some [glEnd, glDisable GL_BLEND]]
  else some []

/-- Lines 543-555: the soft/elastic vertices. -/
def renderVertices (render_vertices : Bool) (scene : TwoDScene) : Option (List GLCmd) :=
  if render_vertices then
    sequence [
      some [glPointSize 4.0, glColor3dv vertex_color, glBegin GL_POINTS],
      forRange scene.getNumSoftElastoParticles (fun i => vertexAt scene.getX (i * 4)),
      some [glEnd]]
  else some []

/-- One velocity segment (lines 565-568 and alike): from `pos.segment<3>(i * 4)` to that
point plus `vel.segment<3>(i * 4) * dt * render_velocity_length`. -/
def velocitySegment (pos vel : VectorXs) (dt len : scalar) (i : Int) : Option (List GLCmd) :=
  match pos.segment3 (i * 4), vel.segment3 (i * 4) with
  | some px, some pv => some [glVertex3dv px, glVertex3dv (px + pv * dt * len)]
  | _, _ => none

/-- Lines 557-572: the velocity overlay of the soft/elastic vertices. -/
def renderVerticeVelocity (info : RenderInfo) (scene : TwoDScene) (dt : scalar) :
    Option (List GLCmd) :=
  if info.render_vertice_velocity then
    sequence [
      some [glColor4d vertex_color.x vertex_color.y vertex_color.z 0.25,
            glEnable GL_BLEND, glBlendFunc, glBegin GL_LINES],
      forRange scene.getNumSoftElastoParticles (fun i =>
        velocitySegment scene.getX scene.getV dt info.render_velocity_length i),
      some [glEnd, glDisable GL_BLEND]]
  else some []

/-- Lines 574-589: the velocity overlay of the quadrature points. -/
def renderGaussVelocity (info : RenderInfo) (scene : TwoDScene) (dt : scalar) :
    Option (List GLCmd) :=
  if info.render_gauss_velocity then
    sequence [
      some [glColor4d gauss_color.x gauss_color.y gauss_color.z 0.25,
            glEnable GL_BLEND, glBlendFunc, glBegin GL_LINES],
      forRange scene.getNumGausses (fun i =>
        velocitySegment scene.getGaussX scene.getGaussV dt info.render_velocity_length i),
      some [glEnd, glDisable GL_BLEND]]
  else some []

/-- Lines 591-607: the velocity overlay of the fluid particles. -/
def renderParticleVelocity (info : RenderInfo) (scene : TwoDScene) (dt : scalar) :
    Option (List GLCmd) :=
  if info.render_particle_velocity then
    sequence [
      some [glColor4d fluid_color.x fluid_color.y fluid_color.z 0.25,
            glEnable GL_BLEND, glBlendFunc, glBegin GL_LINES],
      forEach scene.getFluidIndices (fun i =>
        velocitySegment scene.getX scene.getFluidV dt info.render_velocity_length i),
      some [glEnd, glDisable GL_BLEND]]
  else some []

/-- Lines 617-626: the three deformation-gradient axes of quadrature point `i`. -/
def deformationAxes (scene : TwoDScene) (len : scalar) (i : Int) : Option (List GLCmd) :=
  match scene.getGaussX.segment3 (i * 4) with
  | none => none
  | some px =>
    match scene.getGaussFe.block31 (i * 3) 0, scene.getGaussFe.block31 (i * 3) 1,
          scene.getGaussFe.block31 (i * 3) 2 with
    | some f0, some f1, some f2 =>
      some [glVertex3dv px, glVertex3dv (px + f0 * len),
            glVertex3dv px, glVertex3dv (px + f1 * len),
            glVertex3dv px, glVertex3dv (px + f2 * len)]
    | _, _, _ => none

/-- Lines 609-630: the deformation-gradient axes. -/
def renderDeformationGradient (render_deformation_gradient_length : scalar)
    (scene : TwoDScene) : Option (List GLCmd) :=
  if render_deformation_gradient_length > 0.0 then
    sequence [
      some [glColor4d def_grad_color.x def_grad_color.y def_grad_color.z 0.25,
            glEnable GL_BLEND, glBlendFunc, glBegin GL_LINES],
      forRange scene.getNumGausses (fun i =>
        deformationAxes scene render_deformation_gradient_length i),
      some [glEnd, glDisable GL_BLEND]]
  else some []

/-- Lines 651-666: the drawing callback, called with one mesh of a boundary object. -/
def fieldCallback (mesh : FieldMesh) : Option (List GLCmd) :=
  sequence [
    some [glPushMatrix, glTranslated mesh.center.x mesh.center.y mesh.center.z,
          glRotated mesh.rot, glBegin GL_TRIANGLES],
    forEach mesh.indices (fun idx =>
      forEach [0, 1, 2] (fun r =>
        match readAt mesh.vertices (idx.coeff r) with
        | some v => some [glVertex3dv v]
        | none => none)),
    some [glEnd, glPopMatrix]]

/-- The render operation of a boundary object: the callback once per mesh. -/
def DistanceField.render (field : DistanceField)
    (callback : FieldMesh → Option (List GLCmd)) : Option (List GLCmd) :=
  forEach field.meshes callback

/-- Lines 648-669: the two passes over one boundary object, the second one after
`glPolygonMode(GL_FRONT_AND_BACK, GL_LINE)`, and the reset to `GL_FILL`. -/
def fieldPasses (ptr : DistanceField) : Option (List GLCmd) :=
  sequence [
    ptr.render fieldCallback,
    some [glPolygonMode GL_LINE],
    ptr.render fieldCallback,
    some [glPolygonMode GL_FILL]]

/-- Lines 640-669: one iteration of the loop over the boundary objects. -/
def renderField (ptr : DistanceField) : Option (List GLCmd) :=
  match ptr.usage with
  | DistanceFieldUsage.DFU_SOLID => sequence [some [glColor4d 0.0 0.0 0.0 0.02], fieldPasses ptr]
  | DistanceFieldUsage.DFU_TERMINATOR =>
    sequence [some [glColor4d 0.0 0.0 1.0 0.02], fieldPasses ptr]
  | DistanceFieldUsage.DFU_OTHER _ => some []

/-- Lines 632-673: the level-set boundaries. -/
def renderLevelset (render_levelset : Bool) (scene : TwoDScene) : Option (List GLCmd) :=
  if render_levelset then
    sequence [
      some [glEnable GL_BLEND, glBlendFunc, glEnable GL_POLYGON_STIPPLE],
      forEach scene.getGroupDistanceField renderField,
      some [glDisable GL_BLEND, glDisable GL_POLYGON_STIPPLE]]
  else some []

/-- The categories of `renderParticleSimulation`, in the order of the source. -/
inductive Category
  | cloth
  | yarn
  | spring
  | gauss
  | buckets
  | cohesion
  | gridNodes
  | particles
  | vertices
  | verticeVelocity
  | gaussVelocity
  | particleVelocity
  | deformationGradient
  | levelset
  deriving DecidableEq, Repr

/-- How the translation unit is compiled: with or without `RENDER_ENABLED`, and with
`assert` active or disabled by `NDEBUG`. -/
structure BuildConfig where
  RENDER_ENABLED : Bool
  NDEBUG : Bool
  deriving DecidableEq, Repr

/-- The macro `assert(cond)`: nothing under `NDEBUG`, otherwise the program stops when
`cond` is false. -/
def cassert (build : BuildConfig) (cond : Bool) : Option (List GLCmd) :=
  if build.NDEBUG then some [] else if cond then some [] else none

/-- Lines 146-673: the calls of each category, labelled, in source order. -/
def frameSections (interp : ColorMap) (r : TwoDSceneRenderer) (scene : TwoDScene)
    (dt : scalar) : List (Category × Option (List GLCmd)) :=
  [ (Category.cloth, renderCloth r.m_info.render_cloth scene),
    (Category.yarn, renderYarn r.m_info.render_yarn r.m_group_colors scene),
    (Category.spring, renderSpring r.m_info.render_spring scene),
    (Category.gauss, renderGauss r.m_info.render_gauss scene),
    (Category.buckets, renderBuckets r.m_info.render_buckets scene),
    (Category.cohesion, renderCohesion r.m_info.render_cohesion interp scene),
    (Category.gridNodes, renderGridNodes r.m_info interp scene),
    (Category.particles, renderParticles r.m_info.render_particles scene),
    (Category.vertices, renderVertices r.m_info.render_vertices scene),
    (Category.verticeVelocity, renderVerticeVelocity r.m_info scene dt),
    (Category.gaussVelocity, renderGaussVelocity r.m_info scene dt),
    (Category.particleVelocity, renderParticleVelocity r.m_info scene dt),
    (Category.deformationGradient,
      renderDeformationGradient r.m_info.render_deformation_gradient_length scene),
    (Category.levelset, renderLevelset r.m_info.render_levelset scene) ]

/-- The method `TwoDSceneRenderer::renderParticleSimulation(scene, dt)`: all OpenGL calls of
one frame, or `none` when the frame does not run to its end. -/
def renderParticleSimulation (build : BuildConfig) (interp : ColorMap)
    (r : TwoDSceneRenderer) (scene : TwoDScene) (dt : scalar) : Option (List GLCmd) :=
  if build.RENDER_ENABLED then
    sequence (
      cassert build (decide ((scene.getX.length : Int) % 4 = 0)) ::
      cassert build (decide (4 * scene.getNumParticles = (scene.getX.length : Int))) ::
      (frameSections interp r scene dt).map (fun s => s.2))
  else some []


/-! ## What the OpenGL calls draw

The claims speak of the primitives a category emits. The calls are given their meaning by
a model of the OpenGL immediate mode (OpenGL 1.x), restricted to the state that decides
which primitives are drawn, where and in which colour: the polygon mode, the current
colour, the modelview transformation with its stack, and the vertices collected since
`glBegin`. Line width, point size and the capabilities do not enter it. -/

/-- An RGBA colour; `glColor3d` sets alpha to `1`. -/
structure Color4 where
  r : scalar
  g : scalar
  b : scalar
  a : scalar
  deriving DecidableEq, Repr

/-- The opaque colour with the channels of `v`. -/
def Color4.ofVector3s (v : Vector3s) : Color4 := ⟨v.x, v.y, v.z, 1⟩

/-- A vertex as drawn: the coordinates handed to `glVertex3dv` and the colour current at
that call. -/
structure GLVertex where
  position : Vector3s
  color : Color4
  deriving DecidableEq, Repr

/-- One factor of the modelview transformation. -/
inductive GLTransform
  | translate (x y z : scalar)
  | rotate (rot : Quaternion)
  deriving DecidableEq, Repr

/-- The vertices of one `glBegin` / `glEnd` pair, with the primitive kind, the polygon mode
and the modelview transformation (outermost factor first) in force. -/
structure GLBatch where
  kind : GLPrimitive
  polygonMode : GLPolygonMode
  modelview : List GLTransform
  vertices : List GLVertex
  deriving DecidableEq, Repr

/-- The modelled OpenGL state; `current` holds the kind and the vertices collected so far
between `glBegin` and `glEnd`. -/
structure GLState where
  polygonMode : GLPolygonMode
  color : Color4
  modelview : List GLTransform
  stack : List (List GLTransform)
  current : Option (GLPrimitive × List GLVertex)
  deriving DecidableEq, Repr

/-- The state of a fresh OpenGL context: polygon mode `GL_FILL`, colour white, identity
modelview, outside `glBegin` / `glEnd`. -/
def GLState.initial : GLState :=
  { polygonMode := GL_FILL, color := ⟨1, 1, 1, 1⟩, modelview := [], stack := [], current := none }

/-- Effect of one call: the new state and the batch completed by it, if any. Between
`glBegin` and `glEnd` only colour, vertex and `glEnd` calls act; any other call is an
`GL_INVALID_OPERATION` and is ignored. Outside, `glVertex3dv` and `glEnd` draw nothing. -/
def GLState.step (s : GLState) (c : GLCmd) : GLState × List GLBatch :=
  match s.current with
  | some (k, vs) =>
    match c with
    | glColor3d r g b => ({ s with color := ⟨r, g, b, 1⟩ }, [])
    | glColor3dv v => ({ s with color := Color4.ofVector3s v }, [])
    | glColor4d r g b a => ({ s with color := ⟨r, g, b, a⟩ }, [])
    | glVertex3dv v => ({ s with current := some (k, vs ++ [⟨v, s.color⟩]) }, [])
    | glEnd => ({ s with current := none }, [⟨k, s.polygonMode, s.modelview, vs⟩])
    | _ => (s, [])
  | none =>
    match c with
    | glPolygonMode m => ({ s with polygonMode := m }, [])
    | glBegin k => ({ s with current := some (k, []) }, [])
    | glColor3d r g b => ({ s with color := ⟨r, g, b, 1⟩ }, [])
    | glColor3dv v => ({ s with color := Color4.ofVector3s v }, [])
    | glColor4d r g b a => ({ s with color := ⟨r, g, b, a⟩ }, [])
    | glPushMatrix => ({ s with stack := s.modelview :: s.stack }, [])
    | glPopMatrix =>
      match s.stack with
      | [] => (s, [])
      | m :: rest => ({ s with modelview := m, stack := rest }, [])
    | glTranslated x y z =>
      ({ s with modelview := s.modelview ++ [GLTransform.translate x y z] }, [])
    | glRotated rot => ({ s with modelview := s.modelview ++ [GLTransform.rotate rot] }, [])
    | _ => (s, [])

/-- Effect of a sequence of calls: the final state and the batches drawn, in order. -/
def GLState.exec (s : GLState) (cmds : List GLCmd) : GLState × List GLBatch :=
  match cmds with
  | [] => (s, [])
  | c :: rest =>
    ((GLState.exec (s.step c).1 rest).1, (s.step c).2 ++ (GLState.exec (s.step c).1 rest).2)

/-- Number of vertices per primitive. -/
def GLPrimitive.arity : GLPrimitive → Nat
  | GL_POINTS => 1
  | GL_LINES => 2
  | GL_TRIANGLES => 3

/-- The primitives of a batch: consecutive groups of `arity` vertices; vertices left over at
the end form no primitive. -/
def GLBatch.primitives (b : GLBatch) : List (List GLVertex) :=
  (List.range (b.vertices.length / b.kind.arity)).map
    (fun i => (b.vertices.drop (i * b.kind.arity)).take b.kind.arity)


/-- The vertices a stretch of calls adds between `glBegin` and `glEnd`, when the colour
current at its start is `c`: each `glVertex3dv` with the colour set last. -/
def drawn (c : Color4) (cmds : List GLCmd) : List GLVertex :=
  match cmds with
  | [] => []
  | glColor3d r g b :: rest => drawn ⟨r, g, b, 1⟩ rest
  | glColor3dv v :: rest => drawn (Color4.ofVector3s v) rest
  | glColor4d r g b a :: rest => drawn ⟨r, g, b, a⟩ rest
  | glVertex3dv v :: rest => ⟨v, c⟩ :: drawn c rest
  | _ :: rest => drawn c rest

/-- The colour current after a stretch of calls that started with colour `c`. -/
def lastColor (c : Color4) (cmds : List GLCmd) : Color4 :=
  match cmds with
  | [] => c
  | glColor3d r g b :: rest => lastColor ⟨r, g, b, 1⟩ rest
  | glColor3dv v :: rest => lastColor (Color4.ofVector3s v) rest
  | glColor4d r g b a :: rest => lastColor ⟨r, g, b, a⟩ rest
  | _ :: rest => lastColor c rest

/-- No `glEnd` among the calls. -/
def noEnd (cmds : List GLCmd) : Bool :=
  match cmds with
  | [] => true
  | glEnd :: _ => false
  | _ :: rest => noEnd rest


/-- Specification side: the positions `x.segment<3>(f(r) * 4)` of the faces' vertices, face
by face and, within a face, for `r = 0, 1, 2`. -/
def spec_facePositions (scene : TwoDScene) : List Vector3s :=
  scene.getFaces.flatMap (fun f =>
    [0, 1, 2].flatMap (fun r => (scene.getX.segment3 (f.coeff r * 4)).toList))

/-- Every face refers to particles of the scene: the indices are particle numbers, and the
position array has four entries and the two volume arrays one entry per particle. -/
def facesInRange (scene : TwoDScene) : Prop :=
  (∀ f ∈ scene.getFaces, ∀ r ∈ [0, 1, 2],
    0 ≤ f.coeff r ∧ f.coeff r < scene.getNumParticles) ∧
  4 * scene.getNumParticles ≤ (scene.getX.length : Int) ∧
  scene.getNumParticles ≤ (scene.getFluidVol.length : Int) ∧
  scene.getNumParticles ≤ (scene.getVol.length : Int)


/-- Specification side: the line segment of the fiber edge `e`: from the position of its first endpoint to the
position of its second endpoint, each in the blend of the endpoint's group colour
`colorOf(groups[endpoint])` with the fluid colour at the endpoint's saturation; all the
reads involved are inside their arrays. -/
def spec_IsYarnSegment (tbl : List Vector3s) (scene : TwoDScene) (e : Int × Int)
    (seg : List GLVertex) : Prop :=
  ∃ fv0 vl0 fv1 vl1 g0 g1 gc0 gc1 x0 x1,
    scene.getFluidVol.coeff e.1 = some fv0 ∧ scene.getVol.coeff e.1 = some vl0 ∧
    scene.getFluidVol.coeff e.2 = some fv1 ∧ scene.getVol.coeff e.2 = some vl1 ∧
    readAt scene.getParticleGroup e.1 = some g0 ∧
    readAt scene.getParticleGroup e.2 = some g1 ∧
    colorOf tbl g0 = some gc0 ∧ colorOf tbl g1 = some gc1 ∧
    scene.getX.segment3 (4 * e.1) = some x0 ∧
    scene.getX.segment3 (4 * e.2) = some x1 ∧
    seg = [⟨x0, Color4.ofVector3s (blend gc0 fluid_color (saturation fv0 vl0))⟩,
           ⟨x1, Color4.ofVector3s (blend gc1 fluid_color (saturation fv1 vl1))⟩]

/-- Specification side: the vertices of a boundary mesh in drawing order, `vertices[idx(r)]`
for every index triple `idx` and `r = 0, 1, 2`. -/
def spec_meshPositions (mesh : FieldMesh) : List Vector3s :=
  mesh.indices.flatMap (fun idx =>
    [0, 1, 2].flatMap (fun r => (readAt mesh.vertices (idx.coeff r)).toList))

/-- Specification side: one triangle batch of a boundary mesh in polygon mode `pm` and
colour `c`, drawn under the modelview `mv` followed by the mesh's own translation and
rotation. -/
def spec_meshBatch (pm : GLPolygonMode) (mv : List GLTransform) (c : Color4)
    (mesh : FieldMesh) : GLBatch :=
  ⟨GL_TRIANGLES, pm,
    mv ++ [GLTransform.translate mesh.center.x mesh.center.y mesh.center.z,
           GLTransform.rotate mesh.rot],
    (spec_meshPositions mesh).map (fun p => ⟨p, c⟩)⟩

/-- Specification side: what one boundary object contributes: nothing unless it is tagged
solid or terminator; otherwise a filled pass over its meshes and then a wireframe pass, in
the colour keyed by the tag. -/
def spec_fieldBatches (mv : List GLTransform) (field : DistanceField) : List GLBatch :=
  match field.usage with
  | DistanceFieldUsage.DFU_SOLID =>
    field.meshes.map (spec_meshBatch GL_FILL mv ⟨0.0, 0.0, 0.0, 0.02⟩)
      ++ field.meshes.map (spec_meshBatch GL_LINE mv ⟨0.0, 0.0, 0.0, 0.02⟩)
  | DistanceFieldUsage.DFU_TERMINATOR =>
    field.meshes.map (spec_meshBatch GL_FILL mv ⟨0.0, 0.0, 1.0, 0.02⟩)
      ++ field.meshes.map (spec_meshBatch GL_LINE mv ⟨0.0, 0.0, 1.0, 0.02⟩)
  | DistanceFieldUsage.DFU_OTHER _ => []

/-- No colour call among the calls. -/
def noColor (cmds : List GLCmd) : Bool :=
  match cmds with
  | [] => true
  | glColor3d _ _ _ :: _ => false
  | glColor3dv _ :: _ => false
  | glColor4d _ _ _ _ :: _ => false
  | _ :: rest => noColor rest

/-- Every index of every triple of the mesh is the number of one of its vertices. -/
def meshInRange (mesh : FieldMesh) : Prop :=
  ∀ idx ∈ mesh.indices, ∀ r ∈ [0, 1, 2],
    0 ≤ idx.coeff r ∧ idx.coeff r < (mesh.vertices.length : Int)

/-! ## The frame, category by category -/

/-- The batches each category draws in one frame, in source order: the calls of a category
are executed from the state its predecessors leave behind. `none` when a category has no
result. -/
def runSections (s : GLState) (secs : List (Category × Option (List GLCmd))) :
    Option (List (Category × List GLBatch)) :=
  match secs with
  | [] => some []
  | (_, none) :: _ => none
  | (c, some t) :: rest =>
    match runSections (s.exec t).1 rest with
    | none => none
    | some out => some ((c, (s.exec t).2) :: out)

/-- The batches of one frame of `renderParticleSimulation`, labelled by category, when the
frame is drawn from the OpenGL state `s`. `none` when the frame does not run to its end;
no batch at all when rendering is compiled out. -/
def framePrimitives (build : BuildConfig) (interp : ColorMap) (r : TwoDSceneRenderer)
    (scene : TwoDScene) (dt : scalar) (s : GLState) :
    Option (List (Category × List GLBatch)) :=
  match renderParticleSimulation build interp r scene dt with
  | none => none
  | some _ =>
    if build.RENDER_ENABLED then runSections s (frameSections interp r scene dt) else some []

/-- The batches a frame draws for category `c`. -/
def emitted (c : Category) (out : List (Category × List GLBatch)) : List GLBatch :=
  (out.filter (fun p => decide (p.1 = c))).flatMap (fun p => p.2)

/-- The primitive kind, the vertex positions (the coordinates with the modelview they are
drawn under) and the vertex colours of a batch: everything but the polygon mode. -/
def GLBatch.shown (b : GLBatch) : GLPrimitive × List GLTransform × List GLVertex :=
  (b.kind, b.modelview, b.vertices)

/-- The boolean render flags of `RenderInfo`. -/
inductive RenderFlag
  | render_particles
  | render_vertices
  | render_gauss
  | render_particle_velocity
  | render_vertice_velocity
  | render_gauss_velocity
  | render_cloth
  | render_yarn
  | render_levelset
  | render_spring
  | render_cohesion
  | render_buckets
  deriving DecidableEq, Repr

/-- The category a boolean flag switches on and off. -/
def RenderFlag.category : RenderFlag → Category
  | RenderFlag.render_particles => Category.particles
  | RenderFlag.render_vertices => Category.vertices
  | RenderFlag.render_gauss => Category.gauss
  | RenderFlag.render_particle_velocity => Category.particleVelocity
  | RenderFlag.render_vertice_velocity => Category.verticeVelocity
  | RenderFlag.render_gauss_velocity => Category.gaussVelocity
  | RenderFlag.render_cloth => Category.cloth
  | RenderFlag.render_yarn => Category.yarn
  | RenderFlag.render_levelset => Category.levelset
  | RenderFlag.render_spring => Category.spring
  | RenderFlag.render_cohesion => Category.cohesion
  | RenderFlag.render_buckets => Category.buckets

/-- The configuration with the boolean flag `f` set to `b` and everything else unchanged:
what a caller obtains through `getRenderInfo()`. -/
def RenderInfo.withFlag (info : RenderInfo) (f : RenderFlag) (b : Bool) : RenderInfo :=
  match f with
  | RenderFlag.render_particles => { info with render_particles := b }
  | RenderFlag.render_vertices => { info with render_vertices := b }
  | RenderFlag.render_gauss => { info with render_gauss := b }
  | RenderFlag.render_particle_velocity => { info with render_particle_velocity := b }
  | RenderFlag.render_vertice_velocity => { info with render_vertice_velocity := b }
  | RenderFlag.render_gauss_velocity => { info with render_gauss_velocity := b }
  | RenderFlag.render_cloth => { info with render_cloth := b }
  | RenderFlag.render_yarn => { info with render_yarn := b }
  | RenderFlag.render_levelset => { info with render_levelset := b }
  | RenderFlag.render_spring => { info with render_spring := b }
  | RenderFlag.render_cohesion => { info with render_cohesion := b }
  | RenderFlag.render_buckets => { info with render_buckets := b }

/-- Calls that neither open nor close a `glBegin` / `glEnd` pair and touch neither the
polygon mode nor the modelview. -/
def flat (cmds : List GLCmd) : Bool :=
  match cmds with
  | [] => true
  | glBegin _ :: _ => false
  | glEnd :: _ => false
  | glPolygonMode _ :: _ => false
  | glPushMatrix :: _ => false
  | glPopMatrix :: _ => false
  | glTranslated _ _ _ :: _ => false
  | glRotated _ :: _ => false
  | _ :: rest => flat rest

/-- No vertex is issued before the first colour call. -/
def colorFirst (cmds : List GLCmd) : Bool :=
  match cmds with
  | [] => true
  | glColor3d _ _ _ :: _ => true
  | glColor3dv _ :: _ => true
  | glColor4d _ _ _ _ :: _ => true
  | glVertex3dv _ :: _ => false
  | _ :: rest => colorFirst rest

/-- A colour call is issued, and before any vertex. -/
def colored (cmds : List GLCmd) : Bool :=
  match cmds with
  | [] => false
  | glColor3d _ _ _ :: _ => true
  | glColor3dv _ :: _ => true
  | glColor4d _ _ _ _ :: _ => true
  | glVertex3dv _ :: _ => false
  | _ :: rest => colored rest

/-- Two states that agree on everything that decides which batches are drawn, except the
current colour; the polygon mode is compared only when `full` is set. -/
def Agree (full : Bool) (s1 s2 : GLState) : Prop :=
  s1.current = s2.current ∧ s1.modelview = s2.modelview ∧ s1.stack = s2.stack ∧
  (full = true → s1.polygonMode = s2.polygonMode)

/-- A batch with or without its polygon mode. -/
def view (full : Bool) (b : GLBatch) : GLBatch :=
  if full then b else { b with polygonMode := GL_FILL }

/-- Calls that, executed outside `glBegin` / `glEnd`, end outside, restore the modelview and
its stack, and leave the polygon mode as it was or at `GL_FILL`. -/
def Neutral (T : List GLCmd) : Prop :=
  ∀ s : GLState, s.current = none →
    (s.exec T).1.current = none ∧ (s.exec T).1.modelview = s.modelview ∧
    (s.exec T).1.stack = s.stack ∧
    ((s.exec T).1.polygonMode = s.polygonMode ∨ (s.exec T).1.polygonMode = GL_FILL)

/-- A vertex call. -/
def isVertex : GLCmd → Bool
  | glVertex3dv _ => true
  | _ => false

/-- A colour call. -/
def isColor : GLCmd → Bool
  | glColor3d _ _ _ => true
  | glColor3dv _ => true
  | glColor4d _ _ _ _ => true
  | _ => false

/-- The state between two boundary objects: outside `glBegin` / `glEnd`, polygon mode
`GL_FILL`, and the modelview and its stack as at the start of the category. -/
def LevelsetInv (mv : List GLTransform) (st : List (List GLTransform)) (s : GLState) : Prop :=
  s.current = none ∧ s.polygonMode = GL_FILL ∧ s.modelview = mv ∧ s.stack = st

/-- Specification side: the wireframe colour as the claim writes it,
`face_color2 * (1 - 0.85 * s) + fluid_color * (0.85 * s)`. -/
def spec_wireColor (s : scalar) : Vector3s :=
  face_color2 * (1 - 0.85 * s) + fluid_color * (0.85 * s)

/-- Specification side: the consecutive 3-component triples of an array, in array order;
one or two entries left over at the end form no triple. -/
def spec_triples : List scalar → List Vector3s
  | a :: b :: c :: rest => ⟨a, b, c⟩ :: spec_triples rest
  | _ => []

/-- Specification side: the points of one field kind under a constant view: for every
bucket in ascending order, the consecutive triples of its position array, each in the
kind's colour `c` with alpha `0.8`. -/
def spec_bucketPoints (c : Vector3s) (buckets : List VectorXs) : List GLVertex :=
  buckets.flatMap (fun node_pos =>
    (spec_triples node_pos).map (fun q => ⟨q, ⟨c.x, c.y, c.z, 0.8⟩⟩))

/-- Specification side: the array-length invariant for one pair of per-bucket arrays: for
every bucket `i < n` both arrays are present and the scalar array has
`positions.size() / 3` elements. -/
def spec_lengthsAgree (n : Int) (pos field : List VectorXs) : Prop :=
  ∀ i, 0 ≤ i → i < n →
    ∃ p f, readAt pos i = some p ∧ readAt field i = some f ∧
      (f.length : Int) = (p.length : Int) / 3

/-- Specification side: the array-length invariant of the scene: every per-bucket scalar
array agrees with its paired position array, and the edge-center position arrays, which
have no scalar, are present for every bucket. -/
def spec_arrayLengthInvariant (scene : TwoDScene) : Prop :=
  spec_lengthsAgree scene.getNumBuckets scene.getNodePosSolidPhi scene.getNodeSolidPhi ∧
  spec_lengthsAgree scene.getNumBuckets scene.getNodePosX scene.getNodePsiX ∧
  spec_lengthsAgree scene.getNumBuckets scene.getNodePosY scene.getNodePsiY ∧
  spec_lengthsAgree scene.getNumBuckets scene.getNodePosZ scene.getNodePsiZ ∧
  spec_lengthsAgree scene.getNumBuckets scene.getNodePosX scene.getNodeSaturationX ∧
  spec_lengthsAgree scene.getNumBuckets scene.getNodePosY scene.getNodeSaturationY ∧
  spec_lengthsAgree scene.getNumBuckets scene.getNodePosZ scene.getNodeSaturationZ ∧
  spec_lengthsAgree scene.getNumBuckets scene.getNodePosP scene.getNodeLiquidPhi ∧
  scene.getNumBuckets ≤ (scene.getNodePosEX.length : Int) ∧
  scene.getNumBuckets ≤ (scene.getNodePosEY.length : Int) ∧
  scene.getNumBuckets ≤ (scene.getNodePosEZ.length : Int)

/-- Specification side: the line segment of the attachment `force` in the colour `c`: from
the current position `x.segment<3>(idx * 4)` of its particle to the rest position
`rest_x.segment<3>(idx * 4)` of the same particle; both reads are inside their arrays. -/
def spec_IsSpringSegment (scene : TwoDScene) (c : Color4) (force : AttachForce)
    (seg : List GLVertex) : Prop :=
  ∃ a b, scene.getX.segment3 (force.getParticleIndex * 4) = some a ∧
    scene.getRestPos.segment3 (force.getParticleIndex * 4) = some b ∧
    seg = [⟨a, c⟩, ⟨b, c⟩]

/-- Every attachment with non-zero stiffness refers to a particle whose current and rest
positions are stored. -/
def attachesInRange (scene : TwoDScene) : Prop :=
  ∀ force ∈ scene.getAttachForces, force.getKs ≠ 0 →
    0 ≤ force.getParticleIndex ∧
    force.getParticleIndex * 4 + 2 < (scene.getX.length : Int) ∧
    force.getParticleIndex * 4 + 2 < (scene.getRestPos.length : Int)

/-- Specification side: the vertices of the wireframe pass: for every face and `r = 0, 1, 2`
the position `x.segment<3>(f(r) * 4)` in the wireframe colour at the saturation of that same
particle, `saturation(fvol(f(r)), vol(f(r)))`. -/
def spec_wireVertices (scene : TwoDScene) : List GLVertex :=
  scene.getFaces.flatMap (fun f =>
    [0, 1, 2].flatMap (fun r =>
      match scene.getFluidVol.coeff (f.coeff r), scene.getVol.coeff (f.coeff r),
            scene.getX.segment3 (f.coeff r * 4) with
      | some fv, some vl, some px =>
        [⟨px, Color4.ofVector3s (spec_wireColor (saturation fv vl))⟩]
      | _, _, _ => []))

/-! ## Example scenes -/

/-- Four particles with the group ids `0, 1, 2, 3`. -/
def scene_groups_0123 : TwoDScene :=
  { TwoDScene.empty with getParticleGroup := [0, 1, 2, 3] }

/-- One particle whose group id is `-5`. -/
def scene_group_negative : TwoDScene :=
  { TwoDScene.empty with getParticleGroup := [-5] }

/-- The renderer the constructor returns for `scene_groups_0123`. -/
def renderer_groups_0123 : TwoDSceneRenderer :=
  { m_info := TwoDSceneRenderer.init_info, m_group_colors := fill_group_colors 4 }

/-- Four particles at the corners of the unit square, two faces `(0, 1, 2)` and `(1, 3, 2)`
sharing the edge `1 - 2`, no fluid anywhere. -/
def scene_two_faces : TwoDScene :=
  { TwoDScene.empty with
    getX := [0, 0, 0, 0, 1, 0, 0, 0, 0, 1, 0, 0, 1, 1, 0, 0]
    getRestPos := [0, 0, 0, 0, 1, 0, 0, 0, 0, 1, 0, 0, 1, 1, 0, 0]
    getFaces := [⟨0, 1, 2⟩, ⟨1, 3, 2⟩]
    getFluidVol := [0, 0, 0, 0]
    getVol := [1, 1, 1, 1]
    getNumParticles := 4
    getParticleGroup := [0, 0, 0, 0] }

/-- Every fiber edge joins two particles of the scene, and the position array has four
entries and the volume, fluid volume and group arrays one entry per particle. -/
def edgesInRange (scene : TwoDScene) : Prop :=
  (∀ e ∈ scene.getEdges,
    (0 ≤ e.1 ∧ e.1 < scene.getNumParticles) ∧ (0 ≤ e.2 ∧ e.2 < scene.getNumParticles)) ∧
  4 * scene.getNumParticles ≤ (scene.getX.length : Int) ∧
  scene.getNumParticles ≤ (scene.getFluidVol.length : Int) ∧
  scene.getNumParticles ≤ (scene.getVol.length : Int) ∧
  scene.getNumParticles ≤ (scene.getParticleGroup.length : Int)

/-- Three particles on a line with the group ids `0, 1, 2`, no fluid, and one fiber edge
from particle `0` (group `0`) to particle `2` (group `2`). -/
def scene_three_groups : TwoDScene :=
  { TwoDScene.empty with
    getX := [0, 0, 0, 0, 1, 0, 0, 0, 2, 0, 0, 0]
    getRestPos := [0, 0, 0, 0, 1, 0, 0, 0, 2, 0, 0, 0]
    getEdges := [(0, 2)]
    getNumEdges := 1
    getFluidVol := [0, 0, 0]
    getVol := [1, 1, 1]
    getNumParticles := 3
    getParticleGroup := [0, 1, 2] }

/-- The renderer the constructor returns for `scene_three_groups`. -/
def renderer_three_groups : TwoDSceneRenderer :=
  { m_info := TwoDSceneRenderer.init_info, m_group_colors := fill_group_colors 3 }

/-- Two particles, both with the group id `-1`, joined by one fiber edge. -/
def scene_negative_groups : TwoDScene :=
  { TwoDScene.empty with
    getX := [0, 0, 0, 0, 1, 0, 0, 0]
    getRestPos := [0, 0, 0, 0, 1, 0, 0, 0]
    getEdges := [(0, 1)]
    getNumEdges := 1
    getFluidVol := [0, 0]
    getVol := [1, 1]
    getNumParticles := 2
    getParticleGroup := [-1, -1] }

/-- The renderer the constructor returns for `scene_negative_groups`: its colour table is
empty. -/
def renderer_negative_groups : TwoDSceneRenderer :=
  { m_info := TwoDSceneRenderer.init_info, m_group_colors := [] }

/-- A build with rendering compiled in and `assert` active. -/
def build_debug : BuildConfig := { RENDER_ENABLED := true, NDEBUG := false }

/-- A colour map that is black everywhere, to run frames that do not use the colour map. -/
def interp_black : ColorMap := fun _ _ _ => ⟨0, 0, 0⟩

/-- A single triangle, translated to `(1, 2, 3)`, with the identity rotation. -/
def mesh_triangle : FieldMesh :=
  { vertices := [⟨0, 0, 0⟩, ⟨1, 0, 0⟩, ⟨0, 1, 0⟩]
    indices := [⟨0, 1, 2⟩]
    rot := ⟨1, 0, 0, 0⟩
    center := ⟨1, 2, 3⟩
    sign := 1 }

/-- A mesh whose only index triple points outside its (empty) vertex list. -/
def mesh_broken : FieldMesh :=
  { vertices := []
    indices := [⟨0, 1, 2⟩]
    rot := ⟨1, 0, 0, 0⟩
    center := ⟨0, 0, 0⟩
    sign := 1 }

/-- A scene with two boundary objects: one with a tag that is neither solid nor terminator,
carrying the broken mesh, and one tagged solid with the single triangle. -/
def scene_boundaries : TwoDScene :=
  { TwoDScene.empty with
    getGroupDistanceField :=
      [⟨DistanceFieldUsage.DFU_OTHER 1, [mesh_broken]⟩,
       ⟨DistanceFieldUsage.DFU_SOLID, [mesh_triangle]⟩] }

/-- The scene with two faces, with one fiber edge from particle `0` to particle `3` added. -/
def scene_cloth_and_yarn : TwoDScene :=
  { scene_two_faces with getEdges := [(0, 3)], getNumEdges := 1 }

/-- The renderer the constructor returns for `scene_cloth_and_yarn`. -/
def renderer_cloth_and_yarn : TwoDSceneRenderer :=
  { m_info := TwoDSceneRenderer.init_info, m_group_colors := fill_group_colors 1 }

/-- A scene with two buckets for the grid overlays: the first bucket has two solid-phase
nodes and one entry left over, the second has none. -/
def scene_grid : TwoDScene :=
  { TwoDScene.empty with
    getNumBuckets := 2
    getNodePosSolidPhi := [[0, 0, 0, 1, 2, 3, 9], []]
    getNodeSolidPhi := [[5, 6], []]
    getNodePosX := [[1, 0, 0], [2, 0, 0]]
    getNodePosY := [[0, 1, 0], [0, 2, 0]]
    getNodePosZ := [[0, 0, 1], [0, 0, 2]]
    getNodePsiX := [[1], [1]]
    getNodePsiY := [[1], [1]]
    getNodePsiZ := [[1], [1]]
    getNodeSaturationX := [[0], [0]]
    getNodeSaturationY := [[0], [0]]
    getNodeSaturationZ := [[0], [0]]
    getNodePosEX := [[], [1, 1, 0]]
    getNodePosEY := [[], [0, 1, 1]]
    getNodePosEZ := [[], [1, 0, 1]]
    getNodePosP := [[1, 1, 1, 2, 2, 2], [3, 3]]
    getNodeLiquidPhi := [[0, 0], []] }

/-- A scene with three attachments: the second has zero stiffness. -/
def scene_springs : TwoDScene :=
  { TwoDScene.empty with
    getX := [1, 0, 0, 0, 0, 2, 0, 0]
    getRestPos := [1, 1, 0, 0, 0, 2, 2, 0]
    getNumParticles := 2
    getAttachForces := [⟨5, 1⟩, ⟨0, 0⟩, ⟨3, 0⟩] }

/-- A scene without particles and with one bucket: one solid-phase node at the origin, and
a paired scalar array of two elements, one more than `positions.size() / 3`. -/
def scene_scalar_mismatch : TwoDScene :=
  { TwoDScene.empty with
    getNumBuckets := 1
    getNodePosSolidPhi := [[0, 0, 0]]
    getNodeSolidPhi := [[5, 6]] }

/-- The constructor's configuration with the node view set to `RI_NV_SOLID_PHI`. -/
def renderer_solid_phi : TwoDSceneRenderer :=
  { m_info := { TwoDSceneRenderer.init_info with render_nodes := NodeView.RI_NV_SOLID_PHI }
    m_group_colors := [] }

/-- A scene whose position array has a single entry: not the 4-component layout. -/
def scene_bad_layout : TwoDScene :=
  { TwoDScene.empty with getX := [0], getNumParticles := 0 }

/-- One face over three particles of unit volume with the fluid volumes `0`, `1/2` and `2`:
the saturations are `0`, `1/2` and `1`. -/
def scene_wet_face : TwoDScene :=
  { TwoDScene.empty with
    getX := [0, 0, 0, 0, 1, 0, 0, 0, 0, 1, 0, 0]
    getRestPos := [0, 0, 0, 0, 1, 0, 0, 0, 0, 1, 0, 0]
    getFaces := [⟨0, 1, 2⟩]
    getFluidVol := [0, 1 / 2, 2]
    getVol := [1, 1, 1]
    getNumParticles := 3
    getParticleGroup := [0, 0, 0] }

/-- The scene of two particles of group `-1` joined by one fiber edge, with one solid
boundary carrying the single triangle. -/
def scene_edge_and_boundary : TwoDScene :=
  { scene_negative_groups with
    getGroupDistanceField := [⟨DistanceFieldUsage.DFU_SOLID, [mesh_triangle]⟩] }

/-- The scene with two faces and one fiber edge, with one solid boundary carrying the single
triangle added. -/
def scene_cloth_yarn_boundary : TwoDScene :=
  { scene_cloth_and_yarn with
    getGroupDistanceField := [⟨DistanceFieldUsage.DFU_SOLID, [mesh_triangle]⟩] }

/-! # Verified properties -/

/-! ## Arithmetic of the small vectors -/

theorem Vector3s.mul_def (v : Vector3s) (s : scalar) :
    v * s = ⟨v.x * s, v.y * s, v.z * s⟩ := rfl

theorem Vector3s.add_def (v w : Vector3s) :
    v + w = ⟨v.x + w.x, v.y + w.y, v.z + w.z⟩ := rfl

theorem blend_zero (a b : Vector3s) : blend a b 0 = a := by
  cases a
  simp only [blend, Vector3s.mul_def, Vector3s.add_def]
  norm_num

theorem blend_one (a b : Vector3s) : blend a b 1 = b := by
  cases b
  simp only [blend, Vector3s.mul_def, Vector3s.add_def]
  norm_num

/-! ## The saturation guard -/

theorem std_max_of_le (vol : scalar) (h : 1e-12 ≤ vol) : std_max 1e-12 vol = vol := by
  unfold std_max
  split
  · rfl
  · rename_i h2
    exact le_antisymm h (not_lt.mp h2)

theorem mathutils_clamp_mem (a : scalar) :
    0 ≤ mathutils_clamp a 0.0 1.0 ∧ mathutils_clamp a 0.0 1.0 ≤ 1 := by
  unfold mathutils_clamp
  split
  · norm_num
  · rename_i h1
    split
    · norm_num
    · rename_i h2
      constructor
      · have := not_lt.mp h1
        norm_num at this
        exact this
      · have := not_lt.mp h2
        norm_num at this
        exact this

theorem mathutils_clamp_below (a : scalar) (h : a < 0) : mathutils_clamp a 0.0 1.0 = 0 := by
  unfold mathutils_clamp
  rw [if_pos (by norm_num; exact h)]
  norm_num

theorem mathutils_clamp_above (a : scalar) (h : 1 < a) : mathutils_clamp a 0.0 1.0 = 1 := by
  unfold mathutils_clamp
  rw [if_neg (by norm_num; linarith), if_pos (by norm_num; exact h)]
  norm_num

theorem mathutils_clamp_inside (a : scalar) (h0 : 0 ≤ a) (h1 : a ≤ 1) :
    mathutils_clamp a 0.0 1.0 = a := by
  unfold mathutils_clamp
  rw [if_neg (by norm_num; exact h0), if_neg (by norm_num; exact h1)]

theorem saturation_zero_fluid (vol : scalar) : saturation 0 vol = 0 := by
  unfold saturation
  rw [zero_div]
  exact mathutils_clamp_inside 0 le_rfl (by norm_num)

/-! ## The group colour table -/

theorem foldl_largest_spec (gs : List Int) (g : Int) :
    let m := gs.foldl (fun largest h => if largest < h then h else largest) g
    m ∈ g :: gs ∧ g ≤ m ∧ ∀ h ∈ gs, h ≤ m := by
  induction gs generalizing g with
  | nil => simp
  | cons a as ih =>
    simp only [List.foldl_cons]
    by_cases hlt : g < a
    · rw [if_pos hlt]
      obtain ⟨hmem, hle, hall⟩ := ih a
      refine ⟨?_, le_trans (le_of_lt hlt) hle, ?_⟩
      · exact List.mem_cons_of_mem _ hmem
      · intro h hh
        rcases List.mem_cons.mp hh with rfl | hh
        · exact hle
        · exact hall h hh
    · rw [if_neg hlt]
      obtain ⟨hmem, hle, hall⟩ := ih g
      refine ⟨?_, hle, ?_⟩
      · rcases List.mem_cons.mp hmem with h1 | h1
        · rw [h1]
          exact List.mem_cons_self _ _
        · exact List.mem_cons_of_mem _ (List.mem_cons_of_mem _ h1)
      · intro h hh
        rcases List.mem_cons.mp hh with rfl | hh
        · exact le_trans (not_lt.mp hlt) hle
        · exact hall h hh

/-- The value `max_element` returns is the greatest element of the sequence. -/
theorem max_element_eq_some (groups : List Int) (m : Int) (hmem : m ∈ groups)
    (hmax : ∀ g ∈ groups, g ≤ m) : max_element groups = some m := by
  cases groups with
  | nil => simp at hmem
  | cons g gs =>
    obtain ⟨h1, h2, h3⟩ := foldl_largest_spec gs g
    simp only [max_element, Option.some.injEq]
    apply le_antisymm
    · exact hmax _ h1
    · rcases List.mem_cons.mp hmem with rfl | h
      · exact h2
      · exact h3 m h

theorem max_element_eq_none (groups : List Int) :
    max_element groups = none ↔ groups = [] := by
  cases groups <;> simp [max_element]

theorem fill_group_colors_length (n : Int) : (fill_group_colors n).length = n.toNat := by
  simp [fill_group_colors]

theorem fill_group_colors_getElem (n : Int) (i : Nat) (h : i < n.toNat) :
    (fill_group_colors n)[i]? = some (Vector3s.Constant ((i : scalar) / (n : scalar))) := by
  simp [fill_group_colors, List.getElem?_map, List.getElem?_range h]

/-- Every table the constructor builds is `fill_group_colors n` for its own length `n`. -/
theorem build_group_colors_shape (groups : List Int) (t : List Vector3s)
    (h : build_group_colors groups = some t) : t = fill_group_colors (t.length : Int) := by
  unfold build_group_colors at h
  split at h
  · simp at h
    subst h
    simp [fill_group_colors]
  · rename_i m _
    simp only at h
    split at h
    · simp at h
    · split at h
      · simp at h
      · rename_i h2
        simp at h
        subst h
        rw [fill_group_colors_length]
        congr 1
        exact (Int.toNat_of_nonneg (not_lt.mp h2)).symm

theorem size_t_of_int_of_nonneg (g : Int) (h0 : 0 ≤ g) (h1 : g ≤ INT_MAX) :
    size_t_of_int g = g.toNat := by
  unfold size_t_of_int
  unfold INT_MAX at h1
  rw [Int.emod_eq_of_lt h0 (by omega)]

theorem colorOf_fill (n : Nat) (g : Int) (hn : 0 < n) (h0 : 0 ≤ g) (h1 : g ≤ INT_MAX) :
    colorOf (fill_group_colors (n : Int)) g
      = some (Vector3s.Constant (((g.toNat % n : Nat) : scalar) / (n : scalar))) := by
  unfold colorOf
  rw [fill_group_colors_length, size_t_of_int_of_nonneg g h0 h1]
  simp only [Int.toNat_ofNat]
  rw [if_neg (by omega)]
  have hlt : g.toNat % n < ((n : Int)).toNat := by
    simp only [Int.toNat_ofNat]
    exact Nat.mod_lt _ hn
  rw [fill_group_colors_getElem _ _ hlt]
  simp

theorem build_group_colors_length_le (groups : List Int) (t : List Vector3s)
    (h : build_group_colors groups = some t) : (t.length : Int) ≤ INT_MAX := by
  unfold build_group_colors at h
  split at h
  · simp at h
    subst h
    simp [INT_MAX]
  · simp only at h
    split at h
    · simp at h
    · rename_i h1
      split at h
      · simp at h
      · rename_i h2
        simp at h
        subst h
        rw [fill_group_colors_length, Int.toNat_of_nonneg (not_lt.mp h2)]
        exact not_lt.mp h1

theorem new_eq_some (scene : TwoDScene) (r : TwoDSceneRenderer)
    (h : TwoDSceneRenderer.new scene = some r) :
    r.m_info = TwoDSceneRenderer.init_info ∧
      build_group_colors scene.getParticleGroup = some r.m_group_colors := by
  unfold TwoDSceneRenderer.new at h
  split at h
  · simp at h
  · rename_i colors hc
    simp at h
    subst h
    exact ⟨rfl, hc⟩

/-! ## Claims on the constructor and on the colour arithmetic -/

/-- Claim C1: for every scene, the renderer the constructor returns has the flags for
particles, cloth faces, fiber edges (yarn), attachment springs and level-set set to true,
the flags for quadrature points, vertices, the three velocity overlays, bucket wireframe
and cohesion set to false, and the four view selectors at their `NONE` value. -/
theorem constructor_default_render_info (scene : TwoDScene) (r : TwoDSceneRenderer)
    (h : TwoDSceneRenderer.new scene = some r) :
    r.m_info.render_particles = true ∧ r.m_info.render_cloth = true ∧
    r.m_info.render_yarn = true ∧ r.m_info.render_spring = true ∧
    r.m_info.render_levelset = true ∧
    r.m_info.render_gauss = false ∧ r.m_info.render_vertices = false ∧
    r.m_info.render_particle_velocity = false ∧ r.m_info.render_vertice_velocity = false ∧
    r.m_info.render_gauss_velocity = false ∧ r.m_info.render_buckets = false ∧
    r.m_info.render_cohesion = false ∧
    r.m_info.render_nodes = NodeView.RI_NV_NONE ∧
    r.m_info.render_face_centers = FaceCenterView.RI_FCV_NONE ∧
    r.m_info.render_edge_centers = EdgeCenterView.RI_ECV_NONE ∧
    r.m_info.render_cell_centers = CellCenterView.RI_CCV_NONE := by
  obtain ⟨hinfo, _⟩ := new_eq_some scene r h
  rw [hinfo]
  simp [TwoDSceneRenderer.init_info]

/-- The constructor returns on the scene with group ids `0, 1, 2, 3`, and the renderer it
returns has the default flags of C1. -/
theorem constructor_default_render_info_witness :
    TwoDSceneRenderer.new scene_groups_0123 = some renderer_groups_0123 ∧
    (renderer_groups_0123.m_info.render_particles = true ∧
    renderer_groups_0123.m_info.render_cloth = true ∧
    renderer_groups_0123.m_info.render_yarn = true ∧
    renderer_groups_0123.m_info.render_spring = true ∧
    renderer_groups_0123.m_info.render_levelset = true ∧
    renderer_groups_0123.m_info.render_gauss = false ∧
    renderer_groups_0123.m_info.render_vertices = false ∧
    renderer_groups_0123.m_info.render_particle_velocity = false ∧
    renderer_groups_0123.m_info.render_vertice_velocity = false ∧
    renderer_groups_0123.m_info.render_gauss_velocity = false ∧
    renderer_groups_0123.m_info.render_buckets = false ∧
    renderer_groups_0123.m_info.render_cohesion = false ∧
    renderer_groups_0123.m_info.render_nodes = NodeView.RI_NV_NONE ∧
    renderer_groups_0123.m_info.render_face_centers = FaceCenterView.RI_FCV_NONE ∧
    renderer_groups_0123.m_info.render_edge_centers = EdgeCenterView.RI_ECV_NONE ∧
    renderer_groups_0123.m_info.render_cell_centers = CellCenterView.RI_CCV_NONE) :=
  ⟨rfl, constructor_default_render_info scene_groups_0123 renderer_groups_0123 rfl⟩

/-- Claim C2, as stated, fails: for the group-id sequence `[-5]` the largest id plus one is
`-4`; the constructor asks `resize` for a negative size and returns no renderer, and no
table can have `-5 + 1` entries. -/
theorem group_table_negative_id_counterexample :
    TwoDSceneRenderer.new scene_group_negative = none ∧
    ¬ ∃ r : TwoDSceneRenderer, (r.m_group_colors.length : Int) = -5 + 1 := by
  refine ⟨rfl, ?_⟩
  rintro ⟨r, h⟩
  omega

/-- Claim C2, amended: for every scene whose group-id sequence is empty the constructor
returns a renderer with an empty colour table; for every scene whose largest group id `m`
satisfies `-1 <= m < INT_MAX` the constructor returns a renderer whose colour table has
exactly `m + 1` entries, entry `i` being the gray `i / (m + 1)` on all three channels. -/
theorem group_table_built (scene : TwoDScene) :
    (scene.getParticleGroup = [] →
      ∃ r, TwoDSceneRenderer.new scene = some r ∧ r.m_group_colors = []) ∧
    (∀ m : Int, m ∈ scene.getParticleGroup → (∀ g ∈ scene.getParticleGroup, g ≤ m) →
      -1 ≤ m → m < INT_MAX →
      ∃ r, TwoDSceneRenderer.new scene = some r ∧
        (r.m_group_colors.length : Int) = m + 1 ∧
        ∀ i : Nat, (i : Int) < m + 1 →
          r.m_group_colors[i]? = some (Vector3s.Constant ((i : scalar) / ((m + 1 : Int) : scalar)))) := by
  constructor
  · intro h
    refine ⟨⟨TwoDSceneRenderer.init_info, []⟩, ?_, rfl⟩
    simp [TwoDSceneRenderer.new, build_group_colors, h, max_element]
  · intro m hmem hmax hlo hhi
    have hmx := max_element_eq_some _ m hmem hmax
    refine ⟨⟨TwoDSceneRenderer.init_info, fill_group_colors (m + 1)⟩, ?_, ?_, ?_⟩
    · simp only [TwoDSceneRenderer.new, build_group_colors, hmx]
      rw [if_neg (by omega), if_neg (by omega)]
    · simp only [fill_group_colors_length]
      omega
    · intro i hi
      exact fill_group_colors_getElem (m + 1) i (by omega)

/-- The amended C2 at the empty scene and at the scene with group ids `0, 1, 2, 3`, whose
largest id is `3`. -/
theorem group_table_built_witness :
    (∃ r, TwoDSceneRenderer.new TwoDScene.empty = some r ∧ r.m_group_colors = []) ∧
    (∃ r, TwoDSceneRenderer.new scene_groups_0123 = some r ∧
        (r.m_group_colors.length : Int) = 3 + 1 ∧
        ∀ i : Nat, (i : Int) < 3 + 1 →
          r.m_group_colors[i]? = some (Vector3s.Constant ((i : scalar) / ((3 + 1 : Int) : scalar)))) :=
  ⟨(group_table_built TwoDScene.empty).1 rfl,
   (group_table_built scene_groups_0123).2 3 (by decide) (by decide) (by decide) (by decide)⟩

/-- Claim C3: for every colour table the constructor builds with at least one entry, the
lookup `colorOf` (index `g % numGroups`) gives the same colour for `g` and `g + numGroups`
for every group id `g >= 0` (both being `int` values), and for `0 <= i < j < numGroups`
the colours of `i` and `j` are grays whose intensity strictly increases. -/
theorem colorOf_wraps_and_increases (scene : TwoDScene) (r : TwoDSceneRenderer)
    (h : TwoDSceneRenderer.new scene = some r) (hn : 1 ≤ r.m_group_colors.length) :
    (∀ g : Int, 0 ≤ g → g + (r.m_group_colors.length : Int) ≤ INT_MAX →
      colorOf r.m_group_colors g = colorOf r.m_group_colors (g + r.m_group_colors.length)) ∧
    (∀ i j : Nat, i < j → j < r.m_group_colors.length →
      ∃ a b : scalar, colorOf r.m_group_colors (i : Int) = some (Vector3s.Constant a) ∧
        colorOf r.m_group_colors (j : Int) = some (Vector3s.Constant b) ∧ a < b) := by
  obtain ⟨_, hb⟩ := new_eq_some scene r h
  have hshape := build_group_colors_shape _ _ hb
  have hle := build_group_colors_length_le _ _ hb
  generalize r.m_group_colors.length = n at hshape hle hn
  rw [hshape]
  have hnpos : 0 < n := hn
  constructor
  · intro g h0 h1
    rw [colorOf_fill n g hnpos h0 (by omega), colorOf_fill n (g + n) hnpos (by omega) h1]
    have : (g + (n : Int)).toNat % n = g.toNat % n := by
      have : (g + (n : Int)).toNat = g.toNat + n := by omega
      rw [this, Nat.add_mod_right]
    rw [this]
  · intro i j hij hj
    refine ⟨(i : scalar) / (n : scalar), (j : scalar) / (n : scalar), ?_, ?_, ?_⟩
    · rw [colorOf_fill n (i : Int) hnpos (by omega) (by omega)]
      simp only [Int.toNat_ofNat]
      rw [Nat.mod_eq_of_lt (by omega)]
    · rw [colorOf_fill n (j : Int) hnpos (by omega) (by omega)]
      simp only [Int.toNat_ofNat]
      rw [Nat.mod_eq_of_lt hj]
    · have hq : (0 : scalar) < (n : scalar) := by exact_mod_cast hnpos
      exact div_lt_div_of_pos_right (by exact_mod_cast hij) hq

/-- Claim C3 on the table built from the ids `0, 1, 2, 3`: the colour of group `1` is the
colour of group `1 + 4`, and the colour of group `0` is a strictly darker gray than the
colour of group `3`. -/
theorem colorOf_wraps_and_increases_witness :
    colorOf renderer_groups_0123.m_group_colors 1
      = colorOf renderer_groups_0123.m_group_colors (1 + renderer_groups_0123.m_group_colors.length) ∧
    ∃ a b : scalar,
      colorOf renderer_groups_0123.m_group_colors ((0 : Nat) : Int) = some (Vector3s.Constant a) ∧
      colorOf renderer_groups_0123.m_group_colors ((3 : Nat) : Int) = some (Vector3s.Constant b) ∧
      a < b :=
  ⟨(colorOf_wraps_and_increases scene_groups_0123 renderer_groups_0123 rfl (by decide)).1 1
      (by decide) (by decide),
   (colorOf_wraps_and_increases scene_groups_0123 renderer_groups_0123 rfl (by decide)).2 0 3
      (by decide) (by decide)⟩

/-- Claim C5, as stated, fails: with `fluidVol = 1` and `vol = -1` the ratio
`fluidVol / vol` is `-1`, below `0`, yet the colour emitted for the face base colour and
the fluid colour is the fluid colour, not the base colour: the denominator the code divides
by is `max(1e-12, vol)`, not `vol`. -/
theorem blend_unguarded_ratio_counterexample :
    (1 : scalar) / (-1) < 0 ∧
    blend face_color fluid_color (saturation 1 (-1)) = fluid_color ∧
    blend face_color fluid_color (saturation 1 (-1)) ≠ face_color := by
  have hs : saturation 1 (-1) = 1 := by
    unfold saturation
    apply mathutils_clamp_above
    unfold std_max
    norm_num
  rw [hs, blend_one]
  refine ⟨by norm_num, rfl, ?_⟩
  simp only [fluid_color, face_color, ne_eq, Vector3s.mk.injEq, not_and]
  norm_num

/-- Claim C5, amended: for every base colour `a` and fluid colour `b` the blend
`a*(1-sat) + b*sat` is `a` at `sat = 0` and `b` at `sat = 1`; the emitted colour is `a`
whenever the guarded ratio `fluidVol / max(1e-12, vol)` is below `0` and `b` whenever it is
above `1`; for `vol >= 1e-12` the guarded ratio is `fluidVol / vol` itself. -/
theorem blend_endpoints_and_guarded_clamp (a b : Vector3s) (fvol vol : scalar) :
    blend a b 0 = a ∧ blend a b 1 = b ∧
    (fvol / std_max 1e-12 vol < 0 → blend a b (saturation fvol vol) = a) ∧
    (1 < fvol / std_max 1e-12 vol → blend a b (saturation fvol vol) = b) ∧
    (1e-12 ≤ vol → fvol / vol < 0 → blend a b (saturation fvol vol) = a) ∧
    (1e-12 ≤ vol → 1 < fvol / vol → blend a b (saturation fvol vol) = b) := by
  have hlow : fvol / std_max 1e-12 vol < 0 → blend a b (saturation fvol vol) = a := by
    intro h
    unfold saturation
    rw [mathutils_clamp_below _ h, blend_zero]
  have hhigh : 1 < fvol / std_max 1e-12 vol → blend a b (saturation fvol vol) = b := by
    intro h
    unfold saturation
    rw [mathutils_clamp_above _ h, blend_one]
  refine ⟨blend_zero a b, blend_one a b, hlow, hhigh, ?_, ?_⟩
  · intro hv h
    apply hlow
    rw [std_max_of_le vol hv]
    exact h
  · intro hv h
    apply hhigh
    rw [std_max_of_le vol hv]
    exact h

/-- The amended C5 for the face base colour and the fluid colour: with volumes `(-1, 2)`
the ratio is below `0` and the colour is the base colour; with volumes `(3, 2)` the ratio
is above `1` and the colour is the fluid colour. -/
theorem blend_endpoints_and_guarded_clamp_witness :
    blend face_color fluid_color (saturation (-1) 2) = face_color ∧
    blend face_color fluid_color (saturation 3 2) = fluid_color ∧
    blend face_color fluid_color (saturation (-1) (-2)) = face_color ∧
    blend face_color fluid_color (saturation 3 (-2)) = fluid_color :=
  ⟨(blend_endpoints_and_guarded_clamp face_color fluid_color (-1) 2).2.2.2.2.1
      (by norm_num) (by norm_num),
   (blend_endpoints_and_guarded_clamp face_color fluid_color 3 2).2.2.2.2.2
      (by norm_num) (by norm_num),
   (blend_endpoints_and_guarded_clamp face_color fluid_color (-1) (-2)).2.2.1
      (by unfold std_max; norm_num),
   (blend_endpoints_and_guarded_clamp face_color fluid_color 3 (-2)).2.2.2.1
      (by unfold std_max; norm_num)⟩

/-! ## Loops and sequences of calls -/

theorem forEach_nil {α : Type} (body : α → Option (List GLCmd)) :
    forEach [] body = some [] := rfl

theorem forEach_cons_eq_some {α : Type} (x : α) (xs : List α)
    (body : α → Option (List GLCmd)) (T : List GLCmd) :
    forEach (x :: xs) body = some T ↔
      ∃ t ts, body x = some t ∧ forEach xs body = some ts ∧ T = t ++ ts := by
  simp only [forEach]
  cases hb : body x with
  | none => simp
  | some t =>
    cases hr : forEach xs body with
    | none => simp
    | some ts =>
      simp only [Option.some.injEq]
      constructor
      · intro h
        exact ⟨t, ts, rfl, rfl, h.symm⟩
      · rintro ⟨t2, ts2, h1, h2, h3⟩
        rw [h3, h1, h2]

/-- A loop all of whose iterations have a result has the concatenation as its result. -/
theorem forEach_of_forall {α : Type} (xs : List α) (body : α → Option (List GLCmd))
    (g : α → List GLCmd) (h : ∀ x ∈ xs, body x = some (g x)) :
    forEach xs body = some (xs.flatMap g) := by
  induction xs with
  | nil => rfl
  | cons x xs ih =>
    rw [forEach_cons_eq_some]
    exact ⟨g x, xs.flatMap g, h x (List.mem_cons_self _ _),
      ih (fun y hy => h y (List.mem_cons_of_mem _ hy)), by simp⟩

/-- A loop with a result: every iteration has one. -/
theorem forEach_isSome {α : Type} (xs : List α) (body : α → Option (List GLCmd))
    (T : List GLCmd) (h : forEach xs body = some T) :
    ∀ x ∈ xs, ∃ t, body x = some t := by
  induction xs generalizing T with
  | nil => simp
  | cons x xs ih =>
    rw [forEach_cons_eq_some] at h
    obtain ⟨t, ts, h1, h2, _⟩ := h
    intro y hy
    rcases List.mem_cons.mp hy with rfl | hy
    · exact ⟨t, h1⟩
    · exact ih ts h2 y hy

/-- A property of call lists that holds of the empty list, is kept by concatenation and
holds of every iteration holds of the whole loop. -/
theorem forEach_induction {α : Type} (P : List GLCmd → Prop) (hnil : P [])
    (happ : ∀ a b, P a → P b → P (a ++ b))
    (xs : List α) (body : α → Option (List GLCmd)) (T : List GLCmd)
    (h : forEach xs body = some T) (hb : ∀ x ∈ xs, ∀ t, body x = some t → P t) : P T := by
  induction xs generalizing T with
  | nil =>
    simp only [forEach, Option.some.injEq] at h
    subst h
    exact hnil
  | cons x xs ih =>
    rw [forEach_cons_eq_some] at h
    obtain ⟨t, ts, h1, h2, h3⟩ := h
    subst h3
    exact happ _ _ (hb x (List.mem_cons_self _ _) t h1)
      (ih ts h2 (fun y hy => hb y (List.mem_cons_of_mem _ hy)))

theorem sequence_nil : sequence [] = some [] := rfl

theorem sequence_cons_some (t : List GLCmd) (ps : List (Option (List GLCmd))) :
    sequence (some t :: ps) = (sequence ps).map (fun ts => t ++ ts) := by
  unfold sequence
  simp only [forEach]
  cases forEach ps (fun part => part) <;> rfl

theorem sequence_cons_none (ps : List (Option (List GLCmd))) :
    sequence (none :: ps) = none := rfl

theorem sequence_cons_eq_some (p : Option (List GLCmd)) (ps : List (Option (List GLCmd)))
    (T : List GLCmd) :
    sequence (p :: ps) = some T ↔
      ∃ t ts, p = some t ∧ sequence ps = some ts ∧ T = t ++ ts := by
  unfold sequence
  exact forEach_cons_eq_some p ps (fun part => part) T

theorem sequence_induction (P : List GLCmd → Prop) (hnil : P [])
    (happ : ∀ a b, P a → P b → P (a ++ b))
    (ps : List (Option (List GLCmd))) (T : List GLCmd)
    (h : sequence ps = some T) (hb : ∀ p ∈ ps, ∀ t, p = some t → P t) : P T :=
  forEach_induction P hnil happ ps (fun part => part) T h hb

/-! ## Executing calls -/

theorem exec_nil (s : GLState) : s.exec [] = (s, []) := rfl

theorem exec_cons (s : GLState) (c : GLCmd) (rest : List GLCmd) :
    s.exec (c :: rest)
      = (((s.step c).1.exec rest).1, (s.step c).2 ++ ((s.step c).1.exec rest).2) := rfl

theorem exec_append (s : GLState) (a b : List GLCmd) :
    s.exec (a ++ b) = (((s.exec a).1.exec b).1, (s.exec a).2 ++ ((s.exec a).1.exec b).2) := by
  induction a generalizing s with
  | nil => simp [exec_nil]
  | cons c rest ih =>
    simp only [List.cons_append, exec_cons, ih, List.append_assoc]

theorem drawn_append (c : Color4) (a b : List GLCmd) :
    drawn c (a ++ b) = drawn c a ++ drawn (lastColor c a) b := by
  induction a generalizing c with
  | nil => simp [drawn, lastColor]
  | cons x rest ih =>
    cases x <;> simp [drawn, lastColor, ih]

theorem lastColor_append (c : Color4) (a b : List GLCmd) :
    lastColor c (a ++ b) = lastColor (lastColor c a) b := by
  induction a generalizing c with
  | nil => simp [lastColor]
  | cons x rest ih =>
    cases x <;> simp [lastColor, ih]

theorem noEnd_append (a b : List GLCmd) : noEnd (a ++ b) = (noEnd a && noEnd b) := by
  induction a with
  | nil => simp [noEnd]
  | cons x rest ih =>
    cases x <;> simp [noEnd, ih]

/-- Between `glBegin` and `glEnd`, calls other than `glEnd` only collect vertices and set
the colour. -/
theorem exec_inside (S : List GLCmd) (hS : noEnd S = true) (s : GLState)
    (k : GLPrimitive) (vs : List GLVertex) (hs : s.current = some (k, vs)) :
    s.exec S = ({ s with color := lastColor s.color S,
                         current := some (k, vs ++ drawn s.color S) }, []) := by
  induction S generalizing s vs with
  | nil =>
    simp only [exec_nil, lastColor, drawn, List.append_nil, Prod.mk.injEq, and_true]
    cases s
    simp only at hs
    simp [hs]
  | cons c rest ih =>
    rw [exec_cons]
    cases c with
    | glEnd => simp [noEnd] at hS
    | glVertex3dv v =>
      have hS2 : noEnd rest = true := by simpa [noEnd] using hS
      simp only [GLState.step, hs, List.nil_append]
      rw [ih hS2 _ (vs ++ [⟨v, s.color⟩]) rfl]
      simp [drawn, lastColor]
    | glColor3d r g b =>
      have hS2 : noEnd rest = true := by simpa [noEnd] using hS
      simp only [GLState.step, hs, List.nil_append]
      rw [ih hS2 _ vs rfl]
      simp [drawn, lastColor]
    | glColor3dv v =>
      have hS2 : noEnd rest = true := by simpa [noEnd] using hS
      simp only [GLState.step, hs, List.nil_append]
      rw [ih hS2 _ vs rfl]
      simp [drawn, lastColor]
    | glColor4d r g b a =>
      have hS2 : noEnd rest = true := by simpa [noEnd] using hS
      simp only [GLState.step, hs, List.nil_append]
      rw [ih hS2 _ vs rfl]
      simp [drawn, lastColor]
    | _ =>
      have hS2 : noEnd rest = true := by simpa [noEnd] using hS
      simp only [GLState.step, hs, List.nil_append]
      rw [ih hS2 _ vs hs]
      simp [drawn, lastColor]

/-- A `glBegin` / `glEnd` pair executed outside any other pair draws one batch. -/
theorem exec_block (S : List GLCmd) (hS : noEnd S = true) (s : GLState)
    (hs : s.current = none) (k : GLPrimitive) :
    s.exec (glBegin k :: (S ++ [glEnd]))
      = ({ s with color := lastColor s.color S },
         [⟨k, s.polygonMode, s.modelview, drawn s.color S⟩]) := by
  rw [exec_cons]
  have h1 : s.step (glBegin k) = ({ s with current := some (k, []) }, []) := by
    simp [GLState.step, hs]
  rw [h1, exec_append, exec_inside S hS _ k [] rfl]
  simp only [List.nil_append, exec_cons, exec_nil, GLState.step, List.append_nil]
  cases s
  simp only at hs
  simp [hs]

/-- A `glBegin` / `glEnd` pair followed by further calls. -/
theorem exec_block_then (S : List GLCmd) (hS : noEnd S = true) (rest : List GLCmd)
    (s : GLState) (hs : s.current = none) (k : GLPrimitive) :
    s.exec (glBegin k :: (S ++ glEnd :: rest))
      = ((GLState.exec { s with color := lastColor s.color S } rest).1,
         ⟨k, s.polygonMode, s.modelview, drawn s.color S⟩ ::
           (GLState.exec { s with color := lastColor s.color S } rest).2) := by
  have h : glBegin k :: (S ++ glEnd :: rest) = (glBegin k :: (S ++ [glEnd])) ++ rest := by
    simp
  rw [h, exec_append, exec_block S hS s hs k]
  rfl

/-! ## Reading arrays -/

theorem coeff_isSome (v : VectorXs) (i : Int) (h0 : 0 ≤ i) (h1 : i < (v.length : Int)) :
    ∃ a, v.coeff i = some a := by
  unfold VectorXs.coeff
  rw [if_pos h0]
  have h : i.toNat < v.length := by omega
  exact ⟨v[i.toNat], List.getElem?_eq_getElem h⟩

theorem segment3_isSome (v : VectorXs) (i : Int) (h0 : 0 ≤ i)
    (h1 : i + 2 < (v.length : Int)) : ∃ p, v.segment3 i = some p := by
  unfold VectorXs.segment3
  rw [if_pos h0]
  have ha : i.toNat < v.length := by omega
  have hb : i.toNat + 1 < v.length := by omega
  have hc : i.toNat + 2 < v.length := by omega
  rw [List.getElem?_eq_getElem ha, List.getElem?_eq_getElem hb, List.getElem?_eq_getElem hc]
  exact ⟨_, rfl⟩

/-! ## Vertices drawn by a loop -/

/-- The vertices drawn by a loop are those of its iterations, when each iteration draws the
same vertices whatever colour is current at its start. -/
theorem drawn_forEach_map {α β : Type} (f : GLVertex → β) (xs : List α)
    (body : α → Option (List GLCmd)) (g : α → List β) (T : List GLCmd)
    (h : forEach xs body = some T)
    (hb : ∀ x ∈ xs, ∀ t, body x = some t → ∀ c, (drawn c t).map f = g x) :
    ∀ c, (drawn c T).map f = xs.flatMap g := by
  induction xs generalizing T with
  | nil =>
    simp only [forEach, Option.some.injEq] at h
    subst h
    intro c
    simp [drawn]
  | cons x xs ih =>
    rw [forEach_cons_eq_some] at h
    obtain ⟨t, ts, h1, h2, h3⟩ := h
    subst h3
    intro c
    rw [drawn_append, List.map_append, hb x (List.mem_cons_self _ _) t h1 c,
      ih ts h2 (fun y hy => hb y (List.mem_cons_of_mem _ hy)) _]
    simp

/-- A property of every vertex drawn by each iteration holds of every vertex drawn by the
loop. -/
theorem drawn_forEach_forall {α : Type} (Q : GLVertex → Prop) (xs : List α)
    (body : α → Option (List GLCmd)) (T : List GLCmd)
    (h : forEach xs body = some T)
    (hb : ∀ x ∈ xs, ∀ t, body x = some t → ∀ c, ∀ v ∈ drawn c t, Q v) :
    ∀ c, ∀ v ∈ drawn c T, Q v := by
  induction xs generalizing T with
  | nil =>
    simp only [forEach, Option.some.injEq] at h
    subst h
    intro c v hv
    simp [drawn] at hv
  | cons x xs ih =>
    rw [forEach_cons_eq_some] at h
    obtain ⟨t, ts, h1, h2, h3⟩ := h
    subst h3
    intro c v hv
    rw [drawn_append] at hv
    rcases List.mem_append.mp hv with hv | hv
    · exact hb x (List.mem_cons_self _ _) t h1 c v hv
    · exact ih ts h2 (fun y hy => hb y (List.mem_cons_of_mem _ hy)) _ v hv

theorem noEnd_forEach {α : Type} (xs : List α) (body : α → Option (List GLCmd))
    (T : List GLCmd) (h : forEach xs body = some T)
    (hb : ∀ x ∈ xs, ∀ t, body x = some t → noEnd t = true) : noEnd T = true :=
  forEach_induction (fun t => noEnd t = true) rfl
    (fun a b ha hb2 => by simp [noEnd_append, ha, hb2]) xs body T h hb

/-- Vertices with known positions and one common colour. -/
theorem vertices_eq_map (l : List GLVertex) (ps : List Vector3s) (c : Color4)
    (hp : l.map GLVertex.position = ps) (hc : ∀ v ∈ l, v.color = c) :
    l = ps.map (fun p => ⟨p, c⟩) := by
  induction l generalizing ps with
  | nil =>
    simp at hp
    subst hp
    rfl
  | cons v vs ih =>
    cases ps with
    | nil => simp at hp
    | cons q qs =>
      simp only [List.map_cons, List.cons.injEq] at hp
      have h1 : v.color = c := hc v (List.mem_cons_self _ _)
      rw [List.map_cons, ← ih qs hp.2 (fun w hw => hc w (List.mem_cons_of_mem _ hw))]
      cases v
      simp only at h1 hp
      simp [h1, hp.1]

theorem primitives_length (b : GLBatch) :
    b.primitives.length = b.vertices.length / b.kind.arity := by
  simp [GLBatch.primitives]

/-! ## The cloth category -/

theorem clothFillVertex_eq_some (scene : TwoDScene) (p : Int) (t : List GLCmd)
    (h : clothFillVertex scene p = some t) :
    ∃ fv vl px, scene.getFluidVol.coeff p = some fv ∧ scene.getVol.coeff p = some vl ∧
      scene.getX.segment3 (p * 4) = some px ∧
      t = [glColor3d (blend face_color fluid_color (saturation fv vl)).x
            (blend face_color fluid_color (saturation fv vl)).y
            (blend face_color fluid_color (saturation fv vl)).z, glVertex3dv px] := by
  unfold clothFillVertex at h
  split at h
  · rename_i fv vl px h1 h2 h3
    simp only [Option.some.injEq] at h
    exact ⟨fv, vl, px, h1, h2, h3, h.symm⟩
  · simp at h

theorem clothLineVertex_eq_some (scene : TwoDScene) (p : Int) (t : List GLCmd)
    (h : clothLineVertex scene p = some t) :
    ∃ fv vl px, scene.getFluidVol.coeff p = some fv ∧ scene.getVol.coeff p = some vl ∧
      scene.getX.segment3 (p * 4) = some px ∧
      t = [glColor3d
            ((blend face_color2 fluid_color (saturation fv vl)) * (0.85 : scalar)
              + face_color2 * (0.15 : scalar)).x
            ((blend face_color2 fluid_color (saturation fv vl)) * (0.85 : scalar)
              + face_color2 * (0.15 : scalar)).y
            ((blend face_color2 fluid_color (saturation fv vl)) * (0.85 : scalar)
              + face_color2 * (0.15 : scalar)).z, glVertex3dv px] := by
  unfold clothLineVertex at h
  split at h
  · rename_i fv vl px h1 h2 h3
    simp only [Option.some.injEq] at h
    exact ⟨fv, vl, px, h1, h2, h3, h.symm⟩
  · simp at h

theorem clothFillVertex_isSome (scene : TwoDScene) (p : Int) (h0 : 0 ≤ p)
    (h1 : p < scene.getNumParticles)
    (hx : 4 * scene.getNumParticles ≤ (scene.getX.length : Int))
    (hf : scene.getNumParticles ≤ (scene.getFluidVol.length : Int))
    (hv : scene.getNumParticles ≤ (scene.getVol.length : Int)) :
    ∃ t, clothFillVertex scene p = some t := by
  obtain ⟨fv, e1⟩ := coeff_isSome scene.getFluidVol p h0 (by omega)
  obtain ⟨vl, e2⟩ := coeff_isSome scene.getVol p h0 (by omega)
  obtain ⟨px, e3⟩ := segment3_isSome scene.getX (p * 4) (by omega) (by omega)
  unfold clothFillVertex
  rw [e1, e2, e3]
  exact ⟨_, rfl⟩

theorem clothLineVertex_isSome (scene : TwoDScene) (p : Int) (h0 : 0 ≤ p)
    (h1 : p < scene.getNumParticles)
    (hx : 4 * scene.getNumParticles ≤ (scene.getX.length : Int))
    (hf : scene.getNumParticles ≤ (scene.getFluidVol.length : Int))
    (hv : scene.getNumParticles ≤ (scene.getVol.length : Int)) :
    ∃ t, clothLineVertex scene p = some t := by
  obtain ⟨fv, e1⟩ := coeff_isSome scene.getFluidVol p h0 (by omega)
  obtain ⟨vl, e2⟩ := coeff_isSome scene.getVol p h0 (by omega)
  obtain ⟨px, e3⟩ := segment3_isSome scene.getX (p * 4) (by omega) (by omega)
  unfold clothLineVertex
  rw [e1, e2, e3]
  exact ⟨_, rfl⟩

/-- A loop has a result as soon as each iteration has one. -/
theorem forEach_isSome_of_forall {α : Type} (xs : List α) (body : α → Option (List GLCmd))
    (h : ∀ x ∈ xs, ∃ t, body x = some t) : ∃ T, forEach xs body = some T := by
  induction xs with
  | nil => exact ⟨[], rfl⟩
  | cons x xs ih =>
    obtain ⟨t, ht⟩ := h x (List.mem_cons_self _ _)
    obtain ⟨ts, hts⟩ := ih (fun y hy => h y (List.mem_cons_of_mem _ hy))
    exact ⟨t ++ ts, (forEach_cons_eq_some x xs body _).mpr ⟨t, ts, ht, hts, rfl⟩⟩

/-- The calls of the cloth category: a filled block and a wireframe block. -/
theorem renderCloth_eq_some (scene : TwoDScene) (T : List GLCmd)
    (h : renderCloth true scene = some T) :
    ∃ F W,
      forEach scene.getFaces
        (fun f => forEach [0, 1, 2] (fun r => clothFillVertex scene (f.coeff r))) = some F ∧
      forEach scene.getFaces
        (fun f => forEach [0, 1, 2] (fun r => clothLineVertex scene (f.coeff r))) = some W ∧
      T = glPolygonMode GL_FILL :: glBegin GL_TRIANGLES :: (F ++ glEnd ::
            glPolygonMode GL_LINE :: glBegin GL_TRIANGLES :: (W ++
              [glEnd, glPolygonMode GL_FILL])) := by
  simp only [renderCloth, if_true] at h
  rw [sequence_cons_eq_some] at h
  obtain ⟨t1, r1, e1, h, rfl⟩ := h
  rw [sequence_cons_eq_some] at h
  obtain ⟨F, r2, eF, h, rfl⟩ := h
  rw [sequence_cons_eq_some] at h
  obtain ⟨t3, r3, e3, h, rfl⟩ := h
  rw [sequence_cons_eq_some] at h
  obtain ⟨W, r4, eW, h, rfl⟩ := h
  rw [sequence_cons_eq_some] at h
  obtain ⟨t5, r5, e5, h, rfl⟩ := h
  simp only [sequence_nil, Option.some.injEq] at h e1 e3 e5
  subst h e1 e3 e5
  exact ⟨F, W, eF, eW, by simp⟩

theorem renderCloth_isSome (scene : TwoDScene) (hwf : facesInRange scene) :
    ∃ T, renderCloth true scene = some T := by
  obtain ⟨hfaces, hx, hf, hv⟩ := hwf
  obtain ⟨F, hF⟩ := forEach_isSome_of_forall scene.getFaces
    (fun f => forEach [0, 1, 2] (fun r => clothFillVertex scene (f.coeff r)))
    (fun f hfm => forEach_isSome_of_forall _ _ (fun r hr =>
      clothFillVertex_isSome scene _ (hfaces f hfm r hr).1 (hfaces f hfm r hr).2 hx hf hv))
  obtain ⟨W, hW⟩ := forEach_isSome_of_forall scene.getFaces
    (fun f => forEach [0, 1, 2] (fun r => clothLineVertex scene (f.coeff r)))
    (fun f hfm => forEach_isSome_of_forall _ _ (fun r hr =>
      clothLineVertex_isSome scene _ (hfaces f hfm r hr).1 (hfaces f hfm r hr).2 hx hf hv))
  simp only [renderCloth, if_true, hF, hW, sequence_cons_some, sequence_nil]
  exact ⟨_, rfl⟩

theorem exec_polygonMode (s : GLState) (hs : s.current = none) (m : GLPolygonMode) :
    s.exec [glPolygonMode m] = ({ s with polygonMode := m }, []) := by
  simp [exec_cons, exec_nil, GLState.step, hs]

theorem flatMap_const_length {α β : Type} (xs : List α) (l : List β) :
    (xs.flatMap (fun _ => l)).length = l.length * xs.length := by
  induction xs with
  | nil => simp
  | cons x xs ih =>
    simp only [List.flatMap_cons, List.length_append, ih, List.length_cons]
    ring

theorem wire_color_zero :
    (blend face_color2 fluid_color 0) * (0.85 : scalar) + face_color2 * (0.15 : scalar)
      = face_color2 := by
  rw [blend_zero]
  simp only [face_color2, Vector3s.mul_def, Vector3s.add_def]
  norm_num

/-- What the cloth category draws: a filled batch and a wireframe batch of triangles over
the faces' vertex positions; without fluid the filled batch has the colour `face_color` and
the wireframe batch the colour `face_color2`. -/
theorem renderCloth_exec (scene : TwoDScene) (T : List GLCmd)
    (h : renderCloth true scene = some T) (s : GLState) (hs : s.current = none) :
    ∃ (fill wire : List GLVertex) (c : Color4),
      s.exec T = ({ s with polygonMode := GL_FILL, color := c },
        [⟨GL_TRIANGLES, GL_FILL, s.modelview, fill⟩,
         ⟨GL_TRIANGLES, GL_LINE, s.modelview, wire⟩]) ∧
      fill.map GLVertex.position = spec_facePositions scene ∧
      wire.map GLVertex.position = spec_facePositions scene ∧
      (spec_facePositions scene).length = 3 * scene.getFaces.length ∧
      ((∀ f ∈ scene.getFaces, ∀ r ∈ [0, 1, 2],
          scene.getFluidVol.coeff (f.coeff r) = some 0) →
        (∀ v ∈ fill, v.color = Color4.ofVector3s face_color) ∧
        (∀ v ∈ wire, v.color = Color4.ofVector3s face_color2)) := by
  obtain ⟨F, W, hF, hW, rfl⟩ := renderCloth_eq_some scene T h
  have hnF : noEnd F = true :=
    noEnd_forEach _ _ F hF (fun f _ t ht =>
      noEnd_forEach _ _ t ht (fun r _ t2 ht2 => by
        obtain ⟨_, _, _, _, _, _, rfl⟩ := clothFillVertex_eq_some scene _ t2 ht2
        rfl))
  have hnW : noEnd W = true :=
    noEnd_forEach _ _ W hW (fun f _ t ht =>
      noEnd_forEach _ _ t ht (fun r _ t2 ht2 => by
        obtain ⟨_, _, _, _, _, _, rfl⟩ := clothLineVertex_eq_some scene _ t2 ht2
        rfl))
  have hposF : ∀ c, (drawn c F).map GLVertex.position = spec_facePositions scene :=
    drawn_forEach_map _ _ _ _ F hF (fun f _ t ht =>
      drawn_forEach_map _ _ _ _ t ht (fun r _ t2 ht2 c => by
        obtain ⟨_, _, px, _, _, e3, rfl⟩ := clothFillVertex_eq_some scene _ t2 ht2
        simp [drawn, e3]))
  have hposW : ∀ c, (drawn c W).map GLVertex.position = spec_facePositions scene :=
    drawn_forEach_map _ _ _ _ W hW (fun f _ t ht =>
      drawn_forEach_map _ _ _ _ t ht (fun r _ t2 ht2 c => by
        obtain ⟨_, _, px, _, _, e3, rfl⟩ := clothLineVertex_eq_some scene _ t2 ht2
        simp [drawn, e3]))
  have hlenF : ∀ c, (drawn c F).map (fun _ => ())
      = scene.getFaces.flatMap (fun _ => [(), (), ()]) :=
    drawn_forEach_map _ _ _ _ F hF (fun f _ t ht =>
      drawn_forEach_map (fun _ => ()) [0, 1, 2] _ (fun _ => [()]) t ht (fun r _ t2 ht2 c => by
        obtain ⟨_, _, px, _, _, e3, rfl⟩ := clothFillVertex_eq_some scene _ t2 ht2
        simp [drawn]))
  refine ⟨drawn s.color F, drawn (lastColor s.color F) W,
    lastColor (lastColor s.color F) W, ?_, hposF _, hposW _, ?_, ?_⟩
  · obtain ⟨pm, col, mv, st, cur⟩ := s
    simp only at hs
    subst hs
    rw [exec_cons]
    simp only [GLState.step, List.nil_append]
    rw [exec_block_then F hnF _ _ rfl, exec_cons]
    simp only [GLState.step, List.nil_append]
    rw [exec_block_then W hnW _ _ rfl]
    simp [exec_cons, exec_nil, GLState.step]
  · have h1 := congrArg List.length (hlenF s.color)
    rw [List.length_map, flatMap_const_length] at h1
    rw [← hposF s.color, List.length_map, h1]
    simp
  · intro hzero
    constructor
    · exact drawn_forEach_forall _ _ _ F hF (fun f hf t ht =>
        drawn_forEach_forall _ _ _ t ht (fun r hr t2 ht2 c v hv => by
          obtain ⟨fv, vl, px, e1, _, _, rfl⟩ := clothFillVertex_eq_some scene _ t2 ht2
          rw [hzero f hf r hr] at e1
          simp only [Option.some.injEq] at e1
          subst e1
          rw [saturation_zero_fluid, blend_zero] at hv
          simp only [drawn, List.mem_singleton] at hv
          rw [hv]
          rfl)) _
    · exact drawn_forEach_forall _ _ _ W hW (fun f hf t ht =>
        drawn_forEach_forall _ _ _ t ht (fun r hr t2 ht2 c v hv => by
          obtain ⟨fv, vl, px, e1, _, _, rfl⟩ := clothLineVertex_eq_some scene _ t2 ht2
          rw [hzero f hf r hr] at e1
          simp only [Option.some.injEq] at e1
          subst e1
          rw [saturation_zero_fluid, wire_color_zero] at hv
          simp only [drawn, List.mem_singleton] at hv
          rw [hv]
          rfl)) _

theorem facesInRange_two_faces : facesInRange scene_two_faces := by
  refine ⟨?_, by decide, by decide, by decide⟩
  intro f hf r hr
  simp only [scene_two_faces, TwoDScene.empty, List.mem_cons, List.mem_singleton,
    List.not_mem_nil, or_false] at hf hr
  rcases hf with rfl | rfl <;> rcases hr with rfl | rfl | rfl <;>
    simp [Vector3i.coeff, scene_two_faces, TwoDScene.empty]

theorem no_fluid_two_faces : ∀ f ∈ scene_two_faces.getFaces, ∀ r ∈ [0, 1, 2],
    scene_two_faces.getFluidVol.coeff (f.coeff r) = some 0 := by
  intro f hf r hr
  simp only [scene_two_faces, TwoDScene.empty, List.mem_cons, List.mem_singleton,
    List.not_mem_nil, or_false] at hf hr
  rcases hf with rfl | rfl <;> rcases hr with rfl | rfl | rfl <;>
    simp [Vector3i.coeff, scene_two_faces, TwoDScene.empty, VectorXs.coeff]

theorem face_color2_ne_face_color :
    Color4.ofVector3s face_color2 ≠ Color4.ofVector3s face_color := by
  simp only [Color4.ofVector3s, face_color2, face_color, ne_eq, Color4.mk.injEq, not_and]
  norm_num

/-- Claim C6, as stated, fails: for the scene with two faces sharing an edge and no fluid,
the cloth category draws a filled and a wireframe batch, and the six vertices of the
wireframe batch do not have the face base colour `face_color` (they have the darker
`face_color2`). -/
theorem cloth_wireframe_color_counterexample :
    ∃ (T : List GLCmd) (fill wire : List GLVertex),
      renderCloth true scene_two_faces = some T ∧
      (GLState.initial.exec T).2 = [⟨GL_TRIANGLES, GL_FILL, [], fill⟩,
        ⟨GL_TRIANGLES, GL_LINE, [], wire⟩] ∧
      wire.length = 6 ∧
      ∀ v ∈ wire, v.color ≠ Color4.ofVector3s face_color := by
  obtain ⟨T, hT⟩ := renderCloth_isSome scene_two_faces facesInRange_two_faces
  obtain ⟨fill, wire, c, hexec, _, hpw, hlen, hcol⟩ :=
    renderCloth_exec scene_two_faces T hT GLState.initial rfl
  refine ⟨T, fill, wire, hT, ?_, ?_, ?_⟩
  · rw [hexec]
    rfl
  · have := congrArg List.length hpw
    rw [List.length_map, hlen] at this
    rw [this]
    rfl
  · intro v hv
    rw [(hcol no_fluid_two_faces).2 v hv]
    exact face_color2_ne_face_color

/-- Claim C6, amended: for every scene whose faces refer to particles of the scene the cloth
category has a result, and whenever it has one, executed outside `glBegin` / `glEnd` it
draws exactly one filled batch followed by one wireframe batch of triangles, each with as
many triangles as the scene has faces, at the faces' vertex positions; when the fluid
volume is `0` at every face vertex, every vertex of the filled batch has the colour
`face_color` and every vertex of the wireframe batch the darker colour `face_color2`. -/
theorem cloth_filled_then_wireframe (scene : TwoDScene) :
    (facesInRange scene → ∃ T, renderCloth true scene = some T) ∧
    ∀ T, renderCloth true scene = some T → ∀ s : GLState, s.current = none →
      ∃ fill wire : List GLVertex,
        (s.exec T).2 = [⟨GL_TRIANGLES, GL_FILL, s.modelview, fill⟩,
          ⟨GL_TRIANGLES, GL_LINE, s.modelview, wire⟩] ∧
        (GLBatch.mk GL_TRIANGLES GL_FILL s.modelview fill).primitives.length
          = scene.getFaces.length ∧
        (GLBatch.mk GL_TRIANGLES GL_LINE s.modelview wire).primitives.length
          = scene.getFaces.length ∧
        fill.map GLVertex.position = spec_facePositions scene ∧
        wire.map GLVertex.position = spec_facePositions scene ∧
        ((∀ f ∈ scene.getFaces, ∀ r ∈ [0, 1, 2],
            scene.getFluidVol.coeff (f.coeff r) = some 0) →
          fill = (spec_facePositions scene).map (fun p => ⟨p, Color4.ofVector3s face_color⟩) ∧
          wire = (spec_facePositions scene).map (fun p => ⟨p, Color4.ofVector3s face_color2⟩)) := by
  refine ⟨renderCloth_isSome scene, ?_⟩
  intro T hT s hs
  obtain ⟨fill, wire, c, hexec, hpf, hpw, hlen, hcol⟩ := renderCloth_exec scene T hT s hs
  have hlf : fill.length = 3 * scene.getFaces.length := by
    rw [← hlen, ← hpf, List.length_map]
  have hlw : wire.length = 3 * scene.getFaces.length := by
    rw [← hlen, ← hpw, List.length_map]
  refine ⟨fill, wire, by rw [hexec], ?_, ?_, hpf, hpw, ?_⟩
  · rw [primitives_length]
    simp [GLPrimitive.arity, hlf]
  · rw [primitives_length]
    simp [GLPrimitive.arity, hlw]
  · intro hzero
    exact ⟨vertices_eq_map fill _ _ hpf (hcol hzero).1,
      vertices_eq_map wire _ _ hpw (hcol hzero).2⟩

/-- The amended C6 on the scene with two faces sharing an edge and no fluid, drawn from the
initial OpenGL state. -/
theorem cloth_filled_then_wireframe_witness :
    ∃ T, renderCloth true scene_two_faces = some T ∧
      ∃ fill wire : List GLVertex,
        (GLState.initial.exec T).2
          = [⟨GL_TRIANGLES, GL_FILL, GLState.initial.modelview, fill⟩,
             ⟨GL_TRIANGLES, GL_LINE, GLState.initial.modelview, wire⟩] ∧
        (GLBatch.mk GL_TRIANGLES GL_FILL GLState.initial.modelview fill).primitives.length
          = scene_two_faces.getFaces.length ∧
        (GLBatch.mk GL_TRIANGLES GL_LINE GLState.initial.modelview wire).primitives.length
          = scene_two_faces.getFaces.length ∧
        fill.map GLVertex.position = spec_facePositions scene_two_faces ∧
        wire.map GLVertex.position = spec_facePositions scene_two_faces ∧
        fill = (spec_facePositions scene_two_faces).map
          (fun p => ⟨p, Color4.ofVector3s face_color⟩) ∧
        wire = (spec_facePositions scene_two_faces).map
          (fun p => ⟨p, Color4.ofVector3s face_color2⟩) := by
  obtain ⟨T, hT⟩ := (cloth_filled_then_wireframe scene_two_faces).1 facesInRange_two_faces
  obtain ⟨fill, wire, h1, h2, h3, h4, h5, h6⟩ :=
    (cloth_filled_then_wireframe scene_two_faces).2 T hT GLState.initial rfl
  exact ⟨T, hT, fill, wire, h1, h2, h3, h4, h5, (h6 no_fluid_two_faces).1,
    (h6 no_fluid_two_faces).2⟩

/-! ## Primitives of a batch -/

theorem facePositions_two_faces :
    spec_facePositions scene_two_faces
      = [⟨0, 0, 0⟩, ⟨1, 0, 0⟩, ⟨0, 1, 0⟩, ⟨1, 0, 0⟩, ⟨1, 1, 0⟩, ⟨0, 1, 0⟩] := by
  simp [spec_facePositions, scene_two_faces, TwoDScene.empty, Vector3i.coeff, VectorXs.segment3]

/-- The vertices drawn by a loop split into one part per iteration, each part related to
its iteration. -/
theorem drawn_forEach_forall2 {α : Type} (R : α → List GLVertex → Prop) (xs : List α)
    (body : α → Option (List GLCmd)) (T : List GLCmd)
    (h : forEach xs body = some T)
    (hb : ∀ x ∈ xs, ∀ t, body x = some t → ∀ c, R x (drawn c t)) :
    ∀ c, ∃ parts : List (List GLVertex), drawn c T = parts.flatten ∧ List.Forall₂ R xs parts := by
  induction xs generalizing T with
  | nil =>
    simp only [forEach, Option.some.injEq] at h
    subst h
    intro c
    exact ⟨[], by simp [drawn], List.Forall₂.nil⟩
  | cons x xs ih =>
    rw [forEach_cons_eq_some] at h
    obtain ⟨t, ts, h1, h2, h3⟩ := h
    subst h3
    intro c
    obtain ⟨parts, hp, hR⟩ :=
      ih ts h2 (fun y hy => hb y (List.mem_cons_of_mem _ hy)) (lastColor c t)
    refine ⟨drawn c t :: parts, ?_, List.Forall₂.cons (hb x (List.mem_cons_self _ _) t h1 c) hR⟩
    rw [drawn_append, hp]
    simp

/-- Cutting the concatenation of groups of `n` vertices into groups of `n` gives the groups
back. -/
theorem chunks_flatten (n : Nat) (hn : 0 < n) (parts : List (List GLVertex))
    (hp : ∀ p ∈ parts, p.length = n) :
    (List.range (parts.flatten.length / n)).map
      (fun i => (parts.flatten.drop (i * n)).take n) = parts := by
  induction parts with
  | nil => simp
  | cons p ps ih =>
    have hpl : p.length = n := hp p (List.mem_cons_self _ _)
    have hps := ih (fun q hq => hp q (List.mem_cons_of_mem _ hq))
    have hlen : (p :: ps).flatten.length / n = ps.flatten.length / n + 1 := by
      simp only [List.flatten_cons, List.length_append, hpl]
      rw [Nat.add_comm, Nat.add_div_right _ hn]
    rw [hlen, List.range_succ_eq_map, List.map_cons, List.map_map]
    congr 1
    · simp [hpl.symm]
    · refine Eq.trans ?_ hps
      apply List.map_congr_left
      intro i _
      simp only [Function.comp, List.flatten_cons]
      have : (i + 1) * n = p.length + i * n := by rw [hpl]; ring
      rw [Nat.succ_eq_add_one, this, List.drop_append]

theorem primitives_flatten (k : GLPrimitive) (pm : GLPolygonMode) (mv : List GLTransform)
    (parts : List (List GLVertex)) (hp : ∀ p ∈ parts, p.length = k.arity) :
    (GLBatch.mk k pm mv parts.flatten).primitives = parts := by
  unfold GLBatch.primitives
  exact chunks_flatten k.arity (by cases k <;> decide) parts hp

/-! ## The fiber-edge category -/

theorem colorOf_nil (g : Int) : colorOf [] g = none := by
  simp [colorOf]

theorem colorOf_isSome (tbl : List Vector3s) (g : Int) (h : tbl ≠ []) :
    ∃ c, colorOf tbl g = some c ∧ c ∈ tbl := by
  unfold colorOf
  have hpos : 0 < tbl.length := List.length_pos.mpr h
  rw [if_neg (by omega)]
  have hlt : size_t_of_int g % tbl.length < tbl.length := Nat.mod_lt _ hpos
  exact ⟨tbl[size_t_of_int g % tbl.length], List.getElem?_eq_getElem hlt,
    List.getElem_mem hlt⟩

theorem readAt_isSome {α : Type} (v : List α) (i : Int) (h0 : 0 ≤ i)
    (h1 : i < (v.length : Int)) : ∃ a, readAt v i = some a := by
  unfold readAt
  rw [if_pos h0]
  have h : i.toNat < v.length := by omega
  exact ⟨v[i.toNat], List.getElem?_eq_getElem h⟩

theorem yarnEdge_eq_some (tbl : List Vector3s) (scene : TwoDScene) (e : Int × Int)
    (t : List GLCmd) (h : yarnEdge tbl scene e = some t) :
    ∃ fv0 vl0 fv1 vl1 g0 g1 gc0 gc1 x0 x1,
      scene.getFluidVol.coeff e.1 = some fv0 ∧ scene.getVol.coeff e.1 = some vl0 ∧
      scene.getFluidVol.coeff e.2 = some fv1 ∧ scene.getVol.coeff e.2 = some vl1 ∧
      readAt scene.getParticleGroup e.1 = some g0 ∧
      readAt scene.getParticleGroup e.2 = some g1 ∧
      colorOf tbl g0 = some gc0 ∧ colorOf tbl g1 = some gc1 ∧
      scene.getX.segment3 (4 * e.1) = some x0 ∧ scene.getX.segment3 (4 * e.2) = some x1 ∧
      t = [glColor3dv (blend gc0 fluid_color (saturation fv0 vl0)), glVertex3dv x0,
           glColor3dv (blend gc1 fluid_color (saturation fv1 vl1)), glVertex3dv x1] := by
  unfold yarnEdge at h
  split at h
  · rename_i fv0 vl0 fv1 vl1 a1 a2 a3 a4
    split at h
    · rename_i g0 g1 b1 b2
      split at h
      · rename_i gc0 gc1 c1 c2
        simp only at h
        split at h
        · rename_i x0 x1 d1 d2
          simp only [Option.some.injEq] at h
          exact ⟨fv0, vl0, fv1, vl1, g0, g1, gc0, gc1, x0, x1, a1, a2, a3, a4, b1, b2,
            c1, c2, d1, d2, h.symm⟩
        · simp at h
      · simp at h
    · simp at h
  · simp at h

theorem yarnEdge_isSome (tbl : List Vector3s) (scene : TwoDScene) (e : Int × Int)
    (htbl : tbl ≠ [])
    (h1 : 0 ≤ e.1 ∧ e.1 < scene.getNumParticles) (h2 : 0 ≤ e.2 ∧ e.2 < scene.getNumParticles)
    (hx : 4 * scene.getNumParticles ≤ (scene.getX.length : Int))
    (hf : scene.getNumParticles ≤ (scene.getFluidVol.length : Int))
    (hv : scene.getNumParticles ≤ (scene.getVol.length : Int))
    (hg : scene.getNumParticles ≤ (scene.getParticleGroup.length : Int)) :
    ∃ t, yarnEdge tbl scene e = some t := by
  obtain ⟨fv0, a1⟩ := coeff_isSome scene.getFluidVol e.1 h1.1 (by omega)
  obtain ⟨vl0, a2⟩ := coeff_isSome scene.getVol e.1 h1.1 (by omega)
  obtain ⟨fv1, a3⟩ := coeff_isSome scene.getFluidVol e.2 h2.1 (by omega)
  obtain ⟨vl1, a4⟩ := coeff_isSome scene.getVol e.2 h2.1 (by omega)
  obtain ⟨g0, b1⟩ := readAt_isSome scene.getParticleGroup e.1 h1.1 (by omega)
  obtain ⟨g1, b2⟩ := readAt_isSome scene.getParticleGroup e.2 h2.1 (by omega)
  obtain ⟨gc0, c1, _⟩ := colorOf_isSome tbl g0 htbl
  obtain ⟨gc1, c2, _⟩ := colorOf_isSome tbl g1 htbl
  obtain ⟨x0, d1⟩ := segment3_isSome scene.getX (4 * e.1) (by omega) (by omega)
  obtain ⟨x1, d2⟩ := segment3_isSome scene.getX (4 * e.2) (by omega) (by omega)
  unfold yarnEdge
  simp only [a1, a2, a3, a4, b1, b2, c1, c2, d1, d2]
  exact ⟨_, rfl⟩

theorem yarnEdge_nil_table (scene : TwoDScene) (e : Int × Int) :
    yarnEdge [] scene e = none := by
  cases h : yarnEdge [] scene e with
  | none => rfl
  | some t =>
    obtain ⟨_, _, _, _, g0, _, gc0, _, _, _, _, _, _, _, _, _, c1, _⟩ :=
      yarnEdge_eq_some [] scene e t h
    rw [colorOf_nil] at c1
    simp at c1

theorem renderYarn_eq_some (tbl : List Vector3s) (scene : TwoDScene) (T : List GLCmd)
    (h : renderYarn true tbl scene = some T) :
    ∃ E, forEach scene.getEdges (fun e => yarnEdge tbl scene e) = some E ∧
      T = glLineWidth 3.0 :: glEnable GL_DEPTH_TEST :: glBegin GL_LINES ::
            ((E ++ [glDisable GL_DEPTH_TEST]) ++ glEnd :: []) := by
  simp only [renderYarn, if_true] at h
  rw [sequence_cons_eq_some] at h
  obtain ⟨t1, r1, e1, h, rfl⟩ := h
  rw [sequence_cons_eq_some] at h
  obtain ⟨E, r2, eE, h, rfl⟩ := h
  rw [sequence_cons_eq_some] at h
  obtain ⟨t3, r3, e3, h, rfl⟩ := h
  simp only [sequence_nil, Option.some.injEq] at h e1 e3
  subst h e1 e3
  exact ⟨E, eE, by simp⟩

theorem renderYarn_isSome (tbl : List Vector3s) (scene : TwoDScene) (htbl : tbl ≠ [])
    (hwf : edgesInRange scene) : ∃ T, renderYarn true tbl scene = some T := by
  obtain ⟨hedges, hx, hf, hv, hg⟩ := hwf
  obtain ⟨E, hE⟩ := forEach_isSome_of_forall scene.getEdges
    (fun e => yarnEdge tbl scene e)
    (fun e he => yarnEdge_isSome tbl scene e htbl (hedges e he).1 (hedges e he).2 hx hf hv hg)
  simp only [renderYarn, if_true, hE, sequence_cons_some, sequence_nil]
  exact ⟨_, rfl⟩

/-- With an empty colour table the fiber-edge category has a result only for a scene
without edges. -/
theorem renderYarn_nil_table (scene : TwoDScene) :
    (∃ T, renderYarn true [] scene = some T) ↔ scene.getEdges = [] := by
  constructor
  · rintro ⟨T, hT⟩
    obtain ⟨E, hE, _⟩ := renderYarn_eq_some [] scene T hT
    cases hedges : scene.getEdges with
    | nil => rfl
    | cons e es =>
      rw [hedges] at hE
      obtain ⟨t, ht⟩ := forEach_isSome _ _ E hE e (List.mem_cons_self _ _)
      rw [yarnEdge_nil_table] at ht
      simp at ht
  · intro h
    simp only [renderYarn, if_true, h, forEach, sequence_cons_some, sequence_nil]
    exact ⟨_, rfl⟩

/-- What the fiber-edge category draws: one batch of lines, one segment per edge in order,
from the first endpoint to the second, each endpoint in the blend of its group colour with
the fluid colour. -/
theorem renderYarn_exec (tbl : List Vector3s) (scene : TwoDScene) (T : List GLCmd)
    (h : renderYarn true tbl scene = some T) (s : GLState) (hs : s.current = none) :
    ∃ (segments : List (List GLVertex)) (c : Color4),
      s.exec T = ({ s with color := c },
        [⟨GL_LINES, s.polygonMode, s.modelview, segments.flatten⟩]) ∧
      List.Forall₂ (spec_IsYarnSegment tbl scene) scene.getEdges segments := by
  obtain ⟨E, hE, rfl⟩ := renderYarn_eq_some tbl scene T h
  have hnE : noEnd (E ++ [glDisable GL_DEPTH_TEST]) = true := by
    rw [noEnd_append]
    have : noEnd E = true :=
      noEnd_forEach _ _ E hE (fun e _ t ht => by
        obtain ⟨_, _, _, _, _, _, _, _, _, _, _, _, _, _, _, _, _, _, _, _, rfl⟩ :=
          yarnEdge_eq_some tbl scene e t ht
        rfl)
    simp [this, noEnd]
  obtain ⟨segments, hseg, hR⟩ := drawn_forEach_forall2 (spec_IsYarnSegment tbl scene) _ _ E hE
    (fun e _ t ht c => by
    obtain ⟨fv0, vl0, fv1, vl1, g0, g1, gc0, gc1, x0, x1, a1, a2, a3, a4, b1, b2, c1, c2,
      d1, d2, rfl⟩ := yarnEdge_eq_some tbl scene e t ht
    exact ⟨fv0, vl0, fv1, vl1, g0, g1, gc0, gc1, x0, x1, a1, a2, a3, a4, b1, b2, c1, c2,
      d1, d2, by simp [drawn]⟩) s.color
  refine ⟨segments, lastColor s.color (E ++ [glDisable GL_DEPTH_TEST]), ?_, hR⟩
  obtain ⟨pm, col, mv, st, cur⟩ := s
  simp only at hs
  subst hs
  rw [exec_cons]
  simp only [GLState.step, List.nil_append]
  rw [exec_cons]
  simp only [GLState.step, List.nil_append]
  rw [exec_block_then _ hnE _ _ rfl]
  simp only [exec_nil, drawn_append, drawn, List.append_nil]
  simp only at hseg
  rw [hseg]

theorem isYarnSegment_length (tbl : List Vector3s) (scene : TwoDScene) (e : Int × Int)
    (seg : List GLVertex) (h : spec_IsYarnSegment tbl scene e seg) : seg.length = 2 := by
  obtain ⟨_, _, _, _, _, _, _, _, _, _, _, _, _, _, _, _, _, _, _, _, rfl⟩ := h
  rfl

theorem forall2_right_forall {α β : Type} (R : α → β → Prop) (Q : β → Prop)
    (xs : List α) (ys : List β) (h : List.Forall₂ R xs ys) (hq : ∀ x y, R x y → Q y) :
    ∀ y ∈ ys, Q y := by
  induction h with
  | nil => simp
  | cons hxy _ ih =>
    intro y hy
    rcases List.mem_cons.mp hy with rfl | hy
    · exact hq _ _ hxy
    · exact ih y hy

theorem edgesInRange_three_groups : edgesInRange scene_three_groups := by
  refine ⟨?_, by decide, by decide, by decide, by decide⟩
  intro e he
  simp only [scene_three_groups, TwoDScene.empty, List.mem_singleton] at he
  subst he
  simp [scene_three_groups, TwoDScene.empty]

/-- Claim C7: for every renderer and scene the fiber-edge category has a result when the
colour table is not empty and the edges refer to particles of the scene; whenever it has a
result it draws one batch of lines with exactly one segment per edge, in order, and for
every edge whose two endpoints have saturation `0` the segment goes from the first endpoint
in the colour `colorOf(group of endpoint 0)` to the second endpoint in the colour
`colorOf(group of endpoint 1)`, without any blending. -/
theorem yarn_unblended_segments (r : TwoDSceneRenderer) (scene : TwoDScene) :
    (r.m_group_colors ≠ [] → edgesInRange scene →
      ∃ T, renderYarn true r.m_group_colors scene = some T) ∧
    ∀ T, renderYarn true r.m_group_colors scene = some T →
      ∀ s : GLState, s.current = none →
      ∃ segments : List (List GLVertex),
        (s.exec T).2 = [⟨GL_LINES, s.polygonMode, s.modelview, segments.flatten⟩] ∧
        (GLBatch.mk GL_LINES s.polygonMode s.modelview segments.flatten).primitives
          = segments ∧
        List.Forall₂ (fun e seg =>
          spec_IsYarnSegment r.m_group_colors scene e seg ∧
          ∀ fv0 vl0 fv1 vl1 g0 g1 gc0 gc1 x0 x1,
            scene.getFluidVol.coeff e.1 = some fv0 → scene.getVol.coeff e.1 = some vl0 →
            scene.getFluidVol.coeff e.2 = some fv1 → scene.getVol.coeff e.2 = some vl1 →
            readAt scene.getParticleGroup e.1 = some g0 →
            readAt scene.getParticleGroup e.2 = some g1 →
            colorOf r.m_group_colors g0 = some gc0 →
            colorOf r.m_group_colors g1 = some gc1 →
            scene.getX.segment3 (4 * e.1) = some x0 →
            scene.getX.segment3 (4 * e.2) = some x1 →
            saturation fv0 vl0 = 0 → saturation fv1 vl1 = 0 →
            seg = [⟨x0, Color4.ofVector3s gc0⟩, ⟨x1, Color4.ofVector3s gc1⟩])
          scene.getEdges segments := by
  refine ⟨renderYarn_isSome r.m_group_colors scene, ?_⟩
  intro T hT s hs
  obtain ⟨segments, c, hexec, hR⟩ := renderYarn_exec r.m_group_colors scene T hT s hs
  refine ⟨segments, by rw [hexec], ?_, ?_⟩
  · apply primitives_flatten
    exact forall2_right_forall _ _ _ _ hR
      (fun e seg h => isYarnSegment_length r.m_group_colors scene e seg h)
  · refine List.Forall₂.imp ?_ hR
    intro e seg hseg
    refine ⟨hseg, ?_⟩
    intro fv0 vl0 fv1 vl1 g0 g1 gc0 gc1 x0 x1 a1 a2 a3 a4 b1 b2 c1 c2 d1 d2 hs0 hs1
    obtain ⟨fv0', vl0', fv1', vl1', g0', g1', gc0', gc1', x0', x1', a1', a2', a3', a4', b1',
      b2', c1', c2', d1', d2', rfl⟩ := hseg
    rw [a1] at a1'
    rw [a2] at a2'
    rw [a3] at a3'
    rw [a4] at a4'
    rw [b1] at b1'
    rw [b2] at b2'
    rw [d1] at d1'
    rw [d2] at d2'
    simp only [Option.some.injEq] at a1' a2' a3' a4' b1' b2' d1' d2'
    subst a1' a2' a3' a4' b1' b2' d1' d2'
    rw [c1] at c1'
    rw [c2] at c2'
    simp only [Option.some.injEq] at c1' c2'
    subst c1' c2'
    rw [hs0, hs1, blend_zero, blend_zero]

/-- Claim C7 on the scene with three particle groups and one edge from a particle of group
`0` to a particle of group `2`, without fluid: the one segment drawn has the endpoint
colours gray `0` and gray `2/3`, in that order. -/
theorem yarn_unblended_segments_witness :
    TwoDSceneRenderer.new scene_three_groups = some renderer_three_groups ∧
    ∃ T, renderYarn true renderer_three_groups.m_group_colors scene_three_groups = some T ∧
      (GLState.initial.exec T).2 = [⟨GL_LINES, GL_FILL, [],
        [⟨⟨0, 0, 0⟩, Color4.ofVector3s (Vector3s.Constant 0)⟩,
         ⟨⟨2, 0, 0⟩, Color4.ofVector3s (Vector3s.Constant (2 / 3))⟩]⟩] := by
  refine ⟨rfl, ?_⟩
  obtain ⟨T, hT⟩ := (yarn_unblended_segments renderer_three_groups scene_three_groups).1
    (by simp [renderer_three_groups, fill_group_colors]) edgesInRange_three_groups
  obtain ⟨segments, hexec, _, hR⟩ :=
    (yarn_unblended_segments renderer_three_groups scene_three_groups).2 T hT
      GLState.initial rfl
  refine ⟨T, hT, ?_⟩
  rw [hexec]
  have hedges : scene_three_groups.getEdges = [(0, 2)] := rfl
  rw [hedges] at hR
  cases hR with
  | cons h1 h2 =>
    cases h2
    have hc0 : colorOf renderer_three_groups.m_group_colors 0
        = some (Vector3s.Constant 0) := by
      have := colorOf_fill 3 0 (by decide) (by decide) (by decide)
      simpa [renderer_three_groups] using this
    have hc2 : colorOf renderer_three_groups.m_group_colors 2
        = some (Vector3s.Constant (2 / 3)) := by
      have := colorOf_fill 3 2 (by decide) (by decide) (by decide)
      simpa [renderer_three_groups] using this
    have := h1.2 0 1 0 1 0 2 (Vector3s.Constant 0) (Vector3s.Constant (2 / 3))
      ⟨0, 0, 0⟩ ⟨2, 0, 0⟩ rfl rfl rfl rfl rfl rfl hc0 hc2 rfl rfl
      (saturation_zero_fluid 1) (saturation_zero_fluid 1)
    rw [this]
    rfl

theorem sequence_eq_none_of_mem (ps : List (Option (List GLCmd))) (h : none ∈ ps) :
    sequence ps = none := by
  induction ps with
  | nil => simp at h
  | cons p ps ih =>
    cases p with
    | none => rfl
    | some t =>
      rw [sequence_cons_some]
      rcases List.mem_cons.mp h with h | h
      · simp at h
      · rw [ih h]
        rfl

/-- Claim C10, as stated, fails: for two particles of group `-1` joined by a fiber edge the
constructor returns a renderer with an empty colour table; the lookup of the group colour
is then a remainder by zero and has no result, the fiber-edge category has no result, and
the frame does not run to its end. -/
theorem empty_table_lookup_counterexample :
    TwoDSceneRenderer.new scene_negative_groups = some renderer_negative_groups ∧
    renderer_negative_groups.m_group_colors = [] ∧
    colorOf renderer_negative_groups.m_group_colors (-1) = none ∧
    renderYarn true renderer_negative_groups.m_group_colors scene_negative_groups = none ∧
    renderParticleSimulation build_debug interp_black renderer_negative_groups
      scene_negative_groups 1 = none := by
  have hy : renderYarn true renderer_negative_groups.m_group_colors scene_negative_groups
      = none := by
    cases h : renderYarn true renderer_negative_groups.m_group_colors scene_negative_groups with
    | none => rfl
    | some T =>
      have := (renderYarn_nil_table scene_negative_groups).mp ⟨T, h⟩
      simp [scene_negative_groups, TwoDScene.empty] at this
  refine ⟨rfl, rfl, colorOf_nil _, hy, ?_⟩
  unfold renderParticleSimulation
  have hb : build_debug.RENDER_ENABLED = true := rfl
  rw [if_pos hb]
  apply sequence_eq_none_of_mem
  have hflag : renderer_negative_groups.m_info.render_yarn = true := rfl
  simp only [frameSections, List.map, hflag, hy]
  simp

/-- Claim C10, amended: when the group colour table is empty the lookup of a group colour
has no result for any group id (the index is a remainder by zero and no default colour
exists), and the fiber-edge category has a result exactly for the scenes without edges; when
the table is not empty the lookup returns an entry of the table for every group id. -/
theorem empty_table_lookup_fails (tbl : List Vector3s) (g : Int) (scene : TwoDScene) :
    (tbl = [] → colorOf tbl g = none ∧
      ((∃ T, renderYarn true tbl scene = some T) ↔ scene.getEdges = [])) ∧
    (tbl ≠ [] → ∃ c, colorOf tbl g = some c ∧ c ∈ tbl) := by
  constructor
  · intro h
    subst h
    exact ⟨colorOf_nil g, renderYarn_nil_table scene⟩
  · exact colorOf_isSome tbl g

/-- The amended C10 on the empty table with the scene of two particles of group `-1`, and
on the table of three groups with the group id `5`. -/
theorem empty_table_lookup_fails_witness :
    (colorOf [] (-1) = none ∧
      ((∃ T, renderYarn true [] scene_negative_groups = some T)
        ↔ scene_negative_groups.getEdges = [])) ∧
    (∃ c, colorOf (fill_group_colors 3) 5 = some c ∧ c ∈ fill_group_colors 3) :=
  ⟨(empty_table_lookup_fails [] (-1) scene_negative_groups).1 rfl,
   (empty_table_lookup_fails (fill_group_colors 3) 5 scene_negative_groups).2
     (by simp [fill_group_colors])⟩

/-! ## The level-set category -/

theorem noColor_append (a b : List GLCmd) : noColor (a ++ b) = (noColor a && noColor b) := by
  induction a with
  | nil => simp [noColor]
  | cons x rest ih =>
    cases x <;> simp [noColor, ih]

theorem noColor_forEach {α : Type} (xs : List α) (body : α → Option (List GLCmd))
    (T : List GLCmd) (h : forEach xs body = some T)
    (hb : ∀ x ∈ xs, ∀ t, body x = some t → noColor t = true) : noColor T = true :=
  forEach_induction (fun t => noColor t = true) rfl
    (fun a b ha hb2 => by simp [noColor_append, ha, hb2]) xs body T h hb

theorem lastColor_noColor (c : Color4) (T : List GLCmd) (h : noColor T = true) :
    lastColor c T = c := by
  induction T with
  | nil => rfl
  | cons x rest ih =>
    cases x <;> simp [noColor] at h <;> simp [lastColor, ih h]

theorem drawn_noColor (c : Color4) (T : List GLCmd) (h : noColor T = true) :
    ∀ v ∈ drawn c T, v.color = c := by
  induction T with
  | nil => simp [drawn]
  | cons x rest ih =>
    cases x <;> simp [noColor] at h <;> simp [drawn] <;> exact ih h

/-- A loop whose iterations each leave the state as it was leaves the state as it was, and
draws the batches of its iterations. -/
theorem exec_forEach_fixed {α : Type} (xs : List α) (body : α → Option (List GLCmd))
    (g : α → List GLBatch) (T : List GLCmd) (s : GLState)
    (h : forEach xs body = some T)
    (hb : ∀ x ∈ xs, ∀ t, body x = some t → s.exec t = (s, g x)) :
    s.exec T = (s, xs.flatMap g) := by
  induction xs generalizing T with
  | nil =>
    simp only [forEach, Option.some.injEq] at h
    subst h
    rfl
  | cons x xs ih =>
    rw [forEach_cons_eq_some] at h
    obtain ⟨t, ts, h1, h2, h3⟩ := h
    subst h3
    rw [exec_append, hb x (List.mem_cons_self _ _) t h1]
    simp only
    rw [ih ts h2 (fun y hy => hb y (List.mem_cons_of_mem _ hy))]
    simp

/-- A loop whose iterations each keep an invariant of the state keeps it, and draws the
batches of its iterations. -/
theorem exec_forEach_inv {α : Type} (Inv : GLState → Prop) (xs : List α)
    (body : α → Option (List GLCmd)) (g : α → List GLBatch) (T : List GLCmd)
    (h : forEach xs body = some T)
    (hb : ∀ x ∈ xs, ∀ t, body x = some t →
      ∀ s, Inv s → Inv (s.exec t).1 ∧ (s.exec t).2 = g x) :
    ∀ s, Inv s → Inv (s.exec T).1 ∧ (s.exec T).2 = xs.flatMap g := by
  induction xs generalizing T with
  | nil =>
    simp only [forEach, Option.some.injEq] at h
    subst h
    intro s hs
    exact ⟨hs, rfl⟩
  | cons x xs ih =>
    rw [forEach_cons_eq_some] at h
    obtain ⟨t, ts, h1, h2, h3⟩ := h
    subst h3
    intro s hs
    obtain ⟨hi, hg⟩ := hb x (List.mem_cons_self _ _) t h1 s hs
    obtain ⟨hi2, hg2⟩ := ih ts h2 (fun y hy => hb y (List.mem_cons_of_mem _ hy)) _ hi
    rw [exec_append]
    exact ⟨hi2, by simp [hg, hg2]⟩

theorem fieldCallback_eq_some (mesh : FieldMesh) (t : List GLCmd)
    (h : fieldCallback mesh = some t) :
    ∃ V, forEach mesh.indices (fun idx =>
        forEach [0, 1, 2] (fun r =>
          match readAt mesh.vertices (idx.coeff r) with
          | some v => some [glVertex3dv v]
          | none => none)) = some V ∧
      t = glPushMatrix :: glTranslated mesh.center.x mesh.center.y mesh.center.z ::
            glRotated mesh.rot :: glBegin GL_TRIANGLES :: (V ++ glEnd :: [glPopMatrix]) := by
  simp only [fieldCallback] at h
  rw [sequence_cons_eq_some] at h
  obtain ⟨t1, r1, e1, h, rfl⟩ := h
  rw [sequence_cons_eq_some] at h
  obtain ⟨V, r2, eV, h, rfl⟩ := h
  rw [sequence_cons_eq_some] at h
  obtain ⟨t3, r3, e3, h, rfl⟩ := h
  simp only [sequence_nil, Option.some.injEq] at h e1 e3
  subst h e1 e3
  exact ⟨V, eV, by simp⟩

theorem fieldCallback_isSome (mesh : FieldMesh) (hwf : meshInRange mesh) :
    ∃ t, fieldCallback mesh = some t := by
  obtain ⟨V, hV⟩ := forEach_isSome_of_forall mesh.indices
    (fun idx => forEach [0, 1, 2] (fun r =>
      match readAt mesh.vertices (idx.coeff r) with
      | some v => some [glVertex3dv v]
      | none => none))
    (fun idx hidx => forEach_isSome_of_forall _ _ (fun r hr => by
      obtain ⟨v, hv⟩ := readAt_isSome mesh.vertices (idx.coeff r) (hwf idx hidx r hr).1
        (hwf idx hidx r hr).2
      simp only [hv]
      exact ⟨_, rfl⟩))
  simp only [fieldCallback, hV, sequence_cons_some, sequence_nil]
  exact ⟨_, rfl⟩

/-- One call of the drawing callback outside `glBegin` / `glEnd` draws the mesh as one batch
of triangles in the current colour and polygon mode, under the mesh's translation and
rotation, and leaves the state as it was. -/
theorem fieldCallback_exec (mesh : FieldMesh) (t : List GLCmd)
    (h : fieldCallback mesh = some t) (s : GLState) (hs : s.current = none) :
    s.exec t = (s, [spec_meshBatch s.polygonMode s.modelview s.color mesh]) ∧
    (spec_meshPositions mesh).length = 3 * mesh.indices.length := by
  obtain ⟨V, hV, rfl⟩ := fieldCallback_eq_some mesh t h
  have hitem : ∀ idx ∈ mesh.indices, ∀ t2,
      forEach [0, 1, 2] (fun r =>
        match readAt mesh.vertices (idx.coeff r) with
        | some v => some [glVertex3dv v]
        | none => none) = some t2 →
      ∀ r ∈ [0, 1, 2], ∀ t3,
        (match readAt mesh.vertices (idx.coeff r) with
          | some v => some [glVertex3dv v]
          | none => none) = some t3 →
        ∃ v, readAt mesh.vertices (idx.coeff r) = some v ∧ t3 = [glVertex3dv v] := by
    intro idx _ t2 _ r _ t3 h3
    split at h3
    · rename_i v hv
      simp only [Option.some.injEq] at h3
      exact ⟨v, hv, h3.symm⟩
    · simp at h3
  have hnc : noColor V = true :=
    noColor_forEach _ _ V hV (fun idx hidx t2 ht2 =>
      noColor_forEach _ _ t2 ht2 (fun r hr t3 ht3 => by
        obtain ⟨v, _, rfl⟩ := hitem idx hidx t2 ht2 r hr t3 ht3
        rfl))
  have hne : noEnd V = true :=
    noEnd_forEach _ _ V hV (fun idx hidx t2 ht2 =>
      noEnd_forEach _ _ t2 ht2 (fun r hr t3 ht3 => by
        obtain ⟨v, _, rfl⟩ := hitem idx hidx t2 ht2 r hr t3 ht3
        rfl))
  have hpos : ∀ c, (drawn c V).map GLVertex.position = spec_meshPositions mesh :=
    drawn_forEach_map _ _ _ _ V hV (fun idx hidx t2 ht2 =>
      drawn_forEach_map _ _ _ _ t2 ht2 (fun r hr t3 ht3 c => by
        obtain ⟨v, hv, rfl⟩ := hitem idx hidx t2 ht2 r hr t3 ht3
        simp [drawn, hv]))
  have hlen : ∀ c, (drawn c V).map (fun _ => ())
      = mesh.indices.flatMap (fun _ => [(), (), ()]) :=
    drawn_forEach_map _ _ _ _ V hV (fun idx hidx t2 ht2 =>
      drawn_forEach_map (fun _ => ()) [0, 1, 2] _ (fun _ => [()]) t2 ht2
        (fun r hr t3 ht3 c => by
          obtain ⟨v, hv, rfl⟩ := hitem idx hidx t2 ht2 r hr t3 ht3
          simp [drawn]))
  constructor
  · obtain ⟨pm, col, mv, st, cur⟩ := s
    simp only at hs
    subst hs
    rw [exec_cons]
    simp only [GLState.step, List.nil_append]
    rw [exec_cons]
    simp only [GLState.step, List.nil_append]
    rw [exec_cons]
    simp only [GLState.step, List.nil_append]
    rw [exec_block_then V hne _ _ rfl]
    simp only [exec_cons, exec_nil, GLState.step, List.append_nil, lastColor_noColor _ V hnc,
      List.append_assoc, List.singleton_append]
    rw [vertices_eq_map (drawn col V) _ col (hpos col) (drawn_noColor col V hnc)]
    rfl
  · have h1 := congrArg List.length (hlen s.color)
    rw [List.length_map, flatMap_const_length] at h1
    rw [← hpos s.color, List.length_map, h1]
    simp

theorem render_exec (field : DistanceField) (T : List GLCmd)
    (h : field.render fieldCallback = some T) (s : GLState) (hs : s.current = none) :
    s.exec T = (s, field.meshes.map (spec_meshBatch s.polygonMode s.modelview s.color)) := by
  have := exec_forEach_fixed field.meshes fieldCallback
    (fun m => [spec_meshBatch s.polygonMode s.modelview s.color m]) T s h
    (fun m _ t ht => (fieldCallback_exec m t ht s hs).1)
  rw [this]
  congr 1
  induction field.meshes with
  | nil => rfl
  | cons m ms ih => simp [ih]

theorem fieldPasses_eq_some (ptr : DistanceField) (T : List GLCmd)
    (h : fieldPasses ptr = some T) :
    ∃ A B, ptr.render fieldCallback = some A ∧ ptr.render fieldCallback = some B ∧
      T = A ++ (glPolygonMode GL_LINE :: (B ++ [glPolygonMode GL_FILL])) := by
  simp only [fieldPasses] at h
  rw [sequence_cons_eq_some] at h
  obtain ⟨A, r1, eA, h, rfl⟩ := h
  rw [sequence_cons_eq_some] at h
  obtain ⟨t2, r2, e2, h, rfl⟩ := h
  rw [sequence_cons_eq_some] at h
  obtain ⟨B, r3, eB, h, rfl⟩ := h
  rw [sequence_cons_eq_some] at h
  obtain ⟨t4, r4, e4, h, rfl⟩ := h
  simp only [sequence_nil, Option.some.injEq] at h e2 e4
  subst h e2 e4
  exact ⟨A, B, eA, eB, by simp⟩

theorem fieldPasses_exec (ptr : DistanceField) (T : List GLCmd)
    (h : fieldPasses ptr = some T) (s : GLState) (hs : s.current = none) :
    s.exec T = ({ s with polygonMode := GL_FILL },
      ptr.meshes.map (spec_meshBatch s.polygonMode s.modelview s.color)
        ++ ptr.meshes.map (spec_meshBatch GL_LINE s.modelview s.color)) := by
  obtain ⟨A, B, hA, hB, rfl⟩ := fieldPasses_eq_some ptr T h
  obtain ⟨pm, col, mv, st, cur⟩ := s
  simp only at hs
  subst hs
  rw [exec_append, render_exec ptr A hA _ rfl]
  simp only
  rw [exec_cons]
  simp only [GLState.step, List.nil_append]
  rw [exec_append, render_exec ptr B hB _ rfl]
  simp [exec_cons, exec_nil, GLState.step]

theorem fieldPasses_isSome (ptr : DistanceField) (hwf : ∀ m ∈ ptr.meshes, meshInRange m) :
    ∃ T, fieldPasses ptr = some T := by
  obtain ⟨A, hA⟩ := forEach_isSome_of_forall ptr.meshes fieldCallback
    (fun m hm => fieldCallback_isSome m (hwf m hm))
  simp only [fieldPasses, DistanceField.render, hA, sequence_cons_some, sequence_nil]
  exact ⟨_, rfl⟩

theorem renderField_exec (ptr : DistanceField) (T : List GLCmd)
    (h : renderField ptr = some T) (mv : List GLTransform) (st : List (List GLTransform))
    (s : GLState) (hs : LevelsetInv mv st s) :
    LevelsetInv mv st (s.exec T).1 ∧ (s.exec T).2 = spec_fieldBatches mv ptr := by
  obtain ⟨pm, col, mv2, st2, cur⟩ := s
  obtain ⟨h1, h2, h3, h4⟩ := hs
  simp only at h1 h2 h3 h4
  subst h1 h2 h3 h4
  unfold renderField at h
  unfold spec_fieldBatches
  split at h
  · rename_i hu
    rw [sequence_cons_eq_some] at h
    obtain ⟨t1, r1, e1, h, rfl⟩ := h
    rw [sequence_cons_eq_some] at h
    obtain ⟨P, r2, eP, h, rfl⟩ := h
    simp only [sequence_nil, Option.some.injEq] at h e1
    subst h e1
    simp only [hu, List.append_nil, List.singleton_append]
    rw [exec_cons]
    simp only [GLState.step, List.nil_append]
    rw [fieldPasses_exec ptr P eP _ rfl]
    exact ⟨⟨rfl, rfl, rfl, rfl⟩, rfl⟩
  · rename_i hu
    rw [sequence_cons_eq_some] at h
    obtain ⟨t1, r1, e1, h, rfl⟩ := h
    rw [sequence_cons_eq_some] at h
    obtain ⟨P, r2, eP, h, rfl⟩ := h
    simp only [sequence_nil, Option.some.injEq] at h e1
    subst h e1
    simp only [hu, List.append_nil, List.singleton_append]
    rw [exec_cons]
    simp only [GLState.step, List.nil_append]
    rw [fieldPasses_exec ptr P eP _ rfl]
    exact ⟨⟨rfl, rfl, rfl, rfl⟩, rfl⟩
  · rename_i tag hu
    simp only [Option.some.injEq] at h
    subst h
    exact ⟨⟨rfl, rfl, rfl, rfl⟩, by simp [exec_nil, hu]⟩

theorem renderField_isSome (ptr : DistanceField)
    (hwf : (ptr.usage = DistanceFieldUsage.DFU_SOLID ∨
      ptr.usage = DistanceFieldUsage.DFU_TERMINATOR) → ∀ m ∈ ptr.meshes, meshInRange m) :
    ∃ T, renderField ptr = some T := by
  unfold renderField
  split
  · rename_i hu
    obtain ⟨P, hP⟩ := fieldPasses_isSome ptr (hwf (Or.inl hu))
    simp only [hP, sequence_cons_some, sequence_nil]
    exact ⟨_, rfl⟩
  · rename_i hu
    obtain ⟨P, hP⟩ := fieldPasses_isSome ptr (hwf (Or.inr hu))
    simp only [hP, sequence_cons_some, sequence_nil]
    exact ⟨_, rfl⟩
  · exact ⟨_, rfl⟩

theorem renderLevelset_eq_some (scene : TwoDScene) (T : List GLCmd)
    (h : renderLevelset true scene = some T) :
    ∃ F, forEach scene.getGroupDistanceField renderField = some F ∧
      T = glEnable GL_BLEND :: glBlendFunc :: glEnable GL_POLYGON_STIPPLE ::
          (F ++ [glDisable GL_BLEND, glDisable GL_POLYGON_STIPPLE]) := by
  simp only [renderLevelset, if_true] at h
  rw [sequence_cons_eq_some] at h
  obtain ⟨t1, r1, e1, h, rfl⟩ := h
  rw [sequence_cons_eq_some] at h
  obtain ⟨F, r2, eF, h, rfl⟩ := h
  rw [sequence_cons_eq_some] at h
  obtain ⟨t3, r3, e3, h, rfl⟩ := h
  simp only [sequence_nil, Option.some.injEq] at h e1 e3
  subst h e1 e3
  exact ⟨F, eF, by simp⟩

/-- What the level-set category draws, started outside `glBegin` / `glEnd` in polygon mode
`GL_FILL`: the contributions of the boundary objects, in order; it ends in polygon mode
`GL_FILL` with the modelview and its stack as they were. -/
theorem renderLevelset_exec (scene : TwoDScene) (T : List GLCmd)
    (h : renderLevelset true scene = some T) (s : GLState)
    (hs : s.current = none) (hpm : s.polygonMode = GL_FILL) :
    LevelsetInv s.modelview s.stack (s.exec T).1 ∧
    (s.exec T).2 = scene.getGroupDistanceField.flatMap (spec_fieldBatches s.modelview) := by
  obtain ⟨F, hF, rfl⟩ := renderLevelset_eq_some scene T h
  have hloop := exec_forEach_inv (LevelsetInv s.modelview s.stack) _ _
    (spec_fieldBatches s.modelview) F hF
    (fun ptr _ t ht s2 hs2 => renderField_exec ptr t ht _ _ s2 hs2) s ⟨hs, hpm, rfl, rfl⟩
  obtain ⟨pm, col, mv, st, cur⟩ := s
  simp only at hs hpm
  subst hs hpm
  simp only [exec_cons, GLState.step, List.nil_append]
  rw [exec_append]
  obtain ⟨⟨i1, i2, i3, i4⟩, hb⟩ := hloop
  simp only [exec_cons, exec_nil, GLState.step, i1, List.append_nil, hb]
  exact ⟨⟨i1, i2, i3, i4⟩, trivial⟩

theorem renderLevelset_isSome (scene : TwoDScene)
    (hwf : ∀ ptr ∈ scene.getGroupDistanceField,
      (ptr.usage = DistanceFieldUsage.DFU_SOLID ∨
        ptr.usage = DistanceFieldUsage.DFU_TERMINATOR) → ∀ m ∈ ptr.meshes, meshInRange m) :
    ∃ T, renderLevelset true scene = some T := by
  obtain ⟨F, hF⟩ := forEach_isSome_of_forall scene.getGroupDistanceField renderField
    (fun ptr hptr => renderField_isSome ptr (hwf ptr hptr))
  simp only [renderLevelset, if_true, hF, sequence_cons_some, sequence_nil]
  exact ⟨_, rfl⟩

theorem meshInRange_triangle : meshInRange mesh_triangle := by
  intro idx hidx r hr
  simp only [mesh_triangle, List.mem_singleton] at hidx
  subst hidx
  simp only [List.mem_cons, List.mem_singleton, List.not_mem_nil, or_false] at hr
  rcases hr with rfl | rfl | rfl <;> simp [Vector3i.coeff, mesh_triangle]

/-! ## Traces that do not disturb the state -/

theorem flat_append (a b : List GLCmd) : flat (a ++ b) = (flat a && flat b) := by
  induction a with
  | nil => simp [flat]
  | cons x rest ih =>
    cases x <;> simp [flat, ih]

theorem flat_forEach {α : Type} (xs : List α) (body : α → Option (List GLCmd))
    (T : List GLCmd) (h : forEach xs body = some T)
    (hb : ∀ x ∈ xs, ∀ t, body x = some t → flat t = true) : flat T = true :=
  forEach_induction (fun t => flat t = true) rfl
    (fun a b ha hb2 => by simp [flat_append, ha, hb2]) xs body T h hb

theorem noEnd_of_flat (T : List GLCmd) (h : flat T = true) : noEnd T = true := by
  induction T with
  | nil => rfl
  | cons x rest ih =>
    cases x <;> simp [flat] at h <;> simp [noEnd, ih h]

/-- Outside `glBegin` / `glEnd`, flat calls change nothing but the colour. -/
theorem exec_flat (T : List GLCmd) (h : flat T = true) (s : GLState)
    (hs : s.current = none) :
    s.exec T = ({ s with color := lastColor s.color T }, []) := by
  induction T generalizing s with
  | nil => rfl
  | cons x rest ih =>
    obtain ⟨pm, c, mv, st, cur⟩ := s
    simp only at hs
    subst hs
    rw [exec_cons]
    cases x <;> simp [flat] at h <;>
      simp only [GLState.step, List.nil_append] <;>
      rw [ih h _ rfl] <;> simp [lastColor]

theorem neutral_nil : Neutral [] := by
  intro s hs
  exact ⟨hs, rfl, rfl, Or.inl rfl⟩

theorem neutral_append (a b : List GLCmd) (ha : Neutral a) (hb : Neutral b) :
    Neutral (a ++ b) := by
  intro s hs
  obtain ⟨a1, a2, a3, a4⟩ := ha s hs
  obtain ⟨b1, b2, b3, b4⟩ := hb (s.exec a).1 a1
  rw [exec_append]
  refine ⟨b1, b2.trans a2, b3.trans a3, ?_⟩
  rcases b4 with b4 | b4
  · rcases a4 with a4 | a4
    · exact Or.inl (b4.trans a4)
    · exact Or.inr (b4.trans a4)
  · exact Or.inr b4

theorem neutral_flat (T : List GLCmd) (h : flat T = true) : Neutral T := by
  intro s hs
  rw [exec_flat T h s hs]
  exact ⟨hs, rfl, rfl, Or.inl rfl⟩

theorem neutral_block (k : GLPrimitive) (L : List GLCmd) (h : flat L = true) :
    Neutral (glBegin k :: (L ++ [glEnd])) := by
  intro s hs
  rw [exec_block L (noEnd_of_flat L h) s hs k]
  exact ⟨hs, rfl, rfl, Or.inl rfl⟩

/-- The shape of most categories: flat calls, one `glBegin` / `glEnd` pair around flat
calls, flat calls. -/
theorem neutral_section (pre : List GLCmd) (k : GLPrimitive) (L post T : List GLCmd)
    (hT : T = pre ++ glBegin k :: (L ++ glEnd :: post))
    (h1 : flat pre = true) (h2 : flat L = true) (h3 : flat post = true) : Neutral T := by
  have : T = pre ++ ((glBegin k :: (L ++ [glEnd])) ++ post) := by
    rw [hT]
    simp
  rw [this]
  exact neutral_append _ _ (neutral_flat pre h1)
    (neutral_append _ _ (neutral_block k L h2) (neutral_flat post h3))

/-! ## Traces whose vertices have a colour of their own -/

theorem colorFirst_append (a b : List GLCmd) (ha : colorFirst a = true)
    (hb : colorFirst b = true) : colorFirst (a ++ b) = true := by
  induction a with
  | nil => simp [hb]
  | cons x rest ih =>
    cases x <;> simp [colorFirst] at ha <;> simp [colorFirst] <;> exact ih ha

theorem colorFirst_of_colored (a b : List GLCmd) (ha : colored a = true) :
    colorFirst (a ++ b) = true := by
  induction a with
  | nil => simp [colored] at ha
  | cons x rest ih =>
    cases x <;> simp [colored] at ha <;> simp [colorFirst] <;> exact ih ha

theorem colorFirst_forEach {α : Type} (xs : List α) (body : α → Option (List GLCmd))
    (T : List GLCmd) (h : forEach xs body = some T)
    (hb : ∀ x ∈ xs, ∀ t, body x = some t → colorFirst t = true) : colorFirst T = true :=
  forEach_induction (fun t => colorFirst t = true) rfl
    (fun a b ha hb2 => colorFirst_append a b ha hb2) xs body T h hb

theorem agree_refl (full : Bool) (s : GLState) : Agree full s s :=
  ⟨rfl, rfl, rfl, fun _ => rfl⟩


theorem view_eq (full : Bool) (k : GLPrimitive) (pm1 pm2 : GLPolygonMode)
    (mv : List GLTransform) (vs : List GLVertex) (h : full = true → pm1 = pm2) :
    view full ⟨k, pm1, mv, vs⟩ = view full ⟨k, pm2, mv, vs⟩ := by
  cases full
  · simp [view]
  · simp [view, h rfl]

/-- One call executed from two states that agree: the same batch is drawn and the states
still agree; they also have the same colour afterwards if they had before or the call sets
the colour. A vertex call needs the colours to be the same. -/
theorem step_agree (full : Bool) (x : GLCmd) (s1 s2 : GLState) (h : Agree full s1 s2)
    (hv : isVertex x = true → s1.color = s2.color) :
    ((s1.step x).2).map (view full) = ((s2.step x).2).map (view full) ∧
    Agree full (s1.step x).1 (s2.step x).1 ∧
    ((isColor x = true ∨ s1.color = s2.color) → (s1.step x).1.color = (s2.step x).1.color) := by
  obtain ⟨pm1, c1, mv1, st1, cur1⟩ := s1
  obtain ⟨pm2, c2, mv2, st2, cur2⟩ := s2
  obtain ⟨h1, h2, h3, h4⟩ := h
  simp only at h1 h2 h3 h4 hv
  subst h1 h2 h3
  cases cur1 with
  | none =>
    cases x with
    | glPopMatrix =>
      cases st1 <;> simp [GLState.step, Agree, isColor] <;> exact h4
    | glPolygonMode m => simp [GLState.step, Agree, isColor]
    | glVertex3dv v => simpa [GLState.step, Agree, isColor] using h4
    | _ =>
      simp [GLState.step, Agree, isColor]
      exact h4
  | some kv =>
    obtain ⟨k, vs⟩ := kv
    cases x with
    | glEnd =>
      simp only [GLState.step, Agree, isColor, List.map_cons, List.map_nil, List.cons.injEq,
        and_true, true_and]
      exact ⟨view_eq full k pm1 pm2 mv1 vs h4, h4, fun h => by simpa using h⟩
    | glVertex3dv v =>
      have := hv rfl
      subst this
      simpa [GLState.step, Agree, isColor] using h4
    | _ =>
      simp [GLState.step, Agree, isColor]
      exact h4




/-- Executed from states that agree and have the same colour, the same calls draw the same
batches. -/
theorem exec_view_of_color_eq (full : Bool) (T : List GLCmd) (s1 s2 : GLState)
    (h : Agree full s1 s2) (hc : s1.color = s2.color) :
    ((s1.exec T).2).map (view full) = ((s2.exec T).2).map (view full) ∧
    Agree full (s1.exec T).1 (s2.exec T).1 := by
  induction T generalizing s1 s2 with
  | nil => exact ⟨rfl, h⟩
  | cons x rest ih =>
    obtain ⟨e1, e2, e3⟩ := step_agree full x s1 s2 h (fun _ => hc)
    obtain ⟨f1, f2⟩ := ih _ _ e2 (e3 (Or.inr hc))
    rw [exec_cons, exec_cons]
    simp only [List.map_append]
    exact ⟨by rw [e1, f1], f2⟩

/-- Executed from states that agree, calls that issue no vertex before their first colour
call draw the same batches. -/
theorem exec_view_of_colorFirst (full : Bool) (T : List GLCmd) (hT : colorFirst T = true)
    (s1 s2 : GLState) (h : Agree full s1 s2) :
    ((s1.exec T).2).map (view full) = ((s2.exec T).2).map (view full) ∧
    Agree full (s1.exec T).1 (s2.exec T).1 := by
  induction T generalizing s1 s2 with
  | nil => exact ⟨rfl, h⟩
  | cons x rest ih =>
    rw [exec_cons, exec_cons]
    simp only [List.map_append]
    by_cases hcol : isColor x = true
    · obtain ⟨e1, e2, e3⟩ := step_agree full x s1 s2 h
        (fun hv => by cases x <;> simp [isColor, isVertex] at hcol hv)
      obtain ⟨f1, f2⟩ := exec_view_of_color_eq full rest _ _ e2 (e3 (Or.inl hcol))
      exact ⟨by rw [e1, f1], f2⟩
    · have hnv : isVertex x = false := by
        cases x <;> simp [isColor, isVertex, colorFirst] at hcol hT ⊢
      have hrest : colorFirst rest = true := by
        cases x <;> simp [isColor, isVertex, colorFirst] at hcol hT hnv ⊢ <;> exact hT
      obtain ⟨e1, e2, _⟩ := step_agree full x s1 s2 h (fun hv => by simp [hnv] at hv)
      obtain ⟨f1, f2⟩ := ih hrest _ _ e2
      exact ⟨by rw [e1, f1], f2⟩

/-! ## Independence of the sections of a frame -/

theorem runSections_cons_eq_some (s : GLState) (c : Category) (x : Option (List GLCmd))
    (rest : List (Category × Option (List GLCmd))) (o : List (Category × List GLBatch)) :
    runSections s ((c, x) :: rest) = some o ↔
      ∃ t o2, x = some t ∧ runSections (s.exec t).1 rest = some o2 ∧
        o = (c, (s.exec t).2) :: o2 := by
  cases x with
  | none => simp [runSections]
  | some t =>
    simp only [runSections]
    cases hr : runSections (s.exec t).1 rest with
    | none => simp [hr]
    | some o2 =>
      simp only [Option.some.injEq]
      constructor
      · intro h
        exact ⟨t, o2, rfl, hr, h.symm⟩
      · rintro ⟨t2, o3, h1, h2, h3⟩
        subst h1
        rw [hr] at h2
        simp only [Option.some.injEq] at h2
        subst h2
        exact h3.symm

theorem emitted_cons (c c1 : Category) (bs : List GLBatch)
    (o : List (Category × List GLBatch)) :
    emitted c ((c1, bs) :: o) = if c1 = c then bs ++ emitted c o else emitted c o := by
  unfold emitted
  by_cases h : c1 = c
  · simp [List.filter_cons, h]
  · simp [List.filter_cons, h]

/-- Two lists of sections that carry the same labels and the same calls except under the
label `cf`, executed from states that agree, draw the same batches under every other
label. -/
theorem runSections_independent (full : Bool) (cf : Category)
    (secs1 secs2 : List (Category × Option (List GLCmd)))
    (hrel : List.Forall₂ (fun a b => a.1 = b.1 ∧ (a.1 ≠ cf → a.2 = b.2)) secs1 secs2)
    (hgood1 : ∀ a ∈ secs1, ∀ t, a.2 = some t → colorFirst t = true ∧ Neutral t)
    (hgood2 : ∀ a ∈ secs2, ∀ t, a.2 = some t → colorFirst t = true ∧ Neutral t)
    (s1 s2 : GLState) (o1 o2 : List (Category × List GLBatch))
    (hs : s1.current = none) (hag : Agree full s1 s2)
    (hpm : full = true → s1.polygonMode = GL_FILL)
    (h1 : runSections s1 secs1 = some o1) (h2 : runSections s2 secs2 = some o2) :
    ∀ c, c ≠ cf → (emitted c o1).map (view full) = (emitted c o2).map (view full) := by
  induction hrel generalizing s1 s2 o1 o2 with
  | nil =>
    simp only [runSections, Option.some.injEq] at h1 h2
    subst h1 h2
    intro c _
    rfl
  | @cons a b as bs hab _ ih =>
    obtain ⟨ca, xa⟩ := a
    obtain ⟨cb, xb⟩ := b
    obtain ⟨hlabel, htrace⟩ := hab
    simp only at hlabel htrace
    subst hlabel
    rw [runSections_cons_eq_some] at h1 h2
    obtain ⟨t1, p1, e1, r1, rfl⟩ := h1
    obtain ⟨t2, p2, e2, r2, rfl⟩ := h2
    subst e1 e2
    obtain ⟨g1, n1⟩ := hgood1 (ca, some t1) (List.mem_cons_self _ _) t1 rfl
    obtain ⟨g2, n2⟩ := hgood2 (ca, some t2) (List.mem_cons_self _ _) t2 rfl
    have hs2 : s2.current = none := by rw [← hag.1]; exact hs
    obtain ⟨a1, a2, a3, a4⟩ := n1 s1 hs
    obtain ⟨b1, b2, b3, b4⟩ := n2 s2 hs2
    have hag2 : Agree full (s1.exec t1).1 (s2.exec t2).1 := by
      refine ⟨by rw [a1, b1], by rw [a2, b2]; exact hag.2.1, by rw [a3, b3]; exact hag.2.2.1, ?_⟩
      intro hf
      have e1 : s1.polygonMode = GL_FILL := hpm hf
      have e2 : s2.polygonMode = GL_FILL := by rw [← hag.2.2.2 hf]; exact e1
      have f1 : (s1.exec t1).1.polygonMode = GL_FILL := by
        rcases a4 with h | h
        · rw [h, e1]
        · exact h
      have f2 : (s2.exec t2).1.polygonMode = GL_FILL := by
        rcases b4 with h | h
        · rw [h, e2]
        · exact h
      rw [f1, f2]
    have hpm2 : full = true → (s1.exec t1).1.polygonMode = GL_FILL := by
      intro hf
      rcases a4 with h | h
      · rw [h]; exact hpm hf
      · exact h
    have htail := ih (fun x hx => hgood1 x (List.mem_cons_of_mem _ hx))
      (fun x hx => hgood2 x (List.mem_cons_of_mem _ hx)) _ _ p1 p2 a1 hag2 hpm2 r1 r2
    intro c hc
    rw [emitted_cons, emitted_cons]
    by_cases hca : ca = c
    · rw [if_pos hca, if_pos hca, List.map_append, List.map_append, htail c hc]
      have : some t1 = some t2 := htrace (by rw [hca]; exact hc)
      simp only [Option.some.injEq] at this
      subst this
      rw [(exec_view_of_colorFirst full t1 g1 s1 s2 hag).1]
    · rw [if_neg hca, if_neg hca]
      exact htail c hc

/-! ## Every category is neutral and colours its own vertices -/

theorem sequence3_eq_some (a c : List GLCmd) (L : Option (List GLCmd)) (T : List GLCmd) :
    sequence [some a, L, some c] = some T ↔ ∃ l, L = some l ∧ T = a ++ (l ++ c) := by
  rw [sequence_cons_eq_some]
  constructor
  · rintro ⟨t, ts, h1, h2, rfl⟩
    rw [sequence_cons_eq_some] at h2
    obtain ⟨l, r, hl, h3, rfl⟩ := h2
    rw [sequence_cons_eq_some] at h3
    obtain ⟨t3, r3, e3, h4, rfl⟩ := h3
    simp only [sequence_nil, Option.some.injEq] at h1 e3 h4
    subst h1 e3 h4
    exact ⟨l, hl, by simp⟩
  · rintro ⟨l, hl, rfl⟩
    refine ⟨a, l ++ c, rfl, ?_, rfl⟩
    rw [sequence_cons_eq_some]
    refine ⟨l, c, hl, ?_, rfl⟩
    rw [sequence_cons_eq_some]
    exact ⟨c, [], rfl, rfl, by simp⟩

theorem vertexAt_eq_some (v : VectorXs) (i : Int) (t : List GLCmd)
    (h : vertexAt v i = some t) : ∃ p, t = [glVertex3dv p] := by
  unfold vertexAt at h
  split at h
  · simp only [Option.some.injEq] at h
    exact ⟨_, h.symm⟩
  · simp at h

theorem springForce_flat (scene : TwoDScene) (force : AttachForce) (t : List GLCmd)
    (h : springForce scene force = some t) : flat t = true := by
  unfold springForce at h
  split at h
  · simp only [Option.some.injEq] at h
    subst h
    rfl
  · split at h
    · simp only [Option.some.injEq] at h
      subst h
      rfl
    · simp at h

theorem velocitySegment_flat (pos vel : VectorXs) (dt len : scalar) (i : Int)
    (t : List GLCmd) (h : velocitySegment pos vel dt len i = some t) : flat t = true := by
  unfold velocitySegment at h
  split at h
  · simp only [Option.some.injEq] at h
    subst h
    rfl
  · simp at h

theorem deformationAxes_flat (scene : TwoDScene) (len : scalar) (i : Int)
    (t : List GLCmd) (h : deformationAxes scene len i = some t) : flat t = true := by
  unfold deformationAxes at h
  split at h
  · simp at h
  · split at h
    · simp only [Option.some.injEq] at h
      subst h
      rfl
    · simp at h

theorem cohesionRays_good (interp : ColorMap) (scene : TwoDScene) (i : Int)
    (t : List GLCmd) (h : cohesionRays interp scene i = some t) :
    flat t = true ∧ colorFirst t = true := by
  unfold cohesionRays at h
  split at h
  · simp at h
  · have hitem : ∀ info : RayTriInfo, ∀ t2,
        (match scene.getGaussX.segment3 (i * 4) with
          | some g => some [glColor3dv (interp info.volume_frac 0.0 1.0), glVertex3dv g,
              glVertex3dv info.endp]
          | none => none) = some t2 → flat t2 = true ∧ colorFirst t2 = true := by
      intro info t2 h2
      split at h2
      · simp only [Option.some.injEq] at h2
        subst h2
        exact ⟨rfl, rfl⟩
      · simp at h2
    exact ⟨flat_forEach _ _ t h (fun info _ t2 h2 => (hitem info t2 h2).1),
      colorFirst_forEach _ _ t h (fun info _ t2 h2 => (hitem info t2 h2).2)⟩

theorem nodePoints_flat (node_pos : VectorXs) (t : List GLCmd)
    (h : nodePoints node_pos = some t) : flat t = true := by
  unfold nodePoints forRange at h
  exact flat_forEach _ _ t h (fun j _ t2 h2 => by
    obtain ⟨p, rfl⟩ := vertexAt_eq_some _ _ t2 h2
    rfl)

theorem nodeFieldPoints_good (color : scalar → Vector3s) (node_pos field : VectorXs)
    (t : List GLCmd) (h : nodeFieldPoints color node_pos field = some t) :
    flat t = true ∧ colorFirst t = true := by
  unfold nodeFieldPoints forRange at h
  have hitem : ∀ j : Int, ∀ t2,
      (match field.coeff j, node_pos.segment3 (3 * j) with
        | some v, some p =>
          some [glColor4d (color v).x (color v).y (color v).z 0.8, glVertex3dv p]
        | _, _ => none) = some t2 → flat t2 = true ∧ colorFirst t2 = true := by
    intro j t2 h2
    split at h2
    · simp only [Option.some.injEq] at h2
      subst h2
      exact ⟨rfl, rfl⟩
    · simp at h2
  exact ⟨flat_forEach _ _ t h (fun j _ t2 h2 => (hitem j t2 h2).1),
    colorFirst_forEach _ _ t h (fun j _ t2 h2 => (hitem j t2 h2).2)⟩

theorem sequence2_eq_some (a : List GLCmd) (L : Option (List GLCmd)) (T : List GLCmd) :
    sequence [some a, L] = some T ↔ ∃ l, L = some l ∧ T = a ++ l := by
  rw [sequence_cons_eq_some]
  constructor
  · rintro ⟨t, ts, h1, h2, rfl⟩
    rw [sequence_cons_eq_some] at h2
    obtain ⟨l, r, hl, h3, rfl⟩ := h2
    simp only [sequence_nil, Option.some.injEq] at h1 h3
    subst h1 h3
    exact ⟨l, hl, by simp⟩
  · rintro ⟨l, hl, rfl⟩
    refine ⟨a, l, rfl, ?_, rfl⟩
    rw [sequence_cons_eq_some]
    exact ⟨l, [], hl, rfl, by simp⟩

theorem constantBuckets_good (scene : TwoDScene) (c : Vector3s) (pos : List VectorXs)
    (t : List GLCmd) (h : constantBuckets scene c pos = some t) :
    flat t = true ∧ colorFirst t = true := by
  unfold constantBuckets forRange at h
  have hitem : ∀ i : Int, ∀ t2,
      (match readAt pos i with
        | some node_pos => sequence [some [glColor4d c.x c.y c.z 0.8], nodePoints node_pos]
        | none => none) = some t2 → flat t2 = true ∧ colorFirst t2 = true := by
    intro i t2 h2
    split at h2
    · rw [sequence2_eq_some] at h2
      obtain ⟨l, hl, rfl⟩ := h2
      refine ⟨?_, colorFirst_of_colored _ _ rfl⟩
      rw [flat_append, nodePoints_flat _ l hl]
      rfl
    · simp at h2
  exact ⟨flat_forEach _ _ t h (fun i _ t2 h2 => (hitem i t2 h2).1),
    colorFirst_forEach _ _ t h (fun i _ t2 h2 => (hitem i t2 h2).2)⟩

theorem fieldBuckets_good (scene : TwoDScene) (color : scalar → Vector3s)
    (pos field : List VectorXs) (t : List GLCmd)
    (h : fieldBuckets scene color pos field = some t) :
    flat t = true ∧ colorFirst t = true := by
  unfold fieldBuckets forRange at h
  have hitem : ∀ i : Int, ∀ t2,
      (match readAt pos i, readAt field i with
        | some node_pos, some node_field => nodeFieldPoints color node_pos node_field
        | _, _ => none) = some t2 → flat t2 = true ∧ colorFirst t2 = true := by
    intro i t2 h2
    split at h2
    · exact nodeFieldPoints_good _ _ _ t2 h2
    · simp at h2
  exact ⟨flat_forEach _ _ t h (fun i _ t2 h2 => (hitem i t2 h2).1),
    colorFirst_forEach _ _ t h (fun i _ t2 h2 => (hitem i t2 h2).2)⟩

/-- Three parts that are each flat and colour their own vertices. -/
theorem sequence_three_good (A B C : Option (List GLCmd)) (T : List GLCmd)
    (h : sequence [A, B, C] = some T)
    (hA : ∀ t, A = some t → flat t = true ∧ colorFirst t = true)
    (hB : ∀ t, B = some t → flat t = true ∧ colorFirst t = true)
    (hC : ∀ t, C = some t → flat t = true ∧ colorFirst t = true) :
    flat T = true ∧ colorFirst T = true := by
  refine sequence_induction (fun t => flat t = true ∧ colorFirst t = true) ⟨rfl, rfl⟩ ?_
    [A, B, C] T h ?_
  · intro a b ha hb
    exact ⟨by rw [flat_append, ha.1, hb.1]; rfl, colorFirst_append a b ha.2 hb.2⟩
  · intro p hp t ht
    simp only [List.mem_cons, List.mem_singleton, List.not_mem_nil, or_false] at hp
    rcases hp with rfl | rfl | rfl
    · exact hA t ht
    · exact hB t ht
    · exact hC t ht

theorem renderNodes_good (v : NodeView) (interp : ColorMap) (scene : TwoDScene)
    (t : List GLCmd) (h : renderNodes v interp scene = some t) :
    flat t = true ∧ colorFirst t = true := by
  unfold renderNodes at h
  split at h
  · rw [sequence2_eq_some] at h
    obtain ⟨l, hl, rfl⟩ := h
    refine ⟨?_, colorFirst_of_colored _ _ rfl⟩
    unfold forRange at hl
    have : flat l = true := flat_forEach _ _ l hl (fun i _ t2 h2 => by
      split at h2
      · exact nodePoints_flat _ t2 h2
      · simp at h2)
    rw [flat_append, this]
    rfl
  · exact fieldBuckets_good _ _ _ _ t h
  · simp only [Option.some.injEq] at h
    subst h
    exact ⟨rfl, rfl⟩

theorem renderFaceCenters_good (v : FaceCenterView) (interp : ColorMap) (scene : TwoDScene)
    (t : List GLCmd) (h : renderFaceCenters v interp scene = some t) :
    flat t = true ∧ colorFirst t = true := by
  unfold renderFaceCenters at h
  split at h
  · exact sequence_three_good _ _ _ t h (constantBuckets_good _ _ _)
      (constantBuckets_good _ _ _) (constantBuckets_good _ _ _)
  · exact sequence_three_good _ _ _ t h (fieldBuckets_good _ _ _ _)
      (fieldBuckets_good _ _ _ _) (fieldBuckets_good _ _ _ _)
  · exact sequence_three_good _ _ _ t h (fieldBuckets_good _ _ _ _)
      (fieldBuckets_good _ _ _ _) (fieldBuckets_good _ _ _ _)
  · simp only [Option.some.injEq] at h
    subst h
    exact ⟨rfl, rfl⟩

theorem renderEdgeCenters_good (v : EdgeCenterView) (scene : TwoDScene)
    (t : List GLCmd) (h : renderEdgeCenters v scene = some t) :
    flat t = true ∧ colorFirst t = true := by
  unfold renderEdgeCenters at h
  split at h
  · exact sequence_three_good _ _ _ t h (constantBuckets_good _ _ _)
      (constantBuckets_good _ _ _) (constantBuckets_good _ _ _)
  · simp only [Option.some.injEq] at h
    subst h
    exact ⟨rfl, rfl⟩

theorem renderCellCenters_good (v : CellCenterView) (interp : ColorMap) (scene : TwoDScene)
    (t : List GLCmd) (h : renderCellCenters v interp scene = some t) :
    flat t = true ∧ colorFirst t = true := by
  unfold renderCellCenters at h
  split at h
  · exact constantBuckets_good _ _ _ t h
  · unfold forRange at h
    have hitem : ∀ i : Int, ∀ t2,
        (match readAt scene.getNodePosP i, readAt scene.getNodeLiquidPhi i with
          | some node_pos, some node_phi =>
            sequence [
              some [glColor4d node_color_p.x node_color_p.y node_color_p.z 0.8],
              nodeFieldPoints
                (fun v => interp v (-3.0 * scene.getCellSize) (3.0 * scene.getCellSize))
                node_pos node_phi]
          | _, _ => none) = some t2 → flat t2 = true ∧ colorFirst t2 = true := by
      intro i t2 h2
      split at h2
      · rw [sequence2_eq_some] at h2
        obtain ⟨l, hl, rfl⟩ := h2
        refine ⟨?_, colorFirst_of_colored _ _ rfl⟩
        rw [flat_append, (nodeFieldPoints_good _ _ _ l hl).1]
        rfl
      · simp at h2
    exact ⟨flat_forEach _ _ t h (fun i _ t2 h2 => (hitem i t2 h2).1),
      colorFirst_forEach _ _ t h (fun i _ t2 h2 => (hitem i t2 h2).2)⟩
  · simp only [Option.some.injEq] at h
    subst h
    exact ⟨rfl, rfl⟩

theorem good_nil : colorFirst ([] : List GLCmd) = true ∧ Neutral [] := ⟨rfl, neutral_nil⟩

theorem good_renderCloth (b : Bool) (scene : TwoDScene) (T : List GLCmd)
    (h : renderCloth b scene = some T) : colorFirst T = true ∧ Neutral T := by
  cases b with
  | false =>
    simp [renderCloth] at h
    subst h
    exact good_nil
  | true =>
    constructor
    · obtain ⟨F, W, hF, hW, rfl⟩ := renderCloth_eq_some scene T h
      have cF : colorFirst F = true :=
        colorFirst_forEach _ _ F hF (fun f _ t ht =>
          colorFirst_forEach _ _ t ht (fun r _ t2 ht2 => by
            obtain ⟨_, _, _, _, _, _, rfl⟩ := clothFillVertex_eq_some scene _ t2 ht2
            rfl))
      have cW : colorFirst W = true :=
        colorFirst_forEach _ _ W hW (fun f _ t ht =>
          colorFirst_forEach _ _ t ht (fun r _ t2 ht2 => by
            obtain ⟨_, _, _, _, _, _, rfl⟩ := clothLineVertex_eq_some scene _ t2 ht2
            rfl))
      simp only [colorFirst]
      apply colorFirst_append _ _ cF
      simp only [colorFirst]
      exact colorFirst_append _ _ cW rfl
    · intro s hs
      obtain ⟨fill, wire, c, hexec, _⟩ := renderCloth_exec scene T h s hs
      rw [hexec]
      exact ⟨hs, rfl, rfl, Or.inr rfl⟩

theorem good_renderYarn (b : Bool) (tbl : List Vector3s) (scene : TwoDScene)
    (T : List GLCmd) (h : renderYarn b tbl scene = some T) :
    colorFirst T = true ∧ Neutral T := by
  cases b with
  | false =>
    simp [renderYarn] at h
    subst h
    exact good_nil
  | true =>
    obtain ⟨E, hE, rfl⟩ := renderYarn_eq_some tbl scene T h
    have hitem : ∀ e ∈ scene.getEdges, ∀ t, yarnEdge tbl scene e = some t →
        flat t = true ∧ colorFirst t = true := by
      intro e _ t ht
      obtain ⟨_, _, _, _, _, _, _, _, _, _, _, _, _, _, _, _, _, _, _, _, rfl⟩ :=
        yarnEdge_eq_some tbl scene e t ht
      exact ⟨rfl, rfl⟩
    have fE : flat E = true := flat_forEach _ _ E hE (fun e he t ht => (hitem e he t ht).1)
    have cE : colorFirst E = true :=
      colorFirst_forEach _ _ E hE (fun e he t ht => (hitem e he t ht).2)
    constructor
    · simp only [colorFirst]
      exact colorFirst_append _ _ (colorFirst_append _ _ cE rfl) rfl
    · exact neutral_section [glLineWidth 3.0, glEnable GL_DEPTH_TEST] GL_LINES
        (E ++ [glDisable GL_DEPTH_TEST]) [] _ (by simp) rfl
        (by rw [flat_append, fE]; rfl) rfl

/-- A category of the common shape: calls that set the colour and open a `glBegin`, a loop
of flat iterations, calls that close it. -/
theorem good_of_colored_section (pre : List GLCmd) (k : GLPrimitive) (post : List GLCmd)
    (L : Option (List GLCmd)) (T : List GLCmd)
    (h : sequence [some (pre ++ [glBegin k]), L, some (glEnd :: post)] = some T)
    (hpre : flat pre = true) (hcol : colored pre = true) (hpost : flat post = true)
    (hL : ∀ l, L = some l → flat l = true) :
    colorFirst T = true ∧ Neutral T := by
  rw [sequence3_eq_some] at h
  obtain ⟨l, hl, rfl⟩ := h
  constructor
  · rw [List.append_assoc]
    exact colorFirst_of_colored _ _ hcol
  · exact neutral_section pre k l post _ (by simp) hpre (hL l hl) hpost

theorem good_renderSpring (b : Bool) (scene : TwoDScene) (T : List GLCmd)
    (h : renderSpring b scene = some T) : colorFirst T = true ∧ Neutral T := by
  cases b with
  | false =>
    simp [renderSpring] at h
    subst h
    exact good_nil
  | true =>
    simp only [renderSpring, if_true] at h
    exact good_of_colored_section [glColor3dv attach_color] GL_LINES [] _ T h rfl rfl rfl
      (fun l hl => flat_forEach _ _ l hl (fun f _ t ht => springForce_flat scene f t ht))

theorem vertexAt_flat (v : VectorXs) (i : Int) (t : List GLCmd)
    (h : vertexAt v i = some t) : flat t = true := by
  obtain ⟨p, rfl⟩ := vertexAt_eq_some v i t h
  rfl

theorem good_renderGauss (b : Bool) (scene : TwoDScene) (T : List GLCmd)
    (h : renderGauss b scene = some T) : colorFirst T = true ∧ Neutral T := by
  cases b with
  | false =>
    simp [renderGauss] at h
    subst h
    exact good_nil
  | true =>
    simp only [renderGauss, if_true] at h
    exact good_of_colored_section [glColor3dv gauss_color, glPointSize 5] GL_POINTS [] _ T h
      rfl rfl rfl
      (fun l hl => by
        unfold forRange at hl
        exact flat_forEach _ _ l hl (fun i _ t ht => vertexAt_flat _ _ t ht))

theorem bucketLoop_flat (scene : TwoDScene) (n m : Int) (f : Int → Int → Vector3s × Vector3s)
    (l : List GLCmd)
    (h : forRangeIncl n (fun a => forRangeIncl m (fun b =>
      bucketLine scene (f a b).1 (f a b).2)) = some l) : flat l = true := by
  unfold forRangeIncl forRange at h
  exact flat_forEach _ _ l h (fun a _ t ht =>
    flat_forEach _ _ t ht (fun b _ t2 ht2 => by
      simp only [bucketLine, Option.some.injEq] at ht2
      subst ht2
      rfl))

theorem good_renderBuckets (b : Bool) (scene : TwoDScene) (T : List GLCmd)
    (h : renderBuckets b scene = some T) : colorFirst T = true ∧ Neutral T := by
  cases b with
  | false =>
    simp [renderBuckets] at h
    subst h
    exact good_nil
  | true =>
    simp only [renderBuckets, if_true] at h
    rw [sequence_cons_eq_some] at h
    obtain ⟨t1, r1, e1, h, rfl⟩ := h
    rw [sequence_cons_eq_some] at h
    obtain ⟨l1, r2, hl1, h, rfl⟩ := h
    rw [sequence_cons_eq_some] at h
    obtain ⟨l2, r3, hl2, h, rfl⟩ := h
    rw [sequence_cons_eq_some] at h
    obtain ⟨l3, r4, hl3, h, rfl⟩ := h
    rw [sequence_cons_eq_some] at h
    obtain ⟨t5, r5, e5, h, rfl⟩ := h
    simp only [sequence_nil, Option.some.injEq] at h e1 e5
    subst h e1 e5
    have f1 : flat l1 = true :=
      bucketLoop_flat scene _ _
        (fun k j => (⟨0.0, j, k⟩, ⟨scene.getParticleBuckets.ni, j, k⟩)) l1 hl1
    have f2 : flat l2 = true :=
      bucketLoop_flat scene _ _
        (fun k i => (⟨i, 0.0, k⟩, ⟨i, scene.getParticleBuckets.nj, k⟩)) l2 hl2
    have f3 : flat l3 = true :=
      bucketLoop_flat scene _ _
        (fun j i => (⟨i, j, 0.0⟩, ⟨i, j, scene.getParticleBuckets.nk⟩)) l3 hl3
    constructor
    · exact colorFirst_of_colored _ _ rfl
    · exact neutral_section [glColor4d 0.5 0.5 0.5 0.25, glEnable GL_BLEND, glBlendFunc]
        GL_LINES (l1 ++ (l2 ++ l3)) [glDisable GL_BLEND] _ (by simp) rfl
        (by simp [flat_append, f1, f2, f3]) rfl

theorem good_renderCohesion (b : Bool) (interp : ColorMap) (scene : TwoDScene)
    (T : List GLCmd) (h : renderCohesion b interp scene = some T) :
    colorFirst T = true ∧ Neutral T := by
  cases b with
  | false =>
    simp [renderCohesion] at h
    subst h
    exact good_nil
  | true =>
    simp only [renderCohesion, if_true] at h
    rw [sequence3_eq_some] at h
    obtain ⟨l, hl, rfl⟩ := h
    unfold forRange at hl
    have fl : flat l = true :=
      flat_forEach _ _ l hl (fun i _ t ht => (cohesionRays_good interp scene i t ht).1)
    have cl : colorFirst l = true :=
      colorFirst_forEach _ _ l hl (fun i _ t ht => (cohesionRays_good interp scene i t ht).2)
    constructor
    · exact colorFirst_append _ _ rfl (colorFirst_append _ _ cl rfl)
    · exact neutral_section [] GL_LINES l [] _ (by simp) rfl fl rfl

theorem good_renderGridNodes (info : RenderInfo) (interp : ColorMap) (scene : TwoDScene)
    (T : List GLCmd) (h : renderGridNodes info interp scene = some T) :
    colorFirst T = true ∧ Neutral T := by
  simp only [renderGridNodes] at h
  rw [sequence_cons_eq_some] at h
  obtain ⟨t1, r1, e1, h, rfl⟩ := h
  rw [sequence_cons_eq_some] at h
  obtain ⟨l1, r2, hl1, h, rfl⟩ := h
  rw [sequence_cons_eq_some] at h
  obtain ⟨l2, r3, hl2, h, rfl⟩ := h
  rw [sequence_cons_eq_some] at h
  obtain ⟨l3, r4, hl3, h, rfl⟩ := h
  rw [sequence_cons_eq_some] at h
  obtain ⟨l4, r5, hl4, h, rfl⟩ := h
  rw [sequence_cons_eq_some] at h
  obtain ⟨t6, r6, e6, h, rfl⟩ := h
  simp only [sequence_nil, Option.some.injEq] at h e1 e6
  subst h e1 e6
  obtain ⟨f1, c1⟩ := renderNodes_good _ _ _ l1 hl1
  obtain ⟨f2, c2⟩ := renderFaceCenters_good _ _ _ l2 hl2
  obtain ⟨f3, c3⟩ := renderEdgeCenters_good _ _ l3 hl3
  obtain ⟨f4, c4⟩ := renderCellCenters_good _ _ _ l4 hl4
  constructor
  · exact colorFirst_append _ _ rfl (colorFirst_append _ _ c1 (colorFirst_append _ _ c2
      (colorFirst_append _ _ c3 (colorFirst_append _ _ c4 rfl))))
  · exact neutral_section [glEnable GL_BLEND, glBlendFunc] GL_POINTS
      (l1 ++ (l2 ++ (l3 ++ l4))) [glDisable GL_BLEND] _ (by simp) rfl
      (by simp [flat_append, f1, f2, f3, f4]) rfl

theorem good_renderParticles (b : Bool) (scene : TwoDScene) (T : List GLCmd)
    (h : renderParticles b scene = some T) : colorFirst T = true ∧ Neutral T := by
  cases b with
  | false =>
    simp [renderParticles] at h
    subst h
    exact good_nil
  | true =>
    simp only [renderParticles, if_true] at h
    exact good_of_colored_section
      [glEnable GL_BLEND, glBlendFunc, glPointSize 4.0, glColor4d 0.0 0.0 1.0 0.1]
      GL_POINTS [glDisable GL_BLEND] _ T h rfl rfl rfl
      (fun l hl => flat_forEach _ _ l hl (fun i _ t ht => vertexAt_flat _ _ t ht))

theorem good_renderVertices (b : Bool) (scene : TwoDScene) (T : List GLCmd)
    (h : renderVertices b scene = some T) : colorFirst T = true ∧ Neutral T := by
  cases b with
  | false =>
    simp [renderVertices] at h
    subst h
    exact good_nil
  | true =>
    simp only [renderVertices, if_true] at h
    exact good_of_colored_section [glPointSize 4.0, glColor3dv vertex_color] GL_POINTS []
      _ T h rfl rfl rfl
      (fun l hl => by
        unfold forRange at hl
        exact flat_forEach _ _ l hl (fun i _ t ht => vertexAt_flat _ _ t ht))

theorem good_renderVerticeVelocity (info : RenderInfo) (scene : TwoDScene) (dt : scalar)
    (T : List GLCmd) (h : renderVerticeVelocity info scene dt = some T) :
    colorFirst T = true ∧ Neutral T := by
  unfold renderVerticeVelocity at h
  split at h
  · exact good_of_colored_section
      [glColor4d vertex_color.x vertex_color.y vertex_color.z 0.25, glEnable GL_BLEND,
        glBlendFunc] GL_LINES [glDisable GL_BLEND] _ T h rfl rfl rfl
      (fun l hl => by
        unfold forRange at hl
        exact flat_forEach _ _ l hl (fun i _ t ht => velocitySegment_flat _ _ _ _ _ t ht))
  · simp only [Option.some.injEq] at h
    subst h
    exact good_nil

theorem good_renderGaussVelocity (info : RenderInfo) (scene : TwoDScene) (dt : scalar)
    (T : List GLCmd) (h : renderGaussVelocity info scene dt = some T) :
    colorFirst T = true ∧ Neutral T := by
  unfold renderGaussVelocity at h
  split at h
  · exact good_of_colored_section
      [glColor4d gauss_color.x gauss_color.y gauss_color.z 0.25, glEnable GL_BLEND,
        glBlendFunc] GL_LINES [glDisable GL_BLEND] _ T h rfl rfl rfl
      (fun l hl => by
        unfold forRange at hl
        exact flat_forEach _ _ l hl (fun i _ t ht => velocitySegment_flat _ _ _ _ _ t ht))
  · simp only [Option.some.injEq] at h
    subst h
    exact good_nil

theorem good_renderParticleVelocity (info : RenderInfo) (scene : TwoDScene) (dt : scalar)
    (T : List GLCmd) (h : renderParticleVelocity info scene dt = some T) :
    colorFirst T = true ∧ Neutral T := by
  unfold renderParticleVelocity at h
  split at h
  · exact good_of_colored_section
      [glColor4d fluid_color.x fluid_color.y fluid_color.z 0.25, glEnable GL_BLEND,
        glBlendFunc] GL_LINES [glDisable GL_BLEND] _ T h rfl rfl rfl
      (fun l hl => flat_forEach _ _ l hl
        (fun i _ t ht => velocitySegment_flat _ _ _ _ _ t ht))
  · simp only [Option.some.injEq] at h
    subst h
    exact good_nil

theorem good_renderDeformationGradient (len : scalar) (scene : TwoDScene)
    (T : List GLCmd) (h : renderDeformationGradient len scene = some T) :
    colorFirst T = true ∧ Neutral T := by
  unfold renderDeformationGradient at h
  split at h
  · exact good_of_colored_section
      [glColor4d def_grad_color.x def_grad_color.y def_grad_color.z 0.25, glEnable GL_BLEND,
        glBlendFunc] GL_LINES [glDisable GL_BLEND] _ T h rfl rfl rfl
      (fun l hl => by
        unfold forRange at hl
        exact flat_forEach _ _ l hl (fun i _ t ht => deformationAxes_flat _ _ _ t ht))
  · simp only [Option.some.injEq] at h
    subst h
    exact good_nil

theorem neutral_forEach {α : Type} (xs : List α) (body : α → Option (List GLCmd))
    (T : List GLCmd) (h : forEach xs body = some T)
    (hb : ∀ x ∈ xs, ∀ t, body x = some t → Neutral t) : Neutral T :=
  forEach_induction Neutral neutral_nil neutral_append xs body T h hb

theorem renderField_good (ptr : DistanceField) (t : List GLCmd)
    (h : renderField ptr = some t) : colorFirst t = true ∧ Neutral t := by
  have hpass : ∀ P, fieldPasses ptr = some P → Neutral P := by
    intro P hP s hs
    rw [fieldPasses_exec ptr P hP s hs]
    exact ⟨hs, rfl, rfl, Or.inr rfl⟩
  unfold renderField at h
  split at h
  · rw [sequence2_eq_some] at h
    obtain ⟨P, hP, rfl⟩ := h
    exact ⟨colorFirst_of_colored _ _ rfl,
      neutral_append _ _ (neutral_flat _ rfl) (hpass P hP)⟩
  · rw [sequence2_eq_some] at h
    obtain ⟨P, hP, rfl⟩ := h
    exact ⟨colorFirst_of_colored _ _ rfl,
      neutral_append _ _ (neutral_flat _ rfl) (hpass P hP)⟩
  · simp only [Option.some.injEq] at h
    subst h
    exact good_nil

theorem good_renderLevelset (b : Bool) (scene : TwoDScene) (T : List GLCmd)
    (h : renderLevelset b scene = some T) : colorFirst T = true ∧ Neutral T := by
  cases b with
  | false =>
    simp [renderLevelset] at h
    subst h
    exact good_nil
  | true =>
    obtain ⟨F, hF, rfl⟩ := renderLevelset_eq_some scene T h
    have cF : colorFirst F = true :=
      colorFirst_forEach _ _ F hF (fun ptr _ t ht => (renderField_good ptr t ht).1)
    have nF : Neutral F :=
      neutral_forEach _ _ F hF (fun ptr _ t ht => (renderField_good ptr t ht).2)
    constructor
    · simp only [colorFirst]
      exact colorFirst_append _ _ cF rfl
    · have e : glEnable GL_BLEND :: glBlendFunc :: glEnable GL_POLYGON_STIPPLE ::
          (F ++ [glDisable GL_BLEND, glDisable GL_POLYGON_STIPPLE])
          = [glEnable GL_BLEND, glBlendFunc, glEnable GL_POLYGON_STIPPLE] ++
            (F ++ [glDisable GL_BLEND, glDisable GL_POLYGON_STIPPLE]) := rfl
      rw [e]
      exact neutral_append _ _ (neutral_flat _ rfl)
        (neutral_append _ _ nF (neutral_flat _ rfl))

/-! ## The frame -/

theorem frameSections_good (interp : ColorMap) (r : TwoDSceneRenderer) (scene : TwoDScene)
    (dt : scalar) :
    ∀ a ∈ frameSections interp r scene dt, ∀ t, a.2 = some t →
      colorFirst t = true ∧ Neutral t := by
  intro a ha t ht
  simp only [frameSections, List.mem_cons, List.mem_singleton, List.not_mem_nil,
    or_false] at ha
  rcases ha with rfl | rfl | rfl | rfl | rfl | rfl | rfl | rfl | rfl | rfl | rfl | rfl | rfl | rfl
  · exact good_renderCloth _ _ t ht
  · exact good_renderYarn _ _ _ t ht
  · exact good_renderSpring _ _ t ht
  · exact good_renderGauss _ _ t ht
  · exact good_renderBuckets _ _ t ht
  · exact good_renderCohesion _ _ _ t ht
  · exact good_renderGridNodes _ _ _ t ht
  · exact good_renderParticles _ _ t ht
  · exact good_renderVertices _ _ t ht
  · exact good_renderVerticeVelocity _ _ _ t ht
  · exact good_renderGaussVelocity _ _ _ t ht
  · exact good_renderParticleVelocity _ _ _ t ht
  · exact good_renderDeformationGradient _ _ t ht
  · exact good_renderLevelset _ _ t ht

/-- Setting one boolean flag changes the calls of no category but the flag's own. -/
theorem frameSections_withFlag (interp : ColorMap) (r : TwoDSceneRenderer)
    (scene : TwoDScene) (dt : scalar) (f : RenderFlag) (b : Bool) :
    List.Forall₂ (fun x y => x.1 = y.1 ∧ (x.1 ≠ f.category → x.2 = y.2))
      (frameSections interp r scene dt)
      (frameSections interp { r with m_info := r.m_info.withFlag f b } scene dt) := by
  cases f <;>
    simp [frameSections, RenderInfo.withFlag, RenderFlag.category, renderGridNodes,
      renderVerticeVelocity, renderGaussVelocity, renderParticleVelocity]

theorem cassert_eq_some (build : BuildConfig) (c : Bool) (t : List GLCmd)
    (h : cassert build c = some t) : t = [] := by
  unfold cassert at h
  split at h
  · simp only [Option.some.injEq] at h
    exact h.symm
  · split at h
    · simp only [Option.some.injEq] at h
      exact h.symm
    · simp at h

/-- The batches of a sequence of sections are the batches of the sections, in order. -/
theorem runSections_of_sequence (secs : List (Category × Option (List GLCmd)))
    (T : List GLCmd) (h : sequence (secs.map (fun x => x.2)) = some T) (s : GLState) :
    ∃ out, runSections s secs = some out ∧ (s.exec T).2 = out.flatMap (fun p => p.2) ∧
      out.map (fun p => p.1) = secs.map (fun x => x.1) := by
  induction secs generalizing T s with
  | nil =>
    simp only [List.map_nil, sequence_nil, Option.some.injEq] at h
    subst h
    exact ⟨[], rfl, rfl, rfl⟩
  | cons a rest ih =>
    obtain ⟨c, x⟩ := a
    simp only [List.map_cons] at h
    rw [sequence_cons_eq_some] at h
    obtain ⟨t, ts, hx, hrest, rfl⟩ := h
    subst hx
    obtain ⟨out, h1, h2, h3⟩ := ih ts hrest (s.exec t).1
    refine ⟨(c, (s.exec t).2) :: out, ?_, ?_, ?_⟩
    · rw [runSections_cons_eq_some]
      exact ⟨t, out, rfl, h1, rfl⟩
    · rw [exec_append, h2]
      simp
    · simp [h3]

/-- The labelled batches of a frame are defined exactly when the frame runs to its end, and
they make up everything the frame draws. -/
theorem framePrimitives_of_render (build : BuildConfig) (interp : ColorMap)
    (r : TwoDSceneRenderer) (scene : TwoDScene) (dt : scalar) (T : List GLCmd)
    (h : renderParticleSimulation build interp r scene dt = some T) (s : GLState) :
    ∃ out, framePrimitives build interp r scene dt s = some out ∧
      (s.exec T).2 = out.flatMap (fun p => p.2) := by
  unfold framePrimitives
  rw [h]
  simp only
  unfold renderParticleSimulation at h
  by_cases hb : build.RENDER_ENABLED = true
  · rw [if_pos hb] at h
    rw [if_pos hb]
    rw [sequence_cons_eq_some] at h
    obtain ⟨t1, r1, e1, h, rfl⟩ := h
    rw [sequence_cons_eq_some] at h
    obtain ⟨t2, r2, e2, h, rfl⟩ := h
    have := cassert_eq_some _ _ _ e1
    subst this
    have := cassert_eq_some _ _ _ e2
    subst this
    obtain ⟨out, h1, h2, _⟩ := runSections_of_sequence _ r2 h s
    exact ⟨out, h1, by simpa using h2⟩
  · rw [if_neg hb] at h
    rw [if_neg hb]
    simp only [Option.some.injEq] at h
    subst h
    exact ⟨[], rfl, rfl⟩

theorem map_shown_of_view (l1 l2 : List GLBatch)
    (h : l1.map (view false) = l2.map (view false)) :
    l1.map GLBatch.shown = l2.map GLBatch.shown := by
  have e : ∀ l : List GLBatch, l.map GLBatch.shown = (l.map (view false)).map GLBatch.shown := by
    intro l
    rw [List.map_map]
    apply List.map_congr_left
    intro b _
    simp [view, GLBatch.shown]
  rw [e l1, e l2, h]

theorem map_view_true (l : List GLBatch) : l.map (view true) = l := by
  induction l with
  | nil => rfl
  | cons b bs ih => simp [view, ih]


theorem frame_cloth_and_yarn_isSome (b : Bool) :
    ∃ T, renderParticleSimulation build_debug interp_black
      { renderer_cloth_and_yarn with
        m_info := renderer_cloth_and_yarn.m_info.withFlag RenderFlag.render_yarn b }
      scene_cloth_and_yarn 1 = some T := by
  have hfaces : facesInRange scene_cloth_and_yarn := facesInRange_two_faces
  have hedges : edgesInRange scene_cloth_and_yarn := by
    refine ⟨?_, by decide, by decide, by decide, by decide⟩
    intro e he
    simp only [scene_cloth_and_yarn, List.mem_singleton] at he
    subst he
    simp [scene_cloth_and_yarn, scene_two_faces, TwoDScene.empty]
  obtain ⟨Tc, hc⟩ := renderCloth_isSome scene_cloth_and_yarn hfaces
  obtain ⟨Ty, hy⟩ := renderYarn_isSome (fill_group_colors 1) scene_cloth_and_yarn
    (by simp [fill_group_colors]) hedges
  have hy2 : ∃ Ty2, renderYarn b (fill_group_colors 1) scene_cloth_and_yarn = some Ty2 := by
    cases b
    · exact ⟨[], rfl⟩
    · exact ⟨Ty, hy⟩
  obtain ⟨Ty2, hy2⟩ := hy2
  have hdef : ¬ ((0.0 : scalar) > 0.0) := by norm_num
  have e1 : scene_cloth_and_yarn.getAttachForces = [] := rfl
  have e2 : scene_cloth_and_yarn.getFluidIndices = [] := rfl
  have e3 : scene_cloth_and_yarn.getGroupDistanceField = [] := rfl
  have e4 : ((scene_cloth_and_yarn.getX.length : Int) % 4 = 0) := by decide
  have e5 : (4 * scene_cloth_and_yarn.getNumParticles
      = (scene_cloth_and_yarn.getX.length : Int)) := by decide
  simp only [renderParticleSimulation, build_debug, cassert, frameSections,
    renderer_cloth_and_yarn, RenderInfo.withFlag, TwoDSceneRenderer.init_info, hc, hy2,
    renderSpring, renderGauss, renderBuckets, renderCohesion, renderGridNodes, renderNodes,
    renderFaceCenters, renderEdgeCenters, renderCellCenters, renderParticles, renderVertices,
    renderVerticeVelocity, renderGaussVelocity, renderParticleVelocity,
    renderDeformationGradient, renderLevelset, forEach, e1, e2, e3, e4, e5, hdef,
    if_true, if_false, decide_True, List.map, sequence_cons_some, sequence_nil, Option.map,
    Bool.false_eq_true]
  exact ⟨_, rfl⟩

/-! ## What a frame draws for the level-set category -/

/-- The batches of the last section of a frame: the sections before it, being neutral, hand
it a state outside `glBegin` / `glEnd` with the modelview of the start of the frame. -/
theorem runSections_emitted_last (c : Category) (x : Option (List GLCmd))
    (secs : List (Category × Option (List GLCmd)))
    (hne : ∀ a ∈ secs, a.1 ≠ c)
    (hgood : ∀ a ∈ secs, ∀ t, a.2 = some t → Neutral t)
    (s : GLState) (hs : s.current = none) (o : List (Category × List GLBatch))
    (h : runSections s (secs ++ [(c, x)]) = some o) :
    ∃ (s2 : GLState) (t : List GLCmd), x = some t ∧ s2.current = none ∧
      s2.modelview = s.modelview ∧
      (s2.polygonMode = s.polygonMode ∨ s2.polygonMode = GL_FILL) ∧
      emitted c o = (s2.exec t).2 := by
  induction secs generalizing s o with
  | nil =>
    rw [List.nil_append, runSections_cons_eq_some] at h
    obtain ⟨t, o2, hx, hr, rfl⟩ := h
    simp only [runSections, Option.some.injEq] at hr
    subst hr
    refine ⟨s, t, hx, hs, rfl, Or.inl rfl, ?_⟩
    rw [emitted_cons, if_pos rfl]
    simp [emitted]
  | cons a secs ih =>
    obtain ⟨ca, xa⟩ := a
    rw [List.cons_append, runSections_cons_eq_some] at h
    obtain ⟨ta, o2, hxa, hr, rfl⟩ := h
    subst hxa
    obtain ⟨n1, n2, _, n4⟩ :=
      hgood (ca, some ta) (List.mem_cons_self _ _) ta rfl s hs
    obtain ⟨s2, t, hx, c1, c2, c3, c4⟩ :=
      ih (fun a ha => hne a (List.mem_cons_of_mem _ ha))
        (fun a ha => hgood a (List.mem_cons_of_mem _ ha)) (s.exec ta).1 n1 o2 hr
    refine ⟨s2, t, hx, c1, by rw [c2, n2], ?_, ?_⟩
    · rcases c3 with c3 | c3
      · rcases n4 with n4 | n4
        · exact Or.inl (by rw [c3, n4])
        · exact Or.inr (by rw [c3, n4])
      · exact Or.inr c3
    · rw [emitted_cons, if_neg (hne (ca, some ta) (List.mem_cons_self _ _))]
      exact c4

/-- In a frame that runs to its end from a state outside `glBegin` / `glEnd` in polygon mode
`GL_FILL`, with the level-set flag on, the level-set category draws the contributions of the
boundary objects. -/
theorem frame_emitted_levelset (build : BuildConfig) (interp : ColorMap)
    (r : TwoDSceneRenderer) (scene : TwoDScene) (dt : scalar) (s : GLState)
    (o : List (Category × List GLBatch)) (hb : build.RENDER_ENABLED = true)
    (hl : r.m_info.render_levelset = true)
    (hs : s.current = none) (hpm : s.polygonMode = GL_FILL)
    (h : framePrimitives build interp r scene dt s = some o) :
    emitted Category.levelset o
      = scene.getGroupDistanceField.flatMap (spec_fieldBatches s.modelview) := by
  unfold framePrimitives at h
  split at h
  · simp at h
  · rw [if_pos hb] at h
    have hsplit : frameSections interp r scene dt
        = (frameSections interp r scene dt).take 13
          ++ [(Category.levelset, renderLevelset r.m_info.render_levelset scene)] := rfl
    rw [hsplit] at h
    obtain ⟨s2, t, hx, c1, c2, c3, c4⟩ := runSections_emitted_last Category.levelset _
      ((frameSections interp r scene dt).take 13)
      (fun a ha => by
        simp only [frameSections, List.take_succ_cons, List.take_zero, List.mem_cons,
          List.not_mem_nil, or_false] at ha
        rcases ha with rfl | rfl | rfl | rfl | rfl | rfl | rfl | rfl | rfl | rfl | rfl |
          rfl | rfl <;> simp)
      (fun a ha t ht =>
        (frameSections_good interp r scene dt a (List.mem_of_mem_take ha) t ht).2)
      s hs o h
    rw [hl] at hx
    have hp2 : s2.polygonMode = GL_FILL := by
      rcases c3 with c3 | c3
      · rw [c3, hpm]
      · exact c3
    rw [c4, (renderLevelset_exec scene t hx s2 c1 hp2).2, c2]

theorem fieldBatches_triangle :
    [(⟨DistanceFieldUsage.DFU_SOLID, [mesh_triangle]⟩ : DistanceField)].flatMap
        (spec_fieldBatches [])
      = [⟨GL_TRIANGLES, GL_FILL,
          [GLTransform.translate 1 2 3, GLTransform.rotate ⟨1, 0, 0, 0⟩],
          [⟨⟨0, 0, 0⟩, ⟨0.0, 0.0, 0.0, 0.02⟩⟩, ⟨⟨1, 0, 0⟩, ⟨0.0, 0.0, 0.0, 0.02⟩⟩,
           ⟨⟨0, 1, 0⟩, ⟨0.0, 0.0, 0.0, 0.02⟩⟩]⟩,
         ⟨GL_TRIANGLES, GL_LINE,
          [GLTransform.translate 1 2 3, GLTransform.rotate ⟨1, 0, 0, 0⟩],
          [⟨⟨0, 0, 0⟩, ⟨0.0, 0.0, 0.0, 0.02⟩⟩, ⟨⟨1, 0, 0⟩, ⟨0.0, 0.0, 0.0, 0.02⟩⟩,
           ⟨⟨0, 1, 0⟩, ⟨0.0, 0.0, 0.0, 0.02⟩⟩]⟩] := by
  simp [spec_fieldBatches, spec_meshBatch, spec_meshPositions, mesh_triangle, Vector3i.coeff,
    readAt]

theorem levelset_triangle_isSome (scene : TwoDScene)
    (h : scene.getGroupDistanceField = [⟨DistanceFieldUsage.DFU_SOLID, [mesh_triangle]⟩]) :
    ∃ T, renderLevelset true scene = some T := by
  apply renderLevelset_isSome
  intro ptr hptr _ m hm
  rw [h, List.mem_singleton] at hptr
  subst hptr
  simp only [List.mem_singleton] at hm
  subst hm
  exact meshInRange_triangle

/-- The frame of the scene with an edge and a boundary, with the fiber edges switched off,
runs to its end. -/
theorem frame_edge_and_boundary_isSome :
    ∃ T, renderParticleSimulation build_debug interp_black
      { renderer_negative_groups with
        m_info := renderer_negative_groups.m_info.withFlag RenderFlag.render_yarn false }
      scene_edge_and_boundary 1 = some T := by
  obtain ⟨Tl, hl⟩ := levelset_triangle_isSome scene_edge_and_boundary rfl
  have hdef : ¬ ((0.0 : scalar) > 0.0) := by norm_num
  have e0 : scene_edge_and_boundary.getFaces = [] := rfl
  have e1 : scene_edge_and_boundary.getAttachForces = [] := rfl
  have e2 : scene_edge_and_boundary.getFluidIndices = [] := rfl
  have e4 : ((scene_edge_and_boundary.getX.length : Int) % 4 = 0) := by decide
  have e5 : (4 * scene_edge_and_boundary.getNumParticles
      = (scene_edge_and_boundary.getX.length : Int)) := by decide
  have hc : ∃ t, renderCloth true scene_edge_and_boundary = some t := ⟨_, rfl⟩
  obtain ⟨tc, hc⟩ := hc
  simp only [renderParticleSimulation, build_debug, cassert, frameSections,
    renderer_negative_groups, RenderInfo.withFlag, TwoDSceneRenderer.init_info, hc, hl,
    renderYarn, renderSpring, renderGauss, renderBuckets, renderCohesion, renderGridNodes,
    renderNodes, renderFaceCenters, renderEdgeCenters, renderCellCenters, renderParticles,
    renderVertices, renderVerticeVelocity, renderGaussVelocity, renderParticleVelocity,
    renderDeformationGradient, forEach, e1, e2, e4, e5, hdef,
    if_true, if_false, decide_True, List.map, sequence_cons_some, sequence_nil, Option.map,
    Bool.false_eq_true]
  exact ⟨_, rfl⟩

/-- Claim C9, as stated, fails: for the renderer the constructor returns for two particles
of group `-1` joined by a fiber edge, with one solid boundary in the scene, the frame with
`render_yarn` on does not run to its end, so that nothing is drawn for the level-set
category, which comes after the fiber edges; the frame of the configuration that differs
only in `render_yarn` being off runs to its end and draws the two triangle batches of the
boundary for the level-set category, which is enabled in both configurations. -/
theorem render_flag_dependence_counterexample :
    TwoDSceneRenderer.new scene_edge_and_boundary = some renderer_negative_groups ∧
    renderer_negative_groups.m_info.render_yarn = true ∧
    renderer_negative_groups.m_info.render_levelset = true ∧
    renderYarn true renderer_negative_groups.m_group_colors scene_edge_and_boundary = none ∧
    framePrimitives build_debug interp_black renderer_negative_groups
      scene_edge_and_boundary 1 GLState.initial = none ∧
    ∃ o2, framePrimitives build_debug interp_black
        { renderer_negative_groups with
          m_info := renderer_negative_groups.m_info.withFlag RenderFlag.render_yarn false }
        scene_edge_and_boundary 1 GLState.initial = some o2 ∧
      emitted Category.levelset o2
        = [⟨GL_TRIANGLES, GL_FILL,
            [GLTransform.translate 1 2 3, GLTransform.rotate ⟨1, 0, 0, 0⟩],
            [⟨⟨0, 0, 0⟩, ⟨0.0, 0.0, 0.0, 0.02⟩⟩, ⟨⟨1, 0, 0⟩, ⟨0.0, 0.0, 0.0, 0.02⟩⟩,
             ⟨⟨0, 1, 0⟩, ⟨0.0, 0.0, 0.0, 0.02⟩⟩]⟩,
           ⟨GL_TRIANGLES, GL_LINE,
            [GLTransform.translate 1 2 3, GLTransform.rotate ⟨1, 0, 0, 0⟩],
            [⟨⟨0, 0, 0⟩, ⟨0.0, 0.0, 0.0, 0.02⟩⟩, ⟨⟨1, 0, 0⟩, ⟨0.0, 0.0, 0.0, 0.02⟩⟩,
             ⟨⟨0, 1, 0⟩, ⟨0.0, 0.0, 0.0, 0.02⟩⟩]⟩] := by
  have hy : renderYarn true renderer_negative_groups.m_group_colors scene_edge_and_boundary
      = none := by
    cases h : renderYarn true renderer_negative_groups.m_group_colors
        scene_edge_and_boundary with
    | none => rfl
    | some T =>
      have := (renderYarn_nil_table scene_edge_and_boundary).mp ⟨T, h⟩
      simp [scene_edge_and_boundary, scene_negative_groups, TwoDScene.empty] at this
  have hnone : renderParticleSimulation build_debug interp_black renderer_negative_groups
      scene_edge_and_boundary 1 = none := by
    unfold renderParticleSimulation
    have hb : build_debug.RENDER_ENABLED = true := rfl
    rw [if_pos hb]
    apply sequence_eq_none_of_mem
    have hflag : renderer_negative_groups.m_info.render_yarn = true := rfl
    simp only [frameSections, List.map, hflag, hy]
    simp
  refine ⟨rfl, rfl, rfl, hy, ?_, ?_⟩
  · unfold framePrimitives
    rw [hnone]
  · obtain ⟨T, hT⟩ := frame_edge_and_boundary_isSome
    obtain ⟨o2, h2, _⟩ := framePrimitives_of_render _ _ _ _ _ T hT GLState.initial
    refine ⟨o2, h2, ?_⟩
    rw [frame_emitted_levelset _ _ _ _ _ _ o2 rfl rfl rfl rfl h2]
    exact fieldBatches_triangle

/-- Claim C9, amended: for every scene and every two render configurations that differ only
in the value of one boolean render flag, when both frames run to their end from the same OpenGL
state (outside `glBegin` / `glEnd`), the batches drawn for every category other than the
flag's own have the same primitive kind, the same vertex positions (coordinates and
modelview) and the same vertex colours in the two frames; when the polygon mode at the
start of the frame is `GL_FILL` they are the same batches altogether. -/
theorem render_flag_independence (build : BuildConfig) (interp : ColorMap)
    (r : TwoDSceneRenderer) (scene : TwoDScene) (dt : scalar) (f : RenderFlag) (b : Bool)
    (s : GLState) (hs : s.current = none) (o1 o2 : List (Category × List GLBatch))
    (h1 : framePrimitives build interp r scene dt s = some o1)
    (h2 : framePrimitives build interp { r with m_info := r.m_info.withFlag f b }
      scene dt s = some o2) :
    ∀ c, c ≠ f.category →
      (emitted c o1).map GLBatch.shown = (emitted c o2).map GLBatch.shown ∧
      (s.polygonMode = GL_FILL → emitted c o1 = emitted c o2) := by
  unfold framePrimitives at h1 h2
  split at h1
  · simp at h1
  · split at h2
    · simp at h2
    · by_cases hb : build.RENDER_ENABLED = true
      · rw [if_pos hb] at h1 h2
        intro c hc
        constructor
        · exact map_shown_of_view _ _
            (runSections_independent false f.category _ _
              (frameSections_withFlag interp r scene dt f b)
              (frameSections_good interp r scene dt)
              (frameSections_good interp _ scene dt) s s o1 o2 hs (agree_refl false s)
              (fun h => by simp at h) h1 h2 c hc)
        · intro hpm
          have := runSections_independent true f.category _ _
            (frameSections_withFlag interp r scene dt f b)
            (frameSections_good interp r scene dt)
            (frameSections_good interp _ scene dt) s s o1 o2 hs (agree_refl true s)
            (fun _ => hpm) h1 h2 c hc
          rw [map_view_true, map_view_true] at this
          exact this
      · rw [if_neg hb] at h1 h2
        simp only [Option.some.injEq] at h1 h2
        subst h1 h2
        intro c _
        exact ⟨rfl, fun _ => rfl⟩

/-- The frame of the scene with two faces, a fiber edge and a boundary runs to its end,
with the fiber edges on or off. -/
theorem frame_cloth_yarn_boundary_isSome (b : Bool) :
    ∃ T, renderParticleSimulation build_debug interp_black
      { renderer_cloth_and_yarn with
        m_info := renderer_cloth_and_yarn.m_info.withFlag RenderFlag.render_yarn b }
      scene_cloth_yarn_boundary 1 = some T := by
  have hfaces : facesInRange scene_cloth_yarn_boundary := facesInRange_two_faces
  have hedges : edgesInRange scene_cloth_yarn_boundary := by
    refine ⟨?_, by decide, by decide, by decide, by decide⟩
    intro e he
    have hl : scene_cloth_yarn_boundary.getEdges = [(0, 3)] := rfl
    rw [hl, List.mem_singleton] at he
    subst he
    exact ⟨⟨by decide, by decide⟩, ⟨by decide, by decide⟩⟩
  obtain ⟨Tc, hc⟩ := renderCloth_isSome scene_cloth_yarn_boundary hfaces
  obtain ⟨Ty, hy⟩ := renderYarn_isSome (fill_group_colors 1) scene_cloth_yarn_boundary
    (by simp [fill_group_colors]) hedges
  have hy2 : ∃ Ty2, renderYarn b (fill_group_colors 1) scene_cloth_yarn_boundary
      = some Ty2 := by
    cases b
    · exact ⟨[], rfl⟩
    · exact ⟨Ty, hy⟩
  obtain ⟨Ty2, hy2⟩ := hy2
  obtain ⟨Tl, hl⟩ := levelset_triangle_isSome scene_cloth_yarn_boundary rfl
  have hdef : ¬ ((0.0 : scalar) > 0.0) := by norm_num
  have e1 : scene_cloth_yarn_boundary.getAttachForces = [] := rfl
  have e2 : scene_cloth_yarn_boundary.getFluidIndices = [] := rfl
  have e4 : ((scene_cloth_yarn_boundary.getX.length : Int) % 4 = 0) := by decide
  have e5 : (4 * scene_cloth_yarn_boundary.getNumParticles
      = (scene_cloth_yarn_boundary.getX.length : Int)) := by decide
  simp only [renderParticleSimulation, build_debug, cassert, frameSections,
    renderer_cloth_and_yarn, RenderInfo.withFlag, TwoDSceneRenderer.init_info, hc, hy2, hl,
    renderSpring, renderGauss, renderBuckets, renderCohesion, renderGridNodes, renderNodes,
    renderFaceCenters, renderEdgeCenters, renderCellCenters, renderParticles, renderVertices,
    renderVerticeVelocity, renderGaussVelocity, renderParticleVelocity,
    renderDeformationGradient, forEach, e1, e2, e4, e5, hdef,
    if_true, if_false, decide_True, List.map, sequence_cons_some, sequence_nil, Option.map,
    Bool.false_eq_true]
  exact ⟨_, rfl⟩

/-- Claim C9, amended, on the scene with two faces, one fiber edge and one solid boundary,
for the flag `render_yarn` switched off: both frames run to their end from the initial
OpenGL state, every category but the fiber edges draws the same batches in both, and the
level-set category, which comes after the fiber edges, draws the two triangle batches of the
boundary in both. -/
theorem render_flag_independence_witness :
    ∃ o1 o2,
      framePrimitives build_debug interp_black renderer_cloth_and_yarn
        scene_cloth_yarn_boundary 1 GLState.initial = some o1 ∧
      framePrimitives build_debug interp_black
        { renderer_cloth_and_yarn with
          m_info := renderer_cloth_and_yarn.m_info.withFlag RenderFlag.render_yarn false }
        scene_cloth_yarn_boundary 1 GLState.initial = some o2 ∧
      (∀ c, c ≠ RenderFlag.render_yarn.category →
        (emitted c o1).map GLBatch.shown = (emitted c o2).map GLBatch.shown ∧
        (GLState.initial.polygonMode = GL_FILL → emitted c o1 = emitted c o2)) ∧
      emitted Category.levelset o1
        = [⟨GL_TRIANGLES, GL_FILL,
            [GLTransform.translate 1 2 3, GLTransform.rotate ⟨1, 0, 0, 0⟩],
            [⟨⟨0, 0, 0⟩, ⟨0.0, 0.0, 0.0, 0.02⟩⟩, ⟨⟨1, 0, 0⟩, ⟨0.0, 0.0, 0.0, 0.02⟩⟩,
             ⟨⟨0, 1, 0⟩, ⟨0.0, 0.0, 0.0, 0.02⟩⟩]⟩,
           ⟨GL_TRIANGLES, GL_LINE,
            [GLTransform.translate 1 2 3, GLTransform.rotate ⟨1, 0, 0, 0⟩],
            [⟨⟨0, 0, 0⟩, ⟨0.0, 0.0, 0.0, 0.02⟩⟩, ⟨⟨1, 0, 0⟩, ⟨0.0, 0.0, 0.0, 0.02⟩⟩,
             ⟨⟨0, 1, 0⟩, ⟨0.0, 0.0, 0.0, 0.02⟩⟩]⟩] ∧
      emitted Category.levelset o2 = emitted Category.levelset o1 := by
  obtain ⟨T1, hT1⟩ := frame_cloth_yarn_boundary_isSome true
  obtain ⟨T2, hT2⟩ := frame_cloth_yarn_boundary_isSome false
  have hr : ({ renderer_cloth_and_yarn with
      m_info := renderer_cloth_and_yarn.m_info.withFlag RenderFlag.render_yarn true }
      : TwoDSceneRenderer) = renderer_cloth_and_yarn := rfl
  rw [hr] at hT1
  obtain ⟨o1, h1, _⟩ := framePrimitives_of_render _ _ _ _ _ T1 hT1 GLState.initial
  obtain ⟨o2, h2, _⟩ := framePrimitives_of_render _ _ _ _ _ T2 hT2 GLState.initial
  have hind := render_flag_independence build_debug interp_black renderer_cloth_and_yarn
    scene_cloth_yarn_boundary 1 RenderFlag.render_yarn false GLState.initial rfl o1 o2 h1 h2
  have hl1 : emitted Category.levelset o1
      = scene_cloth_yarn_boundary.getGroupDistanceField.flatMap
          (spec_fieldBatches GLState.initial.modelview) :=
    frame_emitted_levelset _ _ _ _ _ _ o1 rfl rfl rfl rfl h1
  refine ⟨o1, o2, h1, h2, hind, ?_, ?_⟩
  · rw [hl1]
    exact fieldBatches_triangle
  · exact ((hind Category.levelset (by decide)).2 rfl).symm

theorem sequence_append_eq_some (ps qs : List (Option (List GLCmd))) (T : List GLCmd) :
    sequence (ps ++ qs) = some T ↔
      ∃ P Q, sequence ps = some P ∧ sequence qs = some Q ∧ T = P ++ Q := by
  induction ps generalizing T with
  | nil =>
    simp only [List.nil_append, sequence_nil, Option.some.injEq]
    constructor
    · intro h
      exact ⟨[], T, rfl, h, rfl⟩
    · rintro ⟨P, Q, rfl, h, rfl⟩
      exact h
  | cons p ps ih =>
    rw [List.cons_append, sequence_cons_eq_some]
    constructor
    · rintro ⟨t, ts, hp, hrest, rfl⟩
      obtain ⟨P, Q, h1, h2, rfl⟩ := (ih ts).mp hrest
      exact ⟨t ++ P, Q, (sequence_cons_eq_some p ps _).mpr ⟨t, P, hp, h1, rfl⟩, h2, by simp⟩
    · rintro ⟨P, Q, h1, h2, rfl⟩
      obtain ⟨t, ts, hp, hrest, rfl⟩ := (sequence_cons_eq_some p ps P).mp h1
      exact ⟨t, ts ++ Q, hp, (ih _).mpr ⟨ts, Q, hrest, h2, rfl⟩, by simp⟩

/-- In a frame that runs to its end, the calls issued before the level-set category form a
neutral stretch: started outside `glBegin` / `glEnd` they end outside, with the modelview as
it was and the polygon mode as it was or at `GL_FILL`. -/
theorem frame_before_levelset (build : BuildConfig) (interp : ColorMap)
    (r : TwoDSceneRenderer) (scene : TwoDScene) (dt : scalar) (T : List GLCmd)
    (h : renderParticleSimulation build interp r scene dt = some T)
    (hb : build.RENDER_ENABLED = true) :
    ∃ P L, T = P ++ L ∧ renderLevelset r.m_info.render_levelset scene = some L ∧
      Neutral P := by
  unfold renderParticleSimulation at h
  rw [if_pos hb] at h
  have hsplit : (cassert build (decide ((scene.getX.length : Int) % 4 = 0)) ::
      cassert build (decide (4 * scene.getNumParticles = (scene.getX.length : Int))) ::
      (frameSections interp r scene dt).map (fun s => s.2))
      = (cassert build (decide ((scene.getX.length : Int) % 4 = 0)) ::
          cassert build (decide (4 * scene.getNumParticles = (scene.getX.length : Int))) ::
          ((frameSections interp r scene dt).take 13).map (fun s => s.2))
        ++ [renderLevelset r.m_info.render_levelset scene] := rfl
  rw [hsplit, sequence_append_eq_some] at h
  obtain ⟨P, Q, hP, hQ, rfl⟩ := h
  rw [sequence_cons_eq_some] at hQ
  obtain ⟨L, r2, hL, hnil, rfl⟩ := hQ
  simp only [sequence_nil, Option.some.injEq] at hnil
  subst hnil
  refine ⟨P, L, by simp, hL, ?_⟩
  refine sequence_induction Neutral neutral_nil neutral_append _ P hP ?_
  intro p hp t ht
  rcases List.mem_cons.mp hp with rfl | hp
  · rw [cassert_eq_some _ _ _ ht]
    exact neutral_nil
  · rcases List.mem_cons.mp hp with rfl | hp
    · rw [cassert_eq_some _ _ _ ht]
      exact neutral_nil
    · obtain ⟨a, ha, rfl⟩ := List.mem_map.mp hp
      exact (frameSections_good interp r scene dt a (List.mem_of_mem_take ha) t ht).2


/-- Claim C8: with level-set rendering enabled the category has a result whenever the
meshes of the solid and terminator boundaries index their own vertices; whenever it has a
result, started outside `glBegin` / `glEnd` in polygon mode `GL_FILL`, it draws for every
boundary list the contributions of the boundaries in order, where a boundary whose tag is
neither solid nor terminator issues no call and contributes no batch, and a boundary tagged
solid with one mesh contributes exactly one `GL_FILL` triangle batch followed by one
`GL_LINE` triangle batch, both under the boundary's own translation and rotation, each with
three vertices per index triple. In a frame that runs to its end from a state outside
`glBegin` / `glEnd` in polygon mode `GL_FILL`, the level-set category is started in such a
state. -/
theorem levelset_boundary_batches (scene : TwoDScene) :
    ((∀ ptr ∈ scene.getGroupDistanceField,
        (ptr.usage = DistanceFieldUsage.DFU_SOLID ∨
          ptr.usage = DistanceFieldUsage.DFU_TERMINATOR) →
        ∀ m ∈ ptr.meshes, meshInRange m) →
      ∃ T, renderLevelset true scene = some T) ∧
    (∀ T, renderLevelset true scene = some T →
      ∀ s : GLState, s.current = none → s.polygonMode = GL_FILL →
        (s.exec T).2
          = scene.getGroupDistanceField.flatMap (spec_fieldBatches s.modelview)) ∧
    (∀ (ptr : DistanceField) (tag : Nat) (mv : List GLTransform),
      ptr.usage = DistanceFieldUsage.DFU_OTHER tag →
        renderField ptr = some [] ∧ spec_fieldBatches mv ptr = []) ∧
    (∀ (ptr : DistanceField) (mesh : FieldMesh) (mv : List GLTransform),
      ptr.usage = DistanceFieldUsage.DFU_SOLID → ptr.meshes = [mesh] →
        spec_fieldBatches mv ptr
          = [⟨GL_TRIANGLES, GL_FILL,
              mv ++ [GLTransform.translate mesh.center.x mesh.center.y mesh.center.z,
                     GLTransform.rotate mesh.rot],
              (spec_meshPositions mesh).map (fun p => ⟨p, ⟨0.0, 0.0, 0.0, 0.02⟩⟩)⟩,
             ⟨GL_TRIANGLES, GL_LINE,
              mv ++ [GLTransform.translate mesh.center.x mesh.center.y mesh.center.z,
                     GLTransform.rotate mesh.rot],
              (spec_meshPositions mesh).map (fun p => ⟨p, ⟨0.0, 0.0, 0.0, 0.02⟩⟩)⟩] ∧
        ∀ t, renderField ptr = some t →
          (spec_meshPositions mesh).length = 3 * mesh.indices.length) ∧
    (∀ (build : BuildConfig) (interp : ColorMap) (r : TwoDSceneRenderer) (dt : scalar)
        (T : List GLCmd),
      renderParticleSimulation build interp r scene dt = some T →
      build.RENDER_ENABLED = true →
      ∃ P L, T = P ++ L ∧ renderLevelset r.m_info.render_levelset scene = some L ∧
        ∀ s : GLState, s.current = none → s.polygonMode = GL_FILL →
          (s.exec P).1.current = none ∧ (s.exec P).1.polygonMode = GL_FILL ∧
          (s.exec P).1.modelview = s.modelview) := by
  refine ⟨renderLevelset_isSome scene, ?_, ?_, ?_, ?_⟩
  rotate_right
  · intro build interp r dt T hT hb
    obtain ⟨P, L, h1, h2, hN⟩ := frame_before_levelset build interp r scene dt T hT hb
    refine ⟨P, L, h1, h2, ?_⟩
    intro s hs hpm
    obtain ⟨n1, n2, _, n4⟩ := hN s hs
    refine ⟨n1, ?_, n2⟩
    rcases n4 with h | h
    · rw [h, hpm]
    · exact h
  · intro T hT s hs hpm
    exact (renderLevelset_exec scene T hT s hs hpm).2
  · intro ptr tag mv hu
    simp [renderField, spec_fieldBatches, hu]
  · intro ptr mesh mv hu hm
    refine ⟨by simp [spec_fieldBatches, hu, hm, spec_meshBatch], ?_⟩
    intro t ht
    simp only [renderField, hu] at ht
    rw [sequence_cons_eq_some] at ht
    obtain ⟨t1, r1, e1, ht, rfl⟩ := ht
    rw [sequence_cons_eq_some] at ht
    obtain ⟨P, r2, eP, ht, rfl⟩ := ht
    obtain ⟨A, B, hA, hB, rfl⟩ := fieldPasses_eq_some ptr P eP
    simp only [DistanceField.render, hm] at hA
    rw [forEach_cons_eq_some] at hA
    obtain ⟨a, as, ha, _, _⟩ := hA
    exact (fieldCallback_exec mesh a ha GLState.initial rfl).2

/-- Claim C8 on a scene with a boundary of another tag (whose mesh could not even be drawn)
followed by a solid boundary with one triangle: from the initial OpenGL state the category
draws exactly the filled and the wireframe batch of the solid boundary, under its
translation `(1, 2, 3)` and its rotation. -/
theorem levelset_boundary_batches_witness :
    ∃ T, renderLevelset true scene_boundaries = some T ∧
      (GLState.initial.exec T).2
        = [⟨GL_TRIANGLES, GL_FILL,
            [GLTransform.translate 1 2 3, GLTransform.rotate ⟨1, 0, 0, 0⟩],
            [⟨⟨0, 0, 0⟩, ⟨0.0, 0.0, 0.0, 0.02⟩⟩, ⟨⟨1, 0, 0⟩, ⟨0.0, 0.0, 0.0, 0.02⟩⟩,
             ⟨⟨0, 1, 0⟩, ⟨0.0, 0.0, 0.0, 0.02⟩⟩]⟩,
           ⟨GL_TRIANGLES, GL_LINE,
            [GLTransform.translate 1 2 3, GLTransform.rotate ⟨1, 0, 0, 0⟩],
            [⟨⟨0, 0, 0⟩, ⟨0.0, 0.0, 0.0, 0.02⟩⟩, ⟨⟨1, 0, 0⟩, ⟨0.0, 0.0, 0.0, 0.02⟩⟩,
             ⟨⟨0, 1, 0⟩, ⟨0.0, 0.0, 0.0, 0.02⟩⟩]⟩] ∧
      renderField ⟨DistanceFieldUsage.DFU_OTHER 1, [mesh_broken]⟩ = some [] := by
  have hwf : ∀ ptr ∈ scene_boundaries.getGroupDistanceField,
      (ptr.usage = DistanceFieldUsage.DFU_SOLID ∨
        ptr.usage = DistanceFieldUsage.DFU_TERMINATOR) →
      ∀ m ∈ ptr.meshes, meshInRange m := by
    intro ptr hptr hu m hm
    simp only [scene_boundaries, TwoDScene.empty, List.mem_cons, List.mem_singleton,
      List.not_mem_nil, or_false] at hptr
    rcases hptr with rfl | rfl
    · simp at hu
    · simp only [List.mem_singleton] at hm
      subst hm
      exact meshInRange_triangle
  obtain ⟨T, hT⟩ := (levelset_boundary_batches scene_boundaries).1 hwf
  refine ⟨T, hT, ?_,
    ((levelset_boundary_batches scene_boundaries).2.2.1
      ⟨DistanceFieldUsage.DFU_OTHER 1, [mesh_broken]⟩ 1 [] rfl).1⟩
  rw [(levelset_boundary_batches scene_boundaries).2.1 T hT GLState.initial rfl rfl]
  have hfields : scene_boundaries.getGroupDistanceField
      = [⟨DistanceFieldUsage.DFU_OTHER 1, [mesh_broken]⟩,
         ⟨DistanceFieldUsage.DFU_SOLID, [mesh_triangle]⟩] := rfl
  rw [hfields]
  simp only [List.flatMap_cons, List.flatMap_nil, List.append_nil]
  rw [((levelset_boundary_batches scene_boundaries).2.2.1
      ⟨DistanceFieldUsage.DFU_OTHER 1, [mesh_broken]⟩ 1 GLState.initial.modelview rfl).2,
    ((levelset_boundary_batches scene_boundaries).2.2.2.1
      ⟨DistanceFieldUsage.DFU_SOLID, [mesh_triangle]⟩ mesh_triangle
        GLState.initial.modelview rfl rfl).1]
  simp [spec_meshPositions, mesh_triangle, Vector3i.coeff, readAt, GLState.initial]

/-! ## The colour of the cloth wireframe pass -/

theorem wire_expression_eq (s : scalar) :
    (face_color2 * (1.0 - s) + fluid_color * s) * (0.85 : scalar)
        + face_color2 * (0.15 : scalar) = spec_wireColor s := by
  simp only [spec_wireColor, face_color2, fluid_color, Vector3s.mul_def, Vector3s.add_def,
    Vector3s.mk.injEq]
  refine ⟨?_, ?_, ?_⟩ <;> ring

/-- The calls of one wireframe vertex, in terms of the saturation of its own particle. -/
theorem clothLineVertex_eq (scene : TwoDScene) (p : Int) (fv vl : scalar) (px : Vector3s)
    (e1 : scene.getFluidVol.coeff p = some fv) (e2 : scene.getVol.coeff p = some vl)
    (e3 : scene.getX.segment3 (p * 4) = some px) :
    clothLineVertex scene p
      = some [glColor3d (spec_wireColor (saturation fv vl)).x
          (spec_wireColor (saturation fv vl)).y (spec_wireColor (saturation fv vl)).z,
          glVertex3dv px] := by
  unfold clothLineVertex
  rw [e1, e2, e3]
  simp only
  rw [wire_expression_eq]

/-- The two batches of the cloth category: the wireframe batch consists of the vertices
`spec_wireVertices`. -/
theorem renderCloth_exec_wire (scene : TwoDScene) (T : List GLCmd)
    (h : renderCloth true scene = some T) (s : GLState) (hs : s.current = none) :
    ∃ fill : List GLVertex,
      (s.exec T).2 = [⟨GL_TRIANGLES, GL_FILL, s.modelview, fill⟩,
        ⟨GL_TRIANGLES, GL_LINE, s.modelview, spec_wireVertices scene⟩] := by
  obtain ⟨F, W, hF, hW, rfl⟩ := renderCloth_eq_some scene T h
  have hnF : noEnd F = true :=
    noEnd_forEach _ _ F hF (fun f _ t ht =>
      noEnd_forEach _ _ t ht (fun r _ t2 ht2 => by
        obtain ⟨_, _, _, _, _, _, rfl⟩ := clothFillVertex_eq_some scene _ t2 ht2
        rfl))
  have hnW : noEnd W = true :=
    noEnd_forEach _ _ W hW (fun f _ t ht =>
      noEnd_forEach _ _ t ht (fun r _ t2 ht2 => by
        obtain ⟨_, _, _, _, _, _, rfl⟩ := clothLineVertex_eq_some scene _ t2 ht2
        rfl))
  have hW2 : ∀ c, (drawn c W).map id = spec_wireVertices scene :=
    drawn_forEach_map _ _ _ _ W hW (fun f _ t ht =>
      drawn_forEach_map _ _ _ _ t ht (fun r _ t2 ht2 c => by
        obtain ⟨fv, vl, px, e1, e2, e3, _⟩ := clothLineVertex_eq_some scene _ t2 ht2
        rw [clothLineVertex_eq scene _ fv vl px e1 e2 e3] at ht2
        simp only [Option.some.injEq] at ht2
        subst ht2
        simp only [e1, e2, e3]
        rfl))
  refine ⟨drawn s.color F, ?_⟩
  rw [← hW2 (lastColor s.color F), List.map_id]
  obtain ⟨pm, col, mv, st, cur⟩ := s
  simp only at hs
  subst hs
  rw [exec_cons]
  simp only [GLState.step, List.nil_append]
  rw [exec_block_then F hnF _ _ rfl, exec_cons]
  simp only [GLState.step, List.nil_append]
  rw [exec_block_then W hnW _ _ rfl]
  simp [exec_cons, exec_nil, GLState.step]

theorem saturation_unit_vol (s : scalar) (h0 : 0 ≤ s) (h1 : s ≤ 1) : saturation s 1 = s := by
  unfold saturation
  rw [std_max_of_le 1 (by norm_num), div_one]
  exact mathutils_clamp_inside s h0 h1

theorem facesInRange_wet_face : facesInRange scene_wet_face := by
  refine ⟨?_, by decide, by decide, by decide⟩
  intro f hf r hr
  have hl : scene_wet_face.getFaces = [⟨0, 1, 2⟩] := rfl
  rw [hl] at hf
  simp only [List.mem_singleton] at hf
  subst hf
  simp only [List.mem_cons, List.mem_singleton, List.not_mem_nil, or_false] at hr
  rcases hr with rfl | rfl | rfl <;> exact ⟨by decide, by decide⟩

/-- Claim C14: every vertex of the cloth wireframe pass is issued in the colour
`face_color2 * (1 - 0.85 * s) + fluid_color * (0.85 * s)` where `s` is the saturation of
that vertex's own particle, a number in `[0, 1]`, and every `s` in `[0, 1]` is the
saturation of a particle with fluid volume `s` and volume `1`; the wireframe batch of the
category consists of exactly these vertices. The colour is `face_color2` at `s = 0` and
`0.85 * fluid_color + 0.15 * face_color2` at `s = 1`; for every `s` in `[0, 1]` it differs
from the fluid colour and each of its channels lies in `[0, 1]`. -/
theorem wireframe_color_formula (scene : TwoDScene) (s : scalar) (h0 : 0 ≤ s) (h1 : s ≤ 1) :
    (∀ (p : Int) (fv vl : scalar) (px : Vector3s),
      scene.getFluidVol.coeff p = some fv → scene.getVol.coeff p = some vl →
      scene.getX.segment3 (p * 4) = some px →
        (0 ≤ saturation fv vl ∧ saturation fv vl ≤ 1) ∧
        clothLineVertex scene p
          = some [glColor3d (spec_wireColor (saturation fv vl)).x
              (spec_wireColor (saturation fv vl)).y (spec_wireColor (saturation fv vl)).z,
              glVertex3dv px]) ∧
    (∀ (p : Int) (px : Vector3s),
      scene.getFluidVol.coeff p = some s → scene.getVol.coeff p = some 1 →
      scene.getX.segment3 (p * 4) = some px →
        clothLineVertex scene p
          = some [glColor3d (spec_wireColor s).x (spec_wireColor s).y (spec_wireColor s).z,
              glVertex3dv px]) ∧
    (facesInRange scene → ∃ T, renderCloth true scene = some T) ∧
    (∀ T, renderCloth true scene = some T → ∀ st : GLState, st.current = none →
      ∃ fill : List GLVertex,
        (st.exec T).2 = [⟨GL_TRIANGLES, GL_FILL, st.modelview, fill⟩,
          ⟨GL_TRIANGLES, GL_LINE, st.modelview, spec_wireVertices scene⟩]) ∧
    spec_wireColor 0 = face_color2 ∧
    spec_wireColor 1 = fluid_color * (0.85 : scalar) + face_color2 * (0.15 : scalar) ∧
    spec_wireColor s ≠ fluid_color ∧
    (0 ≤ (spec_wireColor s).x ∧ (spec_wireColor s).x ≤ 1) ∧
    (0 ≤ (spec_wireColor s).y ∧ (spec_wireColor s).y ≤ 1) ∧
    (0 ≤ (spec_wireColor s).z ∧ (spec_wireColor s).z ≤ 1) := by
  have hx : (spec_wireColor s).x = 0.45 * (1 - 0.85 * s) := by
    simp [spec_wireColor, face_color2, fluid_color, Vector3s.mul_def, Vector3s.add_def]
  have hy : (spec_wireColor s).y = 0.45 * (1 - 0.85 * s) := by
    simp [spec_wireColor, face_color2, fluid_color, Vector3s.mul_def, Vector3s.add_def]
  have hz : (spec_wireColor s).z = 0.45 * (1 - 0.85 * s) + 0.85 * s := by
    simp [spec_wireColor, face_color2, fluid_color, Vector3s.mul_def, Vector3s.add_def]
  refine ⟨?_, ?_, renderCloth_isSome scene,
    fun T hT st hst => renderCloth_exec_wire scene T hT st hst, ?_, ?_, ?_, ?_, ?_, ?_⟩
  · intro p fv vl px e1 e2 e3
    exact ⟨mathutils_clamp_mem _, clothLineVertex_eq scene p fv vl px e1 e2 e3⟩
  · intro p px e1 e2 e3
    have := clothLineVertex_eq scene p s 1 px e1 e2 e3
    rw [saturation_unit_vol s h0 h1] at this
    exact this
  · simp only [spec_wireColor, face_color2, fluid_color, Vector3s.mul_def, Vector3s.add_def,
      Vector3s.mk.injEq]
    norm_num
  · simp only [spec_wireColor, face_color2, fluid_color, Vector3s.mul_def, Vector3s.add_def,
      Vector3s.mk.injEq]
    norm_num
  · intro h
    have := congrArg Vector3s.x h
    rw [hx] at this
    simp only [fluid_color] at this
    nlinarith
  · rw [hx]
    constructor <;> nlinarith
  · rw [hy]
    constructor <;> nlinarith
  · rw [hz]
    constructor <;> nlinarith

theorem wireVertices_wet_face :
    spec_wireVertices scene_wet_face
      = [⟨⟨0, 0, 0⟩, ⟨0.45, 0.45, 0.45, 1⟩⟩,
         ⟨⟨1, 0, 0⟩, ⟨0.25875, 0.25875, 0.68375, 1⟩⟩,
         ⟨⟨0, 1, 0⟩, ⟨0.0675, 0.0675, 0.9175, 1⟩⟩] := by
  have s0 : saturation 0 1 = 0 := saturation_zero_fluid 1
  have s1 : saturation (1 / 2) 1 = 1 / 2 :=
    saturation_unit_vol (1 / 2) (by norm_num) (by norm_num)
  have s2 : saturation 2 1 = 1 := by
    unfold saturation
    rw [std_max_of_le 1 (by norm_num), div_one]
    exact mathutils_clamp_above 2 (by norm_num)
  have e : spec_wireVertices scene_wet_face
      = [⟨⟨0, 0, 0⟩, Color4.ofVector3s (spec_wireColor (saturation 0 1))⟩,
         ⟨⟨1, 0, 0⟩, Color4.ofVector3s (spec_wireColor (saturation (1 / 2) 1))⟩,
         ⟨⟨0, 1, 0⟩, Color4.ofVector3s (spec_wireColor (saturation 2 1))⟩] := rfl
  rw [e, s0, s1, s2]
  simp only [spec_wireColor, face_color2, fluid_color, Vector3s.mul_def, Vector3s.add_def,
    Color4.ofVector3s]
  norm_num

/-- Claim C14 on one face whose three particles have the saturations `0`, `1/2` and `1`:
the wireframe batch carries the colours `face_color2`, the formula's value at `1/2`, and
`0.85 * fluid_color + 0.15 * face_color2`. -/
theorem wireframe_color_formula_witness :
    ((0 : scalar) ≤ 1 / 2 ∧ (1 / 2 : scalar) ≤ 1) ∧
    facesInRange scene_wet_face ∧
    ∃ T, renderCloth true scene_wet_face = some T ∧
      ∃ fill : List GLVertex,
        (GLState.initial.exec T).2 = [⟨GL_TRIANGLES, GL_FILL, [], fill⟩,
          ⟨GL_TRIANGLES, GL_LINE, [],
            [⟨⟨0, 0, 0⟩, ⟨0.45, 0.45, 0.45, 1⟩⟩,
             ⟨⟨1, 0, 0⟩, ⟨0.25875, 0.25875, 0.68375, 1⟩⟩,
             ⟨⟨0, 1, 0⟩, ⟨0.0675, 0.0675, 0.9175, 1⟩⟩]⟩] := by
  refine ⟨⟨by norm_num, by norm_num⟩, facesInRange_wet_face, ?_⟩
  obtain ⟨T, hT⟩ := (wireframe_color_formula scene_wet_face (1 / 2) (by norm_num)
    (by norm_num)).2.2.1 facesInRange_wet_face
  obtain ⟨fill, hfill⟩ := (wireframe_color_formula scene_wet_face (1 / 2) (by norm_num)
    (by norm_num)).2.2.2.1 T hT GLState.initial rfl
  refine ⟨T, hT, fill, ?_⟩
  rw [hfill, wireVertices_wet_face]
  rfl

/-! ## The grid-node overlays -/

theorem forEach_map {α β : Type} (f : α → β) (xs : List α)
    (body : β → Option (List GLCmd)) :
    forEach (xs.map f) body = forEach xs (fun x => body (f x)) := by
  induction xs with
  | nil => rfl
  | cons x xs ih => simp only [List.map_cons, forEach, ih]

theorem forEach_congr {α : Type} (xs : List α) (body1 body2 : α → Option (List GLCmd))
    (h : ∀ x ∈ xs, body1 x = body2 x) : forEach xs body1 = forEach xs body2 := by
  induction xs with
  | nil => rfl
  | cons x xs ih =>
    simp only [forEach, h x (List.mem_cons_self _ _),
      ih (fun y hy => h y (List.mem_cons_of_mem _ hy))]

theorem spec_triples_length (pos : List scalar) :
    (spec_triples pos).length = pos.length / 3 := by
  induction pos using spec_triples.induct with
  | case1 a b c rest ih =>
    simp only [spec_triples, List.length_cons, ih]
    omega
  | case2 pos h =>
    have : pos.length < 3 := by
      match pos, h with
      | [], _ => simp
      | [_], _ => simp
      | [_, _], _ => simp
      | a :: b :: c :: rest, h => exact absurd rfl (h a b c rest)
    rw [show spec_triples pos = [] from by
      match pos, h with
      | [], _ => rfl
      | [_], _ => rfl
      | [_, _], _ => rfl
      | a :: b :: c :: rest, h => exact absurd rfl (h a b c rest)]
    simp
    omega

theorem segment3_cons3 (a b c : scalar) (rest : List scalar) (j : Nat) :
    VectorXs.segment3 (a :: b :: c :: rest) (3 * ((j + 1 : Nat) : Int))
      = VectorXs.segment3 rest (3 * (j : Int)) := by
  unfold VectorXs.segment3
  have h1 : (0 : Int) ≤ 3 * ((j + 1 : Nat) : Int) := by omega
  have h2 : (0 : Int) ≤ 3 * (j : Int) := by omega
  have e1 : (3 * ((j + 1 : Nat) : Int)).toNat = 3 * j + 3 := by omega
  have e2 : (3 * (j : Int)).toNat = 3 * j := by omega
  rw [if_pos h1, if_pos h2, e1, e2]
  simp

/-- The inner loop of the constant-colour overlays always has a result: one vertex per
consecutive triple of the position array. -/
theorem nodePoints_eq (node_pos : VectorXs) :
    nodePoints node_pos = some ((spec_triples node_pos).map glVertex3dv) := by
  unfold nodePoints forRange
  induction node_pos using spec_triples.induct with
  | case1 a b c rest ih =>
    have hlen : (((a :: b :: c :: rest).length : Int) / 3).toNat
        = ((rest.length : Int) / 3).toNat + 1 := by
      simp only [List.length_cons]
      omega
    rw [hlen, List.range_succ_eq_map, List.map_cons, List.map_map]
    rw [forEach_cons_eq_some]
    refine ⟨[glVertex3dv ⟨a, b, c⟩], (spec_triples rest).map glVertex3dv, ?_, ?_, by
      simp [spec_triples]⟩
    · simp [vertexAt, VectorXs.segment3]
    · rw [forEach_map] at ih
      rw [forEach_map, ← ih]
      apply forEach_congr
      intro j _
      simp only [Function.comp, vertexAt, Nat.succ_eq_add_one]
      rw [segment3_cons3]
  | case2 pos h =>
    have hl : pos.length < 3 := by
      match pos, h with
      | [], _ => simp
      | [_], _ => simp
      | [_, _], _ => simp
      | a :: b :: c :: rest, h => exact absurd rfl (h a b c rest)
    have ht : spec_triples pos = [] := by
      match pos, h with
      | [], _ => rfl
      | [_], _ => rfl
      | [_, _], _ => rfl
      | a :: b :: c :: rest, h => exact absurd rfl (h a b c rest)
    have hz : ((pos.length : Int) / 3).toNat = 0 := by omega
    rw [hz, ht]
    rfl

theorem readAt_cons_succ {α : Type} (a : α) (l : List α) (i : Int) (b : α)
    (h : readAt l i = some b) : readAt (a :: l) (i + 1) = some b := by
  unfold readAt at h ⊢
  by_cases h0 : 0 ≤ i
  · rw [if_pos h0] at h
    rw [if_pos (by omega)]
    have : (i + 1).toNat = i.toNat + 1 := by omega
    rw [this]
    simpa using h
  · rw [if_neg h0] at h
    simp at h

/-- A counting loop over bucket numbers `0 .. n-1` that reads bucket `i` of a per-bucket
array is a loop over the first `n` entries of that array. -/
theorem forEach_range_readAt {α : Type} (n : Nat) (l : List α) (hn : n ≤ l.length)
    (body : Int → Option (List GLCmd)) (body2 : α → Option (List GLCmd))
    (hbody : ∀ i a, readAt l i = some a → body i = body2 a) :
    forEach ((List.range n).map (fun (i : Nat) => (i : Int))) body
      = forEach (l.take n) body2 := by
  induction n generalizing l body with
  | zero => simp [forEach]
  | succ n ih =>
    cases l with
    | nil => simp at hn
    | cons a l =>
      rw [List.range_succ_eq_map, List.map_cons, List.map_map, List.take_succ_cons]
      have h0 : body ((0 : Nat) : Int) = body2 a := hbody _ a (by simp [readAt])
      simp only [forEach, h0]
      have hrest : forEach (List.map ((fun (i : Nat) => (i : Int)) ∘ Nat.succ) (List.range n)) body
          = forEach (List.take n l) body2 := by
        rw [forEach_map]
        have := ih l (by simpa using hn) (fun i => body (i + 1))
          (fun i b hb => hbody (i + 1) b (readAt_cons_succ a l i b hb))
        rw [forEach_map] at this
        rw [← this]
        apply forEach_congr
        intro j _
        simp only [Function.comp, Nat.succ_eq_add_one, Nat.cast_add, Nat.cast_one]
      rw [hrest]

theorem forRange_readAt {α : Type} (n : Nat) (l : List α) (hn : n ≤ l.length)
    (body : Int → Option (List GLCmd)) (body2 : α → Option (List GLCmd))
    (hbody : ∀ i a, readAt l i = some a → body i = body2 a) :
    forRange (n : Int) body = forEach (l.take n) body2 := by
  unfold forRange
  rw [Int.toNat_ofNat]
  exact forEach_range_readAt n l hn body body2 hbody

theorem drawn_vertices (c : Color4) (ts : List Vector3s) :
    drawn c (ts.map glVertex3dv) = ts.map (fun q => ⟨q, c⟩) ∧
    lastColor c (ts.map glVertex3dv) = c := by
  induction ts with
  | nil => exact ⟨rfl, rfl⟩
  | cons t ts ih => simp [drawn, lastColor, ih.1, ih.2]

/-- The calls of a bucket loop that sets the constant colour in every bucket. -/
theorem constantBuckets_eq (scene : TwoDScene) (c : Vector3s) (pos : List VectorXs)
    (n : Nat) (hn : scene.getNumBuckets = (n : Int)) (hp : n ≤ pos.length) :
    constantBuckets scene c pos = some ((pos.take n).flatMap (fun node_pos =>
      glColor4d c.x c.y c.z 0.8 :: (spec_triples node_pos).map glVertex3dv)) := by
  unfold constantBuckets
  rw [hn, forRange_readAt n pos hp _
    (fun node_pos => sequence [some [glColor4d c.x c.y c.z 0.8], nodePoints node_pos])
    (fun i a h => by simp only [h])]
  apply forEach_of_forall
  intro node_pos _
  rw [nodePoints_eq, sequence_cons_some, sequence_cons_some, sequence_nil]
  simp

theorem drawn_constant_buckets (c0 : Color4) (c : Vector3s) (buckets : List VectorXs) :
    drawn c0 (buckets.flatMap (fun node_pos =>
      glColor4d c.x c.y c.z 0.8 :: (spec_triples node_pos).map glVertex3dv))
      = spec_bucketPoints c buckets := by
  induction buckets generalizing c0 with
  | nil => rfl
  | cons p ps ih =>
    have e : spec_bucketPoints c (p :: ps)
        = (spec_triples p).map (fun q => ⟨q, ⟨c.x, c.y, c.z, 0.8⟩⟩)
          ++ spec_bucketPoints c ps := rfl
    have d : ∀ (l : List GLCmd), drawn c0 (glColor4d c.x c.y c.z 0.8 :: l)
        = drawn ⟨c.x, c.y, c.z, 0.8⟩ l := fun l => rfl
    rw [List.flatMap_cons, List.cons_append, d, drawn_append, (drawn_vertices _ _).1,
      (drawn_vertices _ _).2, ih, e]

/-- The calls of the node switch under `RI_NV_CONSTANT`. -/
theorem renderNodes_constant_eq (interp : ColorMap) (scene : TwoDScene) (n : Nat)
    (hn : scene.getNumBuckets = (n : Int)) (hp : n ≤ scene.getNodePosSolidPhi.length) :
    renderNodes NodeView.RI_NV_CONSTANT interp scene
      = some (glColor4d node_color_solid_phi.x node_color_solid_phi.y
          node_color_solid_phi.z 0.8 ::
          (scene.getNodePosSolidPhi.take n).flatMap (fun node_pos =>
            (spec_triples node_pos).map glVertex3dv)) := by
  simp only [renderNodes]
  rw [hn, forRange_readAt n scene.getNodePosSolidPhi hp _ nodePoints
    (fun i a h => by simp only [h])]
  rw [forEach_of_forall _ _ (fun node_pos => (spec_triples node_pos).map glVertex3dv)
    (fun node_pos _ => nodePoints_eq node_pos)]
  rw [sequence_cons_some, sequence_cons_some, sequence_nil]
  simp

theorem drawn_plain_buckets (c : Color4) (buckets : List VectorXs) :
    drawn c (buckets.flatMap (fun node_pos => (spec_triples node_pos).map glVertex3dv))
      = buckets.flatMap (fun node_pos => (spec_triples node_pos).map (fun q => ⟨q, c⟩)) ∧
    lastColor c (buckets.flatMap (fun node_pos => (spec_triples node_pos).map glVertex3dv))
      = c := by
  induction buckets with
  | nil => exact ⟨rfl, rfl⟩
  | cons p ps ih =>
    simp only [List.flatMap_cons]
    rw [drawn_append, lastColor_append, (drawn_vertices _ _).1, (drawn_vertices _ _).2,
      ih.1, ih.2]
    exact ⟨rfl, rfl⟩

theorem spec_bucketPoints_length (c : Vector3s) (buckets : List VectorXs) :
    (spec_bucketPoints c buckets).length
      = (buckets.map (fun node_pos => node_pos.length / 3)).sum := by
  induction buckets with
  | nil => rfl
  | cons p ps ih =>
    have : spec_bucketPoints c (p :: ps)
        = (spec_triples p).map (fun q => ⟨q, ⟨c.x, c.y, c.z, 0.8⟩⟩)
          ++ spec_bucketPoints c ps := rfl
    rw [this, List.length_append, List.length_map, spec_triples_length, ih]
    simp

theorem spec_bucketPoints_append (c : Vector3s) (l1 l2 : List VectorXs) :
    spec_bucketPoints c (l1 ++ l2) = spec_bucketPoints c l1 ++ spec_bucketPoints c l2 := by
  simp [spec_bucketPoints]

/-- The calls of the three bucket loops of a constant-colour switch case. -/
theorem sequence_three_constant (scene : TwoDScene) (n : Nat)
    (hn : scene.getNumBuckets = (n : Int)) (ca cb cc : Vector3s) (pa pb pc : List VectorXs)
    (ha : n ≤ pa.length) (hb : n ≤ pb.length) (hc : n ≤ pc.length) :
    ∃ T, sequence [constantBuckets scene ca pa, constantBuckets scene cb pb,
        constantBuckets scene cc pc] = some T ∧
      ∀ c0, drawn c0 T = spec_bucketPoints ca (pa.take n) ++ (spec_bucketPoints cb (pb.take n)
        ++ spec_bucketPoints cc (pc.take n)) := by
  rw [constantBuckets_eq scene ca pa n hn ha, constantBuckets_eq scene cb pb n hn hb,
    constantBuckets_eq scene cc pc n hn hc]
  simp only [sequence_cons_some, sequence_nil, Option.map_some', List.append_nil]
  refine ⟨_, rfl, ?_⟩
  intro c0
  rw [drawn_append, drawn_append, drawn_constant_buckets, drawn_constant_buckets,
    drawn_constant_buckets]

theorem renderNodes_constant_drawn (interp : ColorMap) (scene : TwoDScene) (n : Nat)
    (hn : scene.getNumBuckets = (n : Int)) (hp : n ≤ scene.getNodePosSolidPhi.length) :
    ∃ T, renderNodes NodeView.RI_NV_CONSTANT interp scene = some T ∧
      ∀ c0, drawn c0 T
        = spec_bucketPoints node_color_solid_phi (scene.getNodePosSolidPhi.take n) := by
  refine ⟨_, renderNodes_constant_eq interp scene n hn hp, ?_⟩
  intro c0
  have d : ∀ (l : List GLCmd), drawn c0 (glColor4d node_color_solid_phi.x
      node_color_solid_phi.y node_color_solid_phi.z 0.8 :: l)
        = drawn ⟨node_color_solid_phi.x, node_color_solid_phi.y, node_color_solid_phi.z, 0.8⟩ l :=
    fun l => rfl
  rw [d, (drawn_plain_buckets _ _).1]
  rfl

theorem renderCellCenters_constant_drawn (interp : ColorMap) (scene : TwoDScene) (n : Nat)
    (hn : scene.getNumBuckets = (n : Int)) (hp : n ≤ scene.getNodePosP.length) :
    ∃ T, renderCellCenters CellCenterView.RI_CCV_CONSTANT interp scene = some T ∧
      ∀ c0, drawn c0 T = spec_bucketPoints node_color_p (scene.getNodePosP.take n) := by
  refine ⟨_, constantBuckets_eq scene node_color_p scene.getNodePosP n hn hp, ?_⟩
  intro c0
  exact drawn_constant_buckets c0 _ _

/-- The grid overlays draw one batch of points: the vertices of the four switches in the
order node, face-center, edge-center, cell-center. -/
theorem renderGridNodes_exec (info : RenderInfo) (interp : ColorMap) (scene : TwoDScene)
    (T : List GLCmd) (h : renderGridNodes info interp scene = some T)
    (s : GLState) (hs : s.current = none) :
    ∃ l1 l2 l3 l4 : List GLCmd,
      renderNodes info.render_nodes interp scene = some l1 ∧
      renderFaceCenters info.render_face_centers interp scene = some l2 ∧
      renderEdgeCenters info.render_edge_centers scene = some l3 ∧
      renderCellCenters info.render_cell_centers interp scene = some l4 ∧
      (s.exec T).2 = [⟨GL_POINTS, s.polygonMode, s.modelview,
        drawn s.color l1 ++ (drawn (lastColor s.color l1) l2
          ++ (drawn (lastColor (lastColor s.color l1) l2) l3
          ++ drawn (lastColor (lastColor (lastColor s.color l1) l2) l3) l4))⟩] := by
  simp only [renderGridNodes] at h
  rw [sequence_cons_eq_some] at h
  obtain ⟨t1, r1, e1, h, rfl⟩ := h
  rw [sequence_cons_eq_some] at h
  obtain ⟨l1, r2, hl1, h, rfl⟩ := h
  rw [sequence_cons_eq_some] at h
  obtain ⟨l2, r3, hl2, h, rfl⟩ := h
  rw [sequence_cons_eq_some] at h
  obtain ⟨l3, r4, hl3, h, rfl⟩ := h
  rw [sequence_cons_eq_some] at h
  obtain ⟨l4, r5, hl4, h, rfl⟩ := h
  rw [sequence_cons_eq_some] at h
  obtain ⟨t6, r6, e6, h, rfl⟩ := h
  simp only [sequence_nil, Option.some.injEq] at h e1 e6
  subst h e1 e6
  refine ⟨l1, l2, l3, l4, hl1, hl2, hl3, hl4, ?_⟩
  have f1 := noEnd_of_flat _ (renderNodes_good _ _ _ l1 hl1).1
  have f2 := noEnd_of_flat _ (renderFaceCenters_good _ _ _ l2 hl2).1
  have f3 := noEnd_of_flat _ (renderEdgeCenters_good _ _ l3 hl3).1
  have f4 := noEnd_of_flat _ (renderCellCenters_good _ _ _ l4 hl4).1
  have hS : noEnd (l1 ++ (l2 ++ (l3 ++ l4))) = true := by
    simp [noEnd_append, f1, f2, f3, f4]
  have hT : [glEnable GL_BLEND, glBlendFunc, glBegin GL_POINTS]
      ++ (l1 ++ (l2 ++ (l3 ++ (l4 ++ ([glEnd, glDisable GL_BLEND] ++ [])))))
      = glEnable GL_BLEND :: glBlendFunc :: glBegin GL_POINTS ::
          ((l1 ++ (l2 ++ (l3 ++ l4))) ++ glEnd :: [glDisable GL_BLEND]) := by
    simp
  have st1 : s.step (glEnable GL_BLEND) = (s, []) := by simp [GLState.step, hs]
  have st2 : s.step glBlendFunc = (s, []) := by simp [GLState.step, hs]
  rw [hT, exec_cons, st1, exec_cons, st2, exec_block_then _ hS _ s hs]
  simp only [List.nil_append, exec_cons, exec_nil, GLState.step, List.append_nil, hs]
  simp [drawn_append, lastColor_append]

theorem spec_triples_short (p : VectorXs) (h : p.length < 3) : spec_triples p = [] := by
  have := spec_triples_length p
  rw [Nat.div_eq_of_lt h] at this
  exact List.length_eq_zero.mp this

theorem spec_bucketPoints_skip (c : Vector3s) (l1 : List VectorXs) (p : VectorXs)
    (l2 : List VectorXs) (h : p.length < 3) :
    spec_bucketPoints c (l1 ++ p :: l2) = spec_bucketPoints c (l1 ++ l2) := by
  have e : spec_bucketPoints c (p :: l2) = spec_bucketPoints c l2 := by
    simp [spec_bucketPoints, spec_triples_short p h]
  rw [spec_bucketPoints_append, spec_bucketPoints_append, e]

/-- Claim C12: in a scene with `n` buckets whose eight per-bucket position arrays are
present for every bucket, each field kind drawn under a constant view selector (solid-phase
nodes; face-centers x, y, z; edge-centers x, y, z; cell-centers) emits exactly the
consecutive 3-component triples of its per-bucket position arrays, buckets in ascending
index and triples in array order, every point in that kind's own constant colour; these
are the vertices of the one `GL_POINTS` batch the overlay pass draws; the number of points
of a kind is the sum over the buckets of `size / 3` (integer division), and a bucket with
fewer than three entries contributes nothing. -/
theorem constant_view_points (interp : ColorMap) (scene : TwoDScene) (n : Nat)
    (hn : scene.getNumBuckets = (n : Int))
    (hp : n ≤ scene.getNodePosSolidPhi.length ∧
      n ≤ scene.getNodePosX.length ∧ n ≤ scene.getNodePosY.length ∧
      n ≤ scene.getNodePosZ.length ∧ n ≤ scene.getNodePosEX.length ∧
      n ≤ scene.getNodePosEY.length ∧ n ≤ scene.getNodePosEZ.length ∧
      n ≤ scene.getNodePosP.length) :
    (∃ T, renderNodes NodeView.RI_NV_CONSTANT interp scene = some T ∧
      ∀ c0, drawn c0 T
        = spec_bucketPoints node_color_solid_phi (scene.getNodePosSolidPhi.take n)) ∧
    (∃ T, renderFaceCenters FaceCenterView.RI_FCV_CONSTANT interp scene = some T ∧
      ∀ c0, drawn c0 T
        = spec_bucketPoints node_color_x (scene.getNodePosX.take n)
          ++ (spec_bucketPoints node_color_y (scene.getNodePosY.take n)
          ++ spec_bucketPoints node_color_z (scene.getNodePosZ.take n))) ∧
    (∃ T, renderEdgeCenters EdgeCenterView.RI_ECV_CONSTANT scene = some T ∧
      ∀ c0, drawn c0 T
        = spec_bucketPoints node_color_ex (scene.getNodePosEX.take n)
          ++ (spec_bucketPoints node_color_ey (scene.getNodePosEY.take n)
          ++ spec_bucketPoints node_color_ez (scene.getNodePosEZ.take n))) ∧
    (∃ T, renderCellCenters CellCenterView.RI_CCV_CONSTANT interp scene = some T ∧
      ∀ c0, drawn c0 T = spec_bucketPoints node_color_p (scene.getNodePosP.take n)) ∧
    (∀ (info : RenderInfo) (T : List GLCmd) (s : GLState),
      renderGridNodes info interp scene = some T → s.current = none →
      ∃ nodes faces edges cells : List GLVertex,
        (s.exec T).2 = [⟨GL_POINTS, s.polygonMode, s.modelview,
          nodes ++ (faces ++ (edges ++ cells))⟩] ∧
        (info.render_nodes = NodeView.RI_NV_CONSTANT → nodes
          = spec_bucketPoints node_color_solid_phi (scene.getNodePosSolidPhi.take n)) ∧
        (info.render_face_centers = FaceCenterView.RI_FCV_CONSTANT → faces
          = spec_bucketPoints node_color_x (scene.getNodePosX.take n)
            ++ (spec_bucketPoints node_color_y (scene.getNodePosY.take n)
            ++ spec_bucketPoints node_color_z (scene.getNodePosZ.take n))) ∧
        (info.render_edge_centers = EdgeCenterView.RI_ECV_CONSTANT → edges
          = spec_bucketPoints node_color_ex (scene.getNodePosEX.take n)
            ++ (spec_bucketPoints node_color_ey (scene.getNodePosEY.take n)
            ++ spec_bucketPoints node_color_ez (scene.getNodePosEZ.take n))) ∧
        (info.render_cell_centers = CellCenterView.RI_CCV_CONSTANT → cells
          = spec_bucketPoints node_color_p (scene.getNodePosP.take n))) ∧
    (∀ (c : Vector3s) (buckets : List VectorXs),
      (spec_bucketPoints c buckets).length
        = (buckets.map (fun node_pos => node_pos.length / 3)).sum ∧
      ∀ v ∈ spec_bucketPoints c buckets, v.color = ⟨c.x, c.y, c.z, 0.8⟩) ∧
    (∀ (c : Vector3s) (l1 : List VectorXs) (p : VectorXs) (l2 : List VectorXs),
      p.length < 3 → spec_bucketPoints c (l1 ++ p :: l2) = spec_bucketPoints c (l1 ++ l2)) := by
  obtain ⟨h1, h2, h3, h4, h5, h6, h7, h8⟩ := hp
  have N := renderNodes_constant_drawn interp scene n hn h1
  have F : ∃ T, renderFaceCenters FaceCenterView.RI_FCV_CONSTANT interp scene = some T ∧
      ∀ c0, drawn c0 T
        = spec_bucketPoints node_color_x (scene.getNodePosX.take n)
          ++ (spec_bucketPoints node_color_y (scene.getNodePosY.take n)
          ++ spec_bucketPoints node_color_z (scene.getNodePosZ.take n)) :=
    sequence_three_constant scene n hn _ _ _ _ _ _ h2 h3 h4
  have E : ∃ T, renderEdgeCenters EdgeCenterView.RI_ECV_CONSTANT scene = some T ∧
      ∀ c0, drawn c0 T
        = spec_bucketPoints node_color_ex (scene.getNodePosEX.take n)
          ++ (spec_bucketPoints node_color_ey (scene.getNodePosEY.take n)
          ++ spec_bucketPoints node_color_ez (scene.getNodePosEZ.take n)) :=
    sequence_three_constant scene n hn _ _ _ _ _ _ h5 h6 h7
  have C := renderCellCenters_constant_drawn interp scene n hn h8
  refine ⟨N, F, E, C, ?_, ?_, spec_bucketPoints_skip⟩
  · intro info T s hT hs
    obtain ⟨l1, l2, l3, l4, hl1, hl2, hl3, hl4, hx⟩ :=
      renderGridNodes_exec info interp scene T hT s hs
    refine ⟨_, _, _, _, hx, ?_, ?_, ?_, ?_⟩
    · intro he
      obtain ⟨t, ht, hd⟩ := N
      rw [he, ht] at hl1
      cases hl1
      exact hd _
    · intro he
      obtain ⟨t, ht, hd⟩ := F
      rw [he, ht] at hl2
      cases hl2
      exact hd _
    · intro he
      obtain ⟨t, ht, hd⟩ := E
      rw [he, ht] at hl3
      cases hl3
      exact hd _
    · intro he
      obtain ⟨t, ht, hd⟩ := C
      rw [he, ht] at hl4
      cases hl4
      exact hd _
  · intro c buckets
    refine ⟨spec_bucketPoints_length c buckets, ?_⟩
    intro v hv
    simp only [spec_bucketPoints, List.mem_flatMap, List.mem_map] at hv
    obtain ⟨p, _, q, _, rfl⟩ := hv
    rfl

/-- Claim C12 on a scene with two buckets: the solid-phase nodes of the first bucket, whose
position array has seven entries, are its two triples; the second bucket has no node. -/
theorem constant_view_points_witness :
    scene_grid.getNumBuckets = ((2 : Nat) : Int) ∧
    (∃ T, renderNodes NodeView.RI_NV_CONSTANT interp_black scene_grid = some T ∧
      ∀ c0, drawn c0 T
        = spec_bucketPoints node_color_solid_phi (scene_grid.getNodePosSolidPhi.take 2)) ∧
    spec_bucketPoints node_color_solid_phi (scene_grid.getNodePosSolidPhi.take 2)
      = [⟨⟨0, 0, 0⟩, ⟨node_color_solid_phi.x, node_color_solid_phi.y,
            node_color_solid_phi.z, 0.8⟩⟩,
         ⟨⟨1, 2, 3⟩, ⟨node_color_solid_phi.x, node_color_solid_phi.y,
            node_color_solid_phi.z, 0.8⟩⟩] :=
  ⟨rfl,
   (constant_view_points interp_black scene_grid 2 rfl
      ⟨by decide, by decide, by decide, by decide, by decide, by decide, by decide,
        by decide⟩).1,
   rfl⟩

theorem forRange_isSome (n : Int) (body : Int → Option (List GLCmd))
    (h : ∀ i, 0 ≤ i → i < n → ∃ t, body i = some t) : ∃ T, forRange n body = some T := by
  unfold forRange
  apply forEach_isSome_of_forall
  intro i hi
  simp only [List.mem_map, List.mem_range] at hi
  obtain ⟨k, hk, rfl⟩ := hi
  exact h _ (by omega) (by omega)

theorem sequence_isSome (ps : List (Option (List GLCmd)))
    (h : ∀ p ∈ ps, ∃ t, p = some t) : ∃ T, sequence ps = some T :=
  forEach_isSome_of_forall ps (fun part => part) h

/-- A triple read at offset `3 * j` with `j < n / 3` lies inside an array of length `n`. -/
theorem triple_in_bounds (node_pos : VectorXs) (j : Int) (h0 : 0 ≤ j)
    (h1 : j < (node_pos.length : Int) / 3) :
    3 * j + 2 < (node_pos.length : Int) ∧ ∃ p, node_pos.segment3 (3 * j) = some p := by
  have hb : 3 * j + 2 < (node_pos.length : Int) := by omega
  exact ⟨hb, segment3_isSome node_pos (3 * j) (by omega) hb⟩

theorem nodeFieldPoints_isSome (color : scalar → Vector3s) (node_pos field : VectorXs)
    (h : (field.length : Int) = (node_pos.length : Int) / 3) :
    ∃ T, nodeFieldPoints color node_pos field = some T := by
  unfold nodeFieldPoints
  apply forRange_isSome
  intro j h0 h1
  obtain ⟨v, hv⟩ := coeff_isSome field j h0 (by omega)
  obtain ⟨_, p, hp⟩ := triple_in_bounds node_pos j h0 h1
  simp only [hv, hp]
  exact ⟨_, rfl⟩

theorem fieldBuckets_isSome (scene : TwoDScene) (color : scalar → Vector3s)
    (pos field : List VectorXs) (h : spec_lengthsAgree scene.getNumBuckets pos field) :
    ∃ T, fieldBuckets scene color pos field = some T := by
  unfold fieldBuckets
  apply forRange_isSome
  intro i h0 h1
  obtain ⟨p, f, hp, hf, hl⟩ := h i h0 h1
  simp only [hp, hf]
  exact nodeFieldPoints_isSome color p f hl

theorem constantBuckets_isSome (scene : TwoDScene) (c : Vector3s) (pos : List VectorXs)
    (h : scene.getNumBuckets ≤ (pos.length : Int)) :
    ∃ T, constantBuckets scene c pos = some T := by
  unfold constantBuckets
  apply forRange_isSome
  intro i h0 h1
  obtain ⟨p, hp⟩ := readAt_isSome pos i h0 (by omega)
  simp only [hp]
  rw [nodePoints_eq, sequence_cons_some, sequence_cons_some, sequence_nil]
  exact ⟨_, rfl⟩

theorem lengthsAgree_present (n : Int) (pos field : List VectorXs)
    (h : spec_lengthsAgree n pos field) : n ≤ (pos.length : Int) := by
  by_contra hc
  have hlt : (pos.length : Int) < n := by omega
  obtain ⟨p, f, hp, _, _⟩ := h (pos.length : Int) (by omega) hlt
  unfold readAt at hp
  simp at hp

theorem renderNodes_isSome (v : NodeView) (interp : ColorMap) (scene : TwoDScene)
    (h : spec_lengthsAgree scene.getNumBuckets scene.getNodePosSolidPhi
      scene.getNodeSolidPhi) :
    ∃ T, renderNodes v interp scene = some T := by
  cases v
  · exact ⟨_, rfl⟩
  · simp only [renderNodes]
    apply sequence_isSome
    intro p hp
    simp only [List.mem_cons, List.mem_singleton, List.not_mem_nil, or_false] at hp
    rcases hp with rfl | rfl
    · exact ⟨_, rfl⟩
    · apply forRange_isSome
      intro i h0 h1
      obtain ⟨q, hq⟩ := readAt_isSome scene.getNodePosSolidPhi i h0
        (by have := lengthsAgree_present _ _ _ h; omega)
      simp only [hq]
      exact ⟨_, nodePoints_eq q⟩
  · exact fieldBuckets_isSome _ _ _ _ h

theorem sequence_three_isSome (A B C : Option (List GLCmd)) (hA : ∃ t, A = some t)
    (hB : ∃ t, B = some t) (hC : ∃ t, C = some t) : ∃ T, sequence [A, B, C] = some T := by
  apply sequence_isSome
  intro p hp
  simp only [List.mem_cons, List.mem_singleton, List.not_mem_nil, or_false] at hp
  rcases hp with rfl | rfl | rfl
  · exact hA
  · exact hB
  · exact hC

theorem renderFaceCenters_isSome (v : FaceCenterView) (interp : ColorMap) (scene : TwoDScene)
    (h : spec_arrayLengthInvariant scene) :
    ∃ T, renderFaceCenters v interp scene = some T := by
  obtain ⟨_, hx, hy, hz, sx, sy, sz, _⟩ := h
  cases v
  · exact ⟨_, rfl⟩
  · exact sequence_three_isSome _ _ _
      (constantBuckets_isSome _ _ _ (lengthsAgree_present _ _ _ hx))
      (constantBuckets_isSome _ _ _ (lengthsAgree_present _ _ _ hy))
      (constantBuckets_isSome _ _ _ (lengthsAgree_present _ _ _ hz))
  · exact sequence_three_isSome _ _ _ (fieldBuckets_isSome _ _ _ _ hx)
      (fieldBuckets_isSome _ _ _ _ hy) (fieldBuckets_isSome _ _ _ _ hz)
  · exact sequence_three_isSome _ _ _ (fieldBuckets_isSome _ _ _ _ sx)
      (fieldBuckets_isSome _ _ _ _ sy) (fieldBuckets_isSome _ _ _ _ sz)

theorem renderEdgeCenters_isSome (v : EdgeCenterView) (scene : TwoDScene)
    (h : spec_arrayLengthInvariant scene) :
    ∃ T, renderEdgeCenters v scene = some T := by
  obtain ⟨_, _, _, _, _, _, _, _, ex, ey, ez⟩ := h
  cases v
  · exact ⟨_, rfl⟩
  · exact sequence_three_isSome _ _ _ (constantBuckets_isSome _ _ _ ex)
      (constantBuckets_isSome _ _ _ ey) (constantBuckets_isSome _ _ _ ez)

theorem renderCellCenters_isSome (v : CellCenterView) (interp : ColorMap) (scene : TwoDScene)
    (h : spec_arrayLengthInvariant scene) :
    ∃ T, renderCellCenters v interp scene = some T := by
  obtain ⟨_, _, _, _, _, _, _, hp, _⟩ := h
  cases v
  · exact ⟨_, rfl⟩
  · exact constantBuckets_isSome _ _ _ (lengthsAgree_present _ _ _ hp)
  · simp only [renderCellCenters]
    apply forRange_isSome
    intro i h0 h1
    obtain ⟨p, f, hp1, hf, hl⟩ := hp i h0 h1
    simp only [hp1, hf]
    obtain ⟨t, ht⟩ := nodeFieldPoints_isSome
      (fun v => interp v (-3.0 * scene.getCellSize) (3.0 * scene.getCellSize)) p f hl
    rw [ht, sequence_cons_some, sequence_cons_some, sequence_nil]
    exact ⟨_, rfl⟩

theorem renderGridNodes_isSome (info : RenderInfo) (interp : ColorMap) (scene : TwoDScene)
    (h : spec_arrayLengthInvariant scene) :
    ∃ T, renderGridNodes info interp scene = some T := by
  unfold renderGridNodes
  apply sequence_isSome
  intro p hp
  simp only [List.mem_cons, List.mem_singleton, List.not_mem_nil, or_false] at hp
  rcases hp with rfl | rfl | rfl | rfl | rfl | rfl
  · exact ⟨_, rfl⟩
  · exact renderNodes_isSome _ _ _ h.1
  · exact renderFaceCenters_isSome _ _ _ h
  · exact renderEdgeCenters_isSome _ _ h
  · exact renderCellCenters_isSome _ _ _ h
  · exact ⟨_, rfl⟩

theorem arrayLengthInvariant_grid : spec_arrayLengthInvariant scene_grid := by
  have two : ∀ i : Int, 0 ≤ i → i < scene_grid.getNumBuckets → i = 0 ∨ i = 1 := by
    intro i h0 h1
    have : scene_grid.getNumBuckets = 2 := rfl
    omega
  refine ⟨?_, ?_, ?_, ?_, ?_, ?_, ?_, ?_, by decide, by decide, by decide⟩ <;>
    (intro i h0 h1
     rcases two i h0 h1 with rfl | rfl
     · exact ⟨_, _, rfl, rfl, by decide⟩
     · exact ⟨_, _, rfl, rfl, by decide⟩)

/-- Claim C15: for every per-bucket position array, of any length `n`, every 3-component
read of the grid-node overlays at offset `3 * j` with `0 <= j < n / 3` (integer division)
is within bounds, `3 * j + 2 < n`, and has a result; when the paired scalar array has
`n / 3` elements every scalar read at such a `j` is within bounds and has a result; the
inner loops therefore run to their end, and under the array-length invariant the overlay
pass runs to its end for every combination of view selectors: no read is out of range. -/
theorem overlay_reads_in_bounds (node_pos field : VectorXs) :
    (∀ j : Int, 0 ≤ j → j < (node_pos.length : Int) / 3 →
      3 * j + 2 < (node_pos.length : Int) ∧ ∃ p, node_pos.segment3 (3 * j) = some p) ∧
    ((field.length : Int) = (node_pos.length : Int) / 3 →
      ∀ j : Int, 0 ≤ j → j < (node_pos.length : Int) / 3 →
        j < (field.length : Int) ∧ ∃ v, field.coeff j = some v) ∧
    (∃ T, nodePoints node_pos = some T) ∧
    ((field.length : Int) = (node_pos.length : Int) / 3 →
      ∀ color : scalar → Vector3s, ∃ T, nodeFieldPoints color node_pos field = some T) ∧
    (∀ (info : RenderInfo) (interp : ColorMap) (scene : TwoDScene),
      spec_arrayLengthInvariant scene → ∃ T, renderGridNodes info interp scene = some T) := by
  refine ⟨fun j h0 h1 => triple_in_bounds node_pos j h0 h1, ?_, ⟨_, nodePoints_eq node_pos⟩,
    fun h color => nodeFieldPoints_isSome color node_pos field h,
    fun info interp scene h => renderGridNodes_isSome info interp scene h⟩
  intro h j h0 h1
  have hb : j < (field.length : Int) := by omega
  exact ⟨hb, coeff_isSome field j h0 hb⟩

/-- Claim C15 on a position array of seven entries with its two scalars, read at `j = 1`,
and on the overlay pass of the scene with two buckets under field-driven selectors. -/
theorem overlay_reads_in_bounds_witness :
    ((0 : Int) ≤ 1 ∧ (1 : Int) < ((([0, 0, 0, 1, 2, 3, 9] : VectorXs).length : Int)) / 3) ∧
    (3 * (1 : Int) + 2 < ((([0, 0, 0, 1, 2, 3, 9] : VectorXs).length : Int)) ∧
      ∃ p, VectorXs.segment3 [0, 0, 0, 1, 2, 3, 9] (3 * 1) = some p) ∧
    (∃ v, VectorXs.coeff [5, 6] 1 = some v) ∧
    spec_arrayLengthInvariant scene_grid ∧
    ∃ T, renderGridNodes
      { TwoDSceneRenderer.init_info with
        render_nodes := NodeView.RI_NV_SOLID_PHI
        render_face_centers := FaceCenterView.RI_FCV_LIQUID_VOL
        render_cell_centers := CellCenterView.RI_CCV_LIQUID_PHI }
      interp_black scene_grid = some T :=
  ⟨⟨by decide, by decide⟩,
   (overlay_reads_in_bounds [0, 0, 0, 1, 2, 3, 9] [5, 6]).1 1 (by decide) (by decide),
   ((overlay_reads_in_bounds [0, 0, 0, 1, 2, 3, 9] [5, 6]).2.1 (by decide) 1 (by decide)
      (by decide)).2,
   arrayLengthInvariant_grid,
   (overlay_reads_in_bounds [0, 0, 0, 1, 2, 3, 9] [5, 6]).2.2.2.2 _ interp_black scene_grid
      arrayLengthInvariant_grid⟩

/-! ## The attachment springs -/

theorem springForce_zero (scene : TwoDScene) (force : AttachForce) (h : force.getKs = 0) :
    springForce scene force = some [] := by
  unfold springForce
  rw [if_pos (by rw [h]; norm_num)]

theorem springForce_eq_some (scene : TwoDScene) (force : AttachForce) (t : List GLCmd)
    (hk : force.getKs ≠ 0) (h : springForce scene force = some t) :
    ∃ a b, scene.getX.segment3 (force.getParticleIndex * 4) = some a ∧
      scene.getRestPos.segment3 (force.getParticleIndex * 4) = some b ∧
      t = [glVertex3dv a, glVertex3dv b] := by
  unfold springForce at h
  rw [if_neg (by intro h0; apply hk; rw [h0]; norm_num)] at h
  split at h
  · rename_i a b ha hb
    simp only [Option.some.injEq] at h
    exact ⟨a, b, ha, hb, h.symm⟩
  · simp at h

/-- The spring loop draws, in list order, one segment per attachment with non-zero
stiffness, in the colour current at its start, and sets no colour. -/
theorem springLoop_drawn (scene : TwoDScene) (c : Color4) (fs : List AttachForce)
    (T : List GLCmd) (h : forEach fs (fun force => springForce scene force) = some T) :
    noEnd T = true ∧
    ∃ segments : List (List GLVertex), drawn c T = segments.flatten ∧
      List.Forall₂ (spec_IsSpringSegment scene c)
        (fs.filter (fun force => decide (force.getKs ≠ 0))) segments := by
  induction fs generalizing T with
  | nil =>
    simp only [forEach, Option.some.injEq] at h
    subst h
    exact ⟨rfl, [], rfl, List.Forall₂.nil⟩
  | cons f fs ih =>
    rw [forEach_cons_eq_some] at h
    obtain ⟨t, ts, ht, hts, rfl⟩ := h
    obtain ⟨hn, segs, hd, hR⟩ := ih ts hts
    by_cases hk : f.getKs = 0
    · rw [springForce_zero scene f hk] at ht
      simp only [Option.some.injEq] at ht
      subst ht
      refine ⟨hn, segs, hd, ?_⟩
      rw [List.filter_cons_of_neg (by simp [hk])]
      exact hR
    · obtain ⟨a, b, ha, hb, rfl⟩ := springForce_eq_some scene f t hk ht
      refine ⟨by simpa [noEnd] using hn, [⟨a, c⟩, ⟨b, c⟩] :: segs, ?_, ?_⟩
      · simp [drawn, hd]
      · rw [List.filter_cons_of_pos (by simp [hk])]
        exact List.Forall₂.cons ⟨a, b, ha, hb, rfl⟩ hR

theorem springForce_isSome (scene : TwoDScene) (force : AttachForce)
    (h : force.getKs ≠ 0 → 0 ≤ force.getParticleIndex ∧
      force.getParticleIndex * 4 + 2 < (scene.getX.length : Int) ∧
      force.getParticleIndex * 4 + 2 < (scene.getRestPos.length : Int)) :
    ∃ t, springForce scene force = some t := by
  by_cases hk : force.getKs = 0
  · exact ⟨_, springForce_zero scene force hk⟩
  · obtain ⟨h0, h1, h2⟩ := h hk
    obtain ⟨a, ha⟩ := segment3_isSome scene.getX (force.getParticleIndex * 4) (by omega) h1
    obtain ⟨b, hb⟩ := segment3_isSome scene.getRestPos (force.getParticleIndex * 4)
      (by omega) h2
    unfold springForce
    rw [if_neg (by intro h0; apply hk; rw [h0]; norm_num)]
    simp only [ha, hb]
    exact ⟨_, rfl⟩

theorem attachesInRange_springs : attachesInRange scene_springs := by
  intro force hf hk
  have hl : scene_springs.getAttachForces = [⟨5, 1⟩, ⟨0, 0⟩, ⟨3, 0⟩] := rfl
  rw [hl] at hf
  simp only [List.mem_cons, List.mem_singleton, List.not_mem_nil, or_false] at hf
  rcases hf with rfl | rfl | rfl
  · exact ⟨by decide, by decide, by decide⟩
  · exact absurd rfl hk
  · exact ⟨by decide, by decide, by decide⟩

/-- Claim C13: with spring rendering enabled the spring category has a result whenever the
attachments of non-zero stiffness refer to stored particles; whenever it has a result it
draws one batch of lines in the attachment colour whose segments are, in list order, one
per attachment of non-zero stiffness, from the current position of the attachment's
particle to the rest position of the same particle; an attachment of zero stiffness
issues no call at all. -/
theorem spring_segments (scene : TwoDScene) :
    (attachesInRange scene → ∃ T, renderSpring true scene = some T) ∧
    (∀ T, renderSpring true scene = some T →
      ∀ s : GLState, s.current = none →
      ∃ segments : List (List GLVertex),
        (s.exec T).2 = [⟨GL_LINES, s.polygonMode, s.modelview, segments.flatten⟩] ∧
        (GLBatch.mk GL_LINES s.polygonMode s.modelview segments.flatten).primitives
          = segments ∧
        List.Forall₂ (spec_IsSpringSegment scene (Color4.ofVector3s attach_color))
          (scene.getAttachForces.filter (fun force => decide (force.getKs ≠ 0))) segments) ∧
    (∀ force : AttachForce, force.getKs = 0 → springForce scene force = some []) := by
  refine ⟨?_, ?_, fun force h => springForce_zero scene force h⟩
  · intro hwf
    obtain ⟨L, hL⟩ := forEach_isSome_of_forall scene.getAttachForces
      (fun force => springForce scene force)
      (fun force hf => springForce_isSome scene force (hwf force hf))
    simp only [renderSpring, if_true, hL, sequence_cons_some, sequence_nil]
    exact ⟨_, rfl⟩
  · intro T hT s hs
    simp only [renderSpring, if_true] at hT
    rw [sequence_cons_eq_some] at hT
    obtain ⟨t1, r1, e1, hT, rfl⟩ := hT
    rw [sequence_cons_eq_some] at hT
    obtain ⟨L, r2, hL, hT, rfl⟩ := hT
    rw [sequence_cons_eq_some] at hT
    obtain ⟨t3, r3, e3, hT, rfl⟩ := hT
    simp only [sequence_nil, Option.some.injEq] at hT e1 e3
    subst hT e1 e3
    obtain ⟨hn, segments, hd, hR⟩ :=
      springLoop_drawn scene (Color4.ofVector3s attach_color) scene.getAttachForces L hL
    refine ⟨segments, ?_, ?_, hR⟩
    · have hshape : [glColor3dv attach_color, glBegin GL_LINES] ++ (L ++ ([glEnd] ++ []))
          = glColor3dv attach_color :: glBegin GL_LINES :: (L ++ glEnd :: []) := by simp
      have st : s.step (glColor3dv attach_color)
          = ({ s with color := Color4.ofVector3s attach_color }, []) := by
        simp [GLState.step, hs]
      rw [hshape, exec_cons, st]
      simp only [List.nil_append]
      rw [exec_block L hn { s with color := Color4.ofVector3s attach_color } hs GL_LINES, hd]
    · apply primitives_flatten
      exact forall2_right_forall _ (fun seg => seg.length = GL_LINES.arity) _ _ hR
        (fun force seg h => by
          obtain ⟨a, b, _, _, rfl⟩ := h
          rfl)

/-- Claim C13 on a scene with three attachments, the second of zero stiffness: two segments
are drawn, for the first and the third attachment, each from the current to the rest
position of its particle, in the attachment colour. -/
theorem spring_segments_witness :
    attachesInRange scene_springs ∧
    ∃ T, renderSpring true scene_springs = some T ∧
      (GLState.initial.exec T).2 = [⟨GL_LINES, GL_FILL, [],
        [⟨⟨0, 2, 0⟩, Color4.ofVector3s attach_color⟩,
         ⟨⟨0, 2, 2⟩, Color4.ofVector3s attach_color⟩,
         ⟨⟨1, 0, 0⟩, Color4.ofVector3s attach_color⟩,
         ⟨⟨1, 1, 0⟩, Color4.ofVector3s attach_color⟩]⟩] := by
  refine ⟨attachesInRange_springs, ?_⟩
  obtain ⟨T, hT⟩ := (spring_segments scene_springs).1 attachesInRange_springs
  obtain ⟨segments, hexec, _, hR⟩ :=
    (spring_segments scene_springs).2.1 T hT GLState.initial rfl
  refine ⟨T, hT, ?_⟩
  rw [hexec]
  have hf : scene_springs.getAttachForces.filter (fun force => decide (force.getKs ≠ 0))
      = [⟨5, 1⟩, ⟨3, 0⟩] := by
    have hl : scene_springs.getAttachForces = [⟨5, 1⟩, ⟨0, 0⟩, ⟨3, 0⟩] := rfl
    rw [hl]
    simp [List.filter]
  rw [hf] at hR
  cases hR with
  | cons h1 h2 =>
    cases h2 with
    | cons h3 h4 =>
      cases h4
      obtain ⟨a, b, ha, hb, rfl⟩ := h1
      obtain ⟨c, d, hc, hd, rfl⟩ := h3
      have ea : scene_springs.getX.segment3 ((1 : Int) * 4) = some ⟨0, 2, 0⟩ := rfl
      have eb : scene_springs.getRestPos.segment3 ((1 : Int) * 4) = some ⟨0, 2, 2⟩ := rfl
      have ec : scene_springs.getX.segment3 ((0 : Int) * 4) = some ⟨1, 0, 0⟩ := rfl
      have ed : scene_springs.getRestPos.segment3 ((0 : Int) * 4) = some ⟨1, 1, 0⟩ := rfl
      simp only [] at ha hb hc hd
      rw [ea] at ha
      rw [eb] at hb
      rw [ec] at hc
      rw [ed] at hd
      cases ha
      cases hb
      cases hc
      cases hd
      rfl

/-! ## The assertions at the start of the frame -/

theorem cassert_false (build : BuildConfig) (hD : build.NDEBUG = false) :
    cassert build false = none := by
  simp [cassert, hD]

theorem cassert_true (build : BuildConfig) : cassert build true = some [] := by
  unfold cassert
  split <;> rfl

/-- Claim C11, as stated, fails: in a build with assertions active, with the node view
`RI_NV_SOLID_PHI`, a scene whose solid-phase scalar array has two elements while the
paired position array has `3 / 3 = 1` node is drawn to the end of the frame; no assertion
stops the call, and the node is drawn. -/
theorem scalar_length_unchecked_counterexample :
    build_debug.NDEBUG = false ∧
    renderer_solid_phi.m_info.render_nodes = NodeView.RI_NV_SOLID_PHI ∧
    readAt scene_scalar_mismatch.getNodePosSolidPhi 0 = some [0, 0, 0] ∧
    readAt scene_scalar_mismatch.getNodeSolidPhi 0 = some [5, 6] ∧
    ([5, 6] : VectorXs).length ≠ ([0, 0, 0] : VectorXs).length / 3 ∧
    ∃ T, renderParticleSimulation build_debug interp_black renderer_solid_phi
        scene_scalar_mismatch 1 = some T ∧
      glVertex3dv ⟨0, 0, 0⟩ ∈ T := by
  refine ⟨rfl, rfl, rfl, rfl, by decide, ?_⟩
  have hg : renderGridNodes renderer_solid_phi.m_info interp_black scene_scalar_mismatch
      = some [glEnable GL_BLEND, glBlendFunc, glBegin GL_POINTS,
          glColor4d 0 0 0 0.8, glVertex3dv ⟨0, 0, 0⟩, glEnd, glDisable GL_BLEND] := rfl
  have hdef : ¬ ((0.0 : scalar) > 0.0) := by norm_num
  have e0 : scene_scalar_mismatch.getFaces = [] := rfl
  have e1 : scene_scalar_mismatch.getAttachForces = [] := rfl
  have e2 : scene_scalar_mismatch.getFluidIndices = [] := rfl
  have e3 : scene_scalar_mismatch.getGroupDistanceField = [] := rfl
  have e4 : ((scene_scalar_mismatch.getX.length : Int) % 4 = 0) := by decide
  have e5 : (4 * scene_scalar_mismatch.getNumParticles
      = (scene_scalar_mismatch.getX.length : Int)) := by decide
  have e6 : scene_scalar_mismatch.getEdges = [] := rfl
  have hi : renderer_solid_phi.m_info
      = { TwoDSceneRenderer.init_info with render_nodes := NodeView.RI_NV_SOLID_PHI } := rfl
  have hc : ∃ t, renderCloth true scene_scalar_mismatch = some t := ⟨_, rfl⟩
  have hy : ∃ t, renderYarn true [] scene_scalar_mismatch = some t := ⟨_, rfl⟩
  obtain ⟨tc, hc⟩ := hc
  obtain ⟨ty, hy⟩ := hy
  have hm : renderer_solid_phi.m_group_colors = [] := rfl
  simp only [renderParticleSimulation, build_debug, cassert, frameSections, hg, hm,
    show renderer_solid_phi.m_info.render_cloth = true from rfl,
    show renderer_solid_phi.m_info.render_yarn = true from rfl,
    show renderer_solid_phi.m_info.render_spring = true from rfl,
    show renderer_solid_phi.m_info.render_gauss = false from rfl,
    show renderer_solid_phi.m_info.render_buckets = false from rfl,
    show renderer_solid_phi.m_info.render_cohesion = false from rfl,
    show renderer_solid_phi.m_info.render_particles = true from rfl,
    show renderer_solid_phi.m_info.render_vertices = false from rfl,
    show renderer_solid_phi.m_info.render_vertice_velocity = false from rfl,
    show renderer_solid_phi.m_info.render_gauss_velocity = false from rfl,
    show renderer_solid_phi.m_info.render_particle_velocity = false from rfl,
    show renderer_solid_phi.m_info.render_deformation_gradient_length = 0.0 from rfl,
    show renderer_solid_phi.m_info.render_levelset = true from rfl,
    hc, hy, renderSpring, renderGauss, renderBuckets, renderCohesion, renderParticles,
    renderVertices, renderVerticeVelocity, renderGaussVelocity, renderParticleVelocity,
    renderDeformationGradient, renderLevelset, forEach, e1, e2, e3, e4, e5, hdef,
    if_true, if_false, decide_True, List.map, sequence_cons_some, sequence_nil, Option.map,
    Bool.false_eq_true]
  refine ⟨_, rfl, ?_⟩
  simp

/-- Claim C11, amended: in a build with rendering compiled in and assertions active, for
every scene whose particle state is not in the 4-component layout (`x.size() % 4 != 0` or
`4 * numParticles != x.size()`) the call stops at one of the two assertions at its start,
whatever the rest of the scene and the configuration; for a scene in the 4-component layout
both assertions pass and the frame is the sequence of its categories, so nothing else is
asserted: the lengths of the per-bucket scalar arrays are not. -/
theorem layout_asserted (build : BuildConfig) (interp : ColorMap) (r : TwoDSceneRenderer)
    (scene : TwoDScene) (dt : scalar) (hR : build.RENDER_ENABLED = true)
    (hD : build.NDEBUG = false) :
    (((scene.getX.length : Int) % 4 ≠ 0 ∨
        4 * scene.getNumParticles ≠ (scene.getX.length : Int)) →
      (cassert build (decide ((scene.getX.length : Int) % 4 = 0)) = none ∨
        cassert build (decide (4 * scene.getNumParticles = (scene.getX.length : Int)))
          = none) ∧
      renderParticleSimulation build interp r scene dt = none) ∧
    (((scene.getX.length : Int) % 4 = 0 ∧
        4 * scene.getNumParticles = (scene.getX.length : Int)) →
      renderParticleSimulation build interp r scene dt
        = sequence ((frameSections interp r scene dt).map (fun s => s.2))) := by
  constructor
  · intro hbad
    have hc : cassert build (decide ((scene.getX.length : Int) % 4 = 0)) = none ∨
        cassert build (decide (4 * scene.getNumParticles = (scene.getX.length : Int)))
          = none := by
      rcases hbad with h | h
      · left
        rw [decide_eq_false h]
        exact cassert_false build hD
      · right
        rw [decide_eq_false h]
        exact cassert_false build hD
    refine ⟨hc, ?_⟩
    unfold renderParticleSimulation
    rw [if_pos hR]
    apply sequence_eq_none_of_mem
    rcases hc with h | h
    · rw [h]
      exact List.mem_cons_self _ _
    · rw [h]
      exact List.mem_cons_of_mem _ (List.mem_cons_self _ _)
  · intro hok
    unfold renderParticleSimulation
    rw [if_pos hR, decide_eq_true hok.1, decide_eq_true hok.2, cassert_true,
      sequence_cons_some, sequence_cons_some]
    cases sequence ((frameSections interp r scene dt).map (fun s => s.2)) <;> rfl

/-- Claim C11, amended, on a scene whose position array has one entry: the frame stops. -/
theorem layout_asserted_witness :
    build_debug.RENDER_ENABLED = true ∧ build_debug.NDEBUG = false ∧
    (scene_bad_layout.getX.length : Int) % 4 ≠ 0 ∧
    renderParticleSimulation build_debug interp_black renderer_solid_phi scene_bad_layout 1
      = none :=
  ⟨rfl, rfl, by decide,
   ((layout_asserted build_debug interp_black renderer_solid_phi scene_bad_layout 1
      rfl rfl).1 (Or.inl (by decide))).2⟩

end WetCloth
